import Mathlib

/-!
# CERAS screen recorder: shallow embedding and verified properties

The C sources (`encoder.c`, `recorder.c`, `audio.c`, `main.c`) are embedded as pure
functions.  Every call into an external library (libav, Xlib, ALSA, GTK, libc) is
represented by the value that call reports, supplied as an explicit argument, so that the
control flow of each C function is kept branch for branch.

* C strings are lists of characters (no terminating NUL is stored).
* C `int` values are `Int`; a result stored in an `int` / `int64_t` object goes through
  `wrapInt32` / `wrapInt64`.
* Fixed-size character buffers keep their size: `snprintf`, `strncpy` and `strftime` are
  modelled with their truncation behaviour.
-/

namespace CERAS

/-! ## Machine integers -/

def INT_MAX : Int := 2147483647

def INT_MIN : Int := -2147483648

def INT64_MAX : Int := 9223372036854775807

/-- Value held by a 32-bit `int` object after the arithmetic result `v` is stored in it. -/
def wrapInt32 (v : Int) : Int := (v + 2147483648) % 4294967296 - 2147483648

/-- Value held by an `int64_t` object after the arithmetic result `v` is stored in it. -/
def wrapInt64 (v : Int) : Int :=
  (v + 9223372036854775808) % 18446744073709551616 - 9223372036854775808

/-! ## encoder.h -/

inductive Quality where
  | QUALITY_LOW
  | QUALITY_MEDIUM
  | QUALITY_HIGH
  deriving DecidableEq, Repr

inductive AudioCodec where
  | AUDIO_CODEC_AAC
  | AUDIO_CODEC_PCM
  | AUDIO_CODEC_OPUS
  deriving DecidableEq, Repr

/-- The libavcodec codec identifiers the encoder uses. -/
inductive CodecID where
  | AV_CODEC_ID_H264
  | AV_CODEC_ID_AAC
  | AV_CODEC_ID_PCM_S16LE
  | AV_CODEC_ID_OPUS
  deriving DecidableEq, Repr

inductive SampleFormat where
  | AV_SAMPLE_FMT_S16
  | AV_SAMPLE_FMT_FLT
  | AV_SAMPLE_FMT_FLTP
  | AV_SAMPLE_FMT_NONE
  deriving DecidableEq, Repr

structure AVRational where
  num : Int
  den : Int
  deriving DecidableEq, Repr

/-- The part of `AVFormatContext` the encoder reads or writes. -/
structure AVFormatContext where
  /-- Third argument of `avformat_alloc_output_context2`: the forced container format. -/
  format_name : Option (List Char)
  /-- Fourth argument of `avformat_alloc_output_context2`. -/
  url : List Char
  /-- Bit `AVFMT_NOFILE` of `oformat->flags`. -/
  nofile : Bool
  /-- Bit `AVFMT_GLOBALHEADER` of `oformat->flags`. -/
  globalheader : Bool
  /-- Path on which `avio_open` opened `pb`, if it did. -/
  pb : Option (List Char)
  deriving DecidableEq, Repr

structure VideoCodecContext where
  codec_id : CodecID
  bit_rate : Int
  width : Int
  height : Int
  time_base : AVRational
  framerate : AVRational
  gop_size : Int
  max_b_frames : Int
  global_header : Bool
  deriving DecidableEq, Repr

structure AudioCodecContext where
  codec_id : CodecID
  bit_rate : Int
  sample_fmt : SampleFormat
  sample_rate : Int
  nb_channels : Int
  time_base : AVRational
  global_header : Bool
  /-- Set by `avcodec_open2`; the fixed frame window of the codec. -/
  frame_size : Int
  deriving DecidableEq, Repr

structure AVStream where
  index : Int
  time_base : AVRational
  deriving DecidableEq, Repr

/-- The resampler as configured by `setup_audio_stream`. -/
structure SwrContext where
  in_stereo : Bool
  out_stereo : Bool
  in_sample_rate : Int
  out_sample_rate : Int
  out_sample_fmt : SampleFormat
  deriving DecidableEq, Repr

/-- The scaler as configured by `setup_video_stream`. -/
structure SwsContext where
  width : Int
  height : Int
  deriving DecidableEq, Repr

structure EncoderContext where
  fmt_ctx : Option AVFormatContext
  video_enc_ctx : Option VideoCodecContext
  video_stream : Option AVStream
  audio_enc_ctx : Option AudioCodecContext
  audio_stream : Option AVStream
  sws_ctx : Option SwsContext
  swr_ctx : Option SwrContext
  frame_index : Int
  audio_pts : Int
  quality : Quality
  filename : List Char
  deriving DecidableEq, Repr

/-! ## encoder.c: frame submission -/

/-- What the library calls made by one `encoder_encode_video_frame` report. -/
structure VideoLib where
  /-- `av_frame_alloc` at line 220 returned a frame. -/
  frame_alloc : Bool
  /-- Return value of `av_frame_get_buffer`. -/
  get_buffer : Int
  /-- `av_frame_alloc` at line 231 returned a frame. -/
  rgb_alloc : Bool
  /-- Return value of `av_image_fill_arrays`. -/
  fill_arrays : Int
  /-- Return value of `avcodec_send_frame`. -/
  send_frame : Int
  /-- Return value of `avcodec_receive_packet`. -/
  receive_packet : Int
  /-- Return value of `av_interleaved_write_frame`. -/
  write_frame : Int
  deriving DecidableEq, Repr

/-- Observable result of one frame submission. -/
structure SubmitResult where
  ret : Int
  ctx : Option EncoderContext
  /-- The `pts` of the frame handed to `avcodec_send_frame`, when the call got that far. -/
  pts : Option Int
  /-- The `nb_samples` of that frame (audio only; `0` for video). -/
  nb_samples : Int
  /-- Whether `av_interleaved_write_frame` was called. -/
  wrote : Bool
  /-- The output and input sample counts passed to `swr_convert` (audio only), when the
  call got that far. -/
  swr_request : Option (Int × Int)
  deriving DecidableEq, Repr

/-- `encoder_encode_video_frame` (encoder.c 217-272).  `data = none` is the null buffer. -/
def encoder_encode_video_frame (ctx : Option EncoderContext) (data : Option (List Nat))
    (lib : VideoLib) : SubmitResult :=
  match ctx, data with
  | none, _ => ⟨-1, none, none, 0, false, none⟩
  | some c, none => ⟨-1, some c, none, 0, false, none⟩
  | some c, some _ =>
    if !lib.frame_alloc then ⟨-1, some c, none, 0, false, none⟩
    else if lib.get_buffer < 0 then ⟨lib.get_buffer, some c, none, 0, false, none⟩
    else if !lib.rgb_alloc then ⟨-1, some c, none, 0, false, none⟩
    else if lib.fill_arrays < 0 then ⟨lib.fill_arrays, some c, none, 0, false, none⟩
    else
      -- sws_scale; frame->pts = ctx->frame_index++;
      let pts := c.frame_index
      let c1 := { c with frame_index := wrapInt32 (c.frame_index + 1) }
      if lib.send_frame < 0 then ⟨lib.send_frame, some c1, some pts, 0, false, none⟩
      else if lib.receive_packet = 0 then ⟨lib.write_frame, some c1, some pts, 0, true, none⟩
      else ⟨lib.receive_packet, some c1, some pts, 0, false, none⟩

/-- What the library calls made by one `encoder_encode_audio_frame` report. -/
structure AudioLib where
  /-- `av_frame_alloc` returned a frame. -/
  frame_alloc : Bool
  /-- Return value of `av_channel_layout_copy`. -/
  layout_copy : Int
  /-- Return value of `av_frame_get_buffer`. -/
  get_buffer : Int
  /-- Return value of `swr_convert`: samples converted, or a negative error. -/
  converted : Int
  /-- Return value of `avcodec_send_frame`. -/
  send_frame : Int
  /-- Return value of `avcodec_receive_packet`. -/
  receive_packet : Int
  /-- Return value of `av_interleaved_write_frame`. -/
  write_frame : Int
  deriving DecidableEq, Repr

/-- The `in_samples` computation of line 281: `size / (nb_channels * sizeof(int16_t))`.
The divisor is a `size_t`, so `size` is converted to a 64-bit unsigned value, the division
is unsigned, and the quotient is stored back into an `int`. -/
def in_samples (size : Int) (nb_channels : Int) : Int :=
  wrapInt32 ((size % 18446744073709551616) / ((nb_channels * 2) % 18446744073709551616))

/-- The frame window requested from the resampler (lines 284-288). -/
def frame_window (a : AudioCodecContext) (size : Int) : Int :=
  if a.codec_id = CodecID.AV_CODEC_ID_PCM_S16LE then in_samples size a.nb_channels
  else a.frame_size

/-- `encoder_encode_audio_frame` (encoder.c 274-333).  The sample counts handed to
`swr_convert` are computed from `audio_enc_ctx`; they do not influence the control flow. -/
def encoder_encode_audio_frame (ctx : Option EncoderContext) (data : Option (List Nat))
    (size : Int) (lib : AudioLib) : SubmitResult :=
  match ctx, data with
  | none, _ => ⟨-1, none, none, 0, false, none⟩
  | some c, none => ⟨-1, some c, none, 0, false, none⟩
  | some c, some _ =>
    if !lib.frame_alloc then ⟨-1, some c, none, 0, false, none⟩
    else if lib.layout_copy < 0 then ⟨lib.layout_copy, some c, none, 0, false, none⟩
    else if lib.get_buffer < 0 then ⟨lib.get_buffer, some c, none, 0, false, none⟩
    else
      -- swr_convert(ctx->swr_ctx, frame->data, frame->nb_samples, &data, in_samples)
      let req := c.audio_enc_ctx.map
        (fun a => (frame_window a size, in_samples size a.nb_channels))
      if lib.converted < 0 then ⟨lib.converted, some c, none, 0, false, req⟩
      else
        -- frame->nb_samples = converted; frame->pts = ctx->audio_pts;
        -- ctx->audio_pts += converted;
        let pts := c.audio_pts
        let c1 := { c with audio_pts := wrapInt64 (c.audio_pts + lib.converted) }
        if lib.send_frame < 0 then
          ⟨lib.send_frame, some c1, some pts, lib.converted, false, req⟩
        else if lib.receive_packet = 0 then
          ⟨lib.write_frame, some c1, some pts, lib.converted, true, req⟩
        else ⟨lib.receive_packet, some c1, some pts, lib.converted, false, req⟩

/-- The presentation timestamps of the video frames submitted by a sequence of
`encoder_encode_video_frame` calls on one session, in submission order. -/
def video_pts_trace : Option EncoderContext → List (Option (List Nat) × VideoLib) → List Int
  | _, [] => []
  | ctx, (data, lib) :: rest =>
    let r := encoder_encode_video_frame ctx data lib
    match r.pts with
    | some p => p :: video_pts_trace r.ctx rest
    | none => video_pts_trace r.ctx rest

/-- The `(pts, nb_samples)` of the audio frames submitted by a sequence of
`encoder_encode_audio_frame` calls on one session, in submission order. -/
def audio_pts_trace :
    Option EncoderContext → List (Option (List Nat) × Int × AudioLib) → List (Int × Int)
  | _, [] => []
  | ctx, (data, size, lib) :: rest =>
    let r := encoder_encode_audio_frame ctx data size lib
    match r.pts with
    | some p => (p, r.nb_samples) :: audio_pts_trace r.ctx rest
    | none => audio_pts_trace r.ctx rest

/-- The session after a sequence of `encoder_encode_audio_frame` calls. -/
def audio_session_end :
    Option EncoderContext → List (Option (List Nat) × Int × AudioLib) → Option EncoderContext
  | ctx, [] => ctx
  | ctx, (data, size, lib) :: rest =>
    audio_session_end (encoder_encode_audio_frame ctx data size lib).ctx rest

/-! ## libc string and time functions -/

/-- The text left in a buffer of `size` bytes by `snprintf(buf, size, ...)` when the
formatted output is `s`: at most `size - 1` characters are stored before the NUL. -/
def snprintf (size : Nat) (s : List Char) : List Char := s.take (size - 1)

/-- The text left in `dst` by `strncpy(dst, src, n); dst[n] = 0`. -/
def strncpy (n : Nat) (src : List Char) : List Char := src.take n

/-- Index of the last occurrence of `ch` in `s` (`strrchr`), if any. -/
def strrchr : List Char → Char → Option Nat
  | [], _ => none
  | x :: xs, ch =>
    match strrchr xs ch with
    | some i => some (i + 1)
    | none => if x = ch then some 0 else none

/-- The broken-down local time `struct tm` (the fields `strftime` reads here). -/
structure Tm where
  /-- Years since 1900. -/
  tm_year : Int
  /-- Months since January, 0-11. -/
  tm_mon : Nat
  /-- Day of the month, 1-31. -/
  tm_mday : Nat
  tm_hour : Nat
  tm_min : Nat
  tm_sec : Nat
  deriving DecidableEq, Repr

/-- The value ranges of a `struct tm` returned by `localtime`. -/
def Tm.wf (t : Tm) : Prop :=
  INT_MIN ≤ t.tm_year ∧ t.tm_year ≤ INT_MAX ∧ t.tm_mon ≤ 11 ∧ 1 ≤ t.tm_mday ∧ t.tm_mday ≤ 31 ∧
    t.tm_hour ≤ 23 ∧ t.tm_min ≤ 59 ∧ t.tm_sec ≤ 60

instance (t : Tm) : Decidable t.wf := by
  unfold Tm.wf
  infer_instance

/-- Conversion `%Y`: the year as a decimal number. -/
def fmt_Y (t : Tm) : List Char :=
  let y := t.tm_year + 1900
  if y < 0 then '-' :: Nat.toDigits 10 y.natAbs else Nat.toDigits 10 y.natAbs

/-- A two-digit, zero-padded decimal number (conversions `%m`, `%d`, `%H`, `%M`, `%S`). -/
def fmt_02 (n : Nat) : List Char :=
  if n < 10 then '0' :: Nat.toDigits 10 n else Nat.toDigits 10 n

/-- The expansion of the format `"screenrecording_%Y%m%d_%H%M%S.mp4"`. -/
def filename_text (t : Tm) : List Char :=
  "screenrecording_".toList ++ fmt_Y t ++ fmt_02 (t.tm_mon + 1) ++ fmt_02 t.tm_mday ++
    "_".toList ++ fmt_02 t.tm_hour ++ fmt_02 t.tm_min ++ fmt_02 t.tm_sec ++ ".mp4".toList

/-- `strftime(buffer, size, ...)` with expansion `s`: the text is stored when it fits with
its NUL; otherwise `strftime` returns 0 and stores no usable text (the buffer was zeroed by
the `memset` of `encoder_init`, which is the empty string). -/
def strftime (size : Nat) (s : List Char) : List Char :=
  if s.length + 1 ≤ size then s else []

/-- `generate_filename` (encoder.c 18-22); `t` is `localtime(time(NULL))`. -/
def generate_filename (size : Nat) (t : Tm) : List Char :=
  strftime size (filename_text t)

/-! ## encoder.c: construction -/

/-- An encoder found by `avcodec_find_encoder`. -/
structure AVCodec where
  id : CodecID
  /-- The `sample_fmts` array; `none` is the null pointer. -/
  sample_fmts : Option (List SampleFormat)
  deriving DecidableEq, Repr

/-- What the library calls made by `setup_video_stream` report. -/
structure VideoSetupLib where
  /-- `avcodec_find_encoder(AV_CODEC_ID_H264)` found a codec. -/
  find_encoder : Bool
  /-- Index of the stream made by `avformat_new_stream`; `none` is the null pointer. -/
  new_stream : Option Int
  /-- `avcodec_alloc_context3` returned a context. -/
  alloc_context : Bool
  /-- Return value of `avcodec_open2`. -/
  open2 : Int
  /-- Return value of `avcodec_parameters_from_context`. -/
  parameters : Int
  /-- `sws_getContext` returned a context. -/
  sws_get : Bool
  deriving DecidableEq, Repr

def VIDEO_BIT_RATE : Int := 400000

def DEFAULT_AUDIO_BIT_RATE : Int := 64000

/-- `setup_video_stream` (encoder.c 24-72): the return value and the updated session. -/
def setup_video_stream (ctx : EncoderContext) (width height fps : Int)
    (lib : VideoSetupLib) : Int × EncoderContext :=
  if !lib.find_encoder then (-1, ctx)
  else
    match lib.new_stream with
    | none => (-1, ctx)
    | some idx =>
      let c1 := { ctx with video_stream := some ⟨idx, ⟨0, 0⟩⟩ }
      if !lib.alloc_context then (-1, c1)
      else
        let gh := match ctx.fmt_ctx with
          | some f => f.globalheader
          | none => false
        let v : VideoCodecContext :=
          { codec_id := CodecID.AV_CODEC_ID_H264, bit_rate := VIDEO_BIT_RATE, width := width,
            height := height, time_base := ⟨1, fps⟩, framerate := ⟨fps, 1⟩, gop_size := 12,
            max_b_frames := 2, global_header := gh }
        let c2 := { c1 with video_enc_ctx := some v }
        if lib.open2 < 0 then (lib.open2, c2)
        else if lib.parameters < 0 then (lib.parameters, c2)
        else
          let c3 := { c2 with video_stream := some ⟨idx, v.time_base⟩ }
          if !lib.sws_get then (-1, c3)
          else (0, { c3 with sws_ctx := some ⟨width, height⟩ })

/-- What the library calls made by `setup_audio_stream` report. -/
structure AudioSetupLib where
  /-- Result of `avcodec_find_encoder` for each codec identifier; `none` is not found. -/
  find_encoder : CodecID → Option AVCodec
  /-- Index of the stream made by `avformat_new_stream`; `none` is the null pointer. -/
  new_stream : Option Int
  /-- `avcodec_alloc_context3` returned a context. -/
  alloc_context : Bool
  /-- Return value of `avcodec_open2`. -/
  open2 : Int
  /-- The `frame_size` that `avcodec_open2` stores in the context. -/
  frame_size : Int
  /-- Return value of `avcodec_parameters_from_context`. -/
  parameters : Int
  /-- `swr_alloc` returned a context. -/
  swr_alloc : Bool
  /-- Return value of `swr_init`. -/
  swr_init : Int

/-- Result of `setup_audio_stream`. -/
structure AudioSetupResult where
  ret : Int
  ctx : EncoderContext
  /-- The codec context as it is when `avcodec_open2` is called, if it is called. -/
  open_arg : Option AudioCodecContext

/-- The codec looked up by the `switch` of lines 76-89. -/
def audio_codec_id : AudioCodec → CodecID
  | AudioCodec.AUDIO_CODEC_AAC => CodecID.AV_CODEC_ID_AAC
  | AudioCodec.AUDIO_CODEC_PCM => CodecID.AV_CODEC_ID_PCM_S16LE
  | AudioCodec.AUDIO_CODEC_OPUS => CodecID.AV_CODEC_ID_OPUS

/-- The sample rate after the Opus check of lines 110-113. -/
def effective_sample_rate (audio_codec : AudioCodec) (sample_rate : Int) : Int :=
  if audio_codec = AudioCodec.AUDIO_CODEC_OPUS ∧ sample_rate ≠ 48000 then 48000
  else sample_rate

/-- The audio codec context as lines 99-119 leave it, just before `avcodec_open2`. -/
def audio_configure (fmt : Option AVFormatContext) (cd : AVCodec) (sample_rate channels : Int)
    (audio_codec : AudioCodec) (audio_bitrate : Int) : AudioCodecContext :=
  let bit_rate := if audio_codec = AudioCodec.AUDIO_CODEC_PCM then 0 else audio_bitrate
  let sample_rate := effective_sample_rate audio_codec sample_rate
  let sample_fmt := match cd.sample_fmts with
    | some (f :: _) => f
    | some [] => SampleFormat.AV_SAMPLE_FMT_NONE
    | none => SampleFormat.AV_SAMPLE_FMT_FLTP
  let gh := match fmt with
    | some f => f.globalheader
    | none => false
  { codec_id := cd.id, bit_rate := bit_rate, sample_fmt := sample_fmt,
    sample_rate := sample_rate, nb_channels := channels,
    time_base := ⟨1, sample_rate⟩, global_header := gh, frame_size := 0 }

/-- `setup_audio_stream` (encoder.c 74-150). -/
def setup_audio_stream (ctx : EncoderContext) (sample_rate channels : Int)
    (audio_codec : AudioCodec) (audio_bitrate : Int) (lib : AudioSetupLib) :
    AudioSetupResult :=
  match lib.find_encoder (audio_codec_id audio_codec) with
  | none => ⟨-1, ctx, none⟩
  | some cd =>
    match lib.new_stream with
    | none => ⟨-1, ctx, none⟩
    | some idx =>
      let c1 := { ctx with audio_stream := some ⟨idx, ⟨0, 0⟩⟩ }
      if !lib.alloc_context then ⟨-1, c1, none⟩
      else
        let a := audio_configure ctx.fmt_ctx cd sample_rate channels audio_codec audio_bitrate
        let c2 := { c1 with audio_enc_ctx := some a }
        if lib.open2 < 0 then ⟨lib.open2, c2, some a⟩
        else
          let a1 := { a with frame_size := lib.frame_size }
          let c3 := { c2 with audio_enc_ctx := some a1 }
          if lib.parameters < 0 then ⟨lib.parameters, c3, some a⟩
          else
            let c4 := { c3 with audio_stream := some ⟨idx, a1.time_base⟩ }
            if !lib.swr_alloc then ⟨-1, c4, some a⟩
            else
              let swr : SwrContext :=
                { in_stereo := decide (channels = 2), out_stereo := decide (a1.nb_channels = 2),
                  in_sample_rate := a.sample_rate, out_sample_rate := a.sample_rate,
                  out_sample_fmt := a1.sample_fmt }
              let c5 := { c4 with swr_ctx := some swr }
              if lib.swr_init < 0 then ⟨lib.swr_init, c5, some a⟩
              else ⟨0, c5, some a⟩

/-- What the environment and the library calls made by `encoder_init` report. -/
structure InitLib where
  /-- `malloc(sizeof(EncoderContext))` returned a block. -/
  malloc : Bool
  /-- `getenv("HOME")`; `none` is the null pointer (variable unset). -/
  home : Option (List Char)
  /-- `localtime(time(NULL))`. -/
  now : Tm
  /-- Return value of `avformat_alloc_output_context2`. -/
  alloc_output : Int
  /-- It stored a container context in `fmt_ctx` (`false`: `fmt_ctx` stayed null). -/
  alloc_output_ctx : Bool
  /-- Bit `AVFMT_NOFILE` of the flags of the container format it chose. -/
  nofile : Bool
  /-- Bit `AVFMT_GLOBALHEADER` of the flags of the container format it chose. -/
  globalheader : Bool
  video : VideoSetupLib
  audio : AudioSetupLib
  /-- Return value of `avio_open`. -/
  avio_open : Int
  /-- Return value of `avformat_write_header`. -/
  write_header : Int

/-- Result of `encoder_init`. -/
structure InitResult where
  /-- The returned session; `none` is `NULL`. -/
  ctx : Option EncoderContext
  /-- The command line passed to `system`. -/
  mkdir_cmd : Option (List Char)
  /-- The local `fullpath`. -/
  fullpath : Option (List Char)
  /-- The container format name passed to `avformat_alloc_output_context2` (`none`: NULL). -/
  format_name : Option (List Char)
  /-- The audio codec context as it is when `avcodec_open2` is called, if it is called. -/
  audio_open_arg : Option AudioCodecContext
  /-- On a failure after `malloc`: the session contents at the moment `free(ctx)` runs. -/
  abandoned : Option EncoderContext

/-- The directory text written by `snprintf(filepath, 1024, "%s/Videos/Screenrecords/", home)`
(encoder.c 160-163 and main.c 392-395). -/
def output_dir (home : Option (List Char)) : List Char :=
  let h := match home with
    | some h => h
    | none => ".".toList
  snprintf 1024 (h ++ "/Videos/Screenrecords/".toList)

/-- The session file name of lines 167-173: the generated name, with the text from its last
dot on replaced by `.mov` when PCM is selected. -/
def session_filename (audio_codec : AudioCodec) (t : Tm) : List Char :=
  let name := generate_filename 512 t
  if audio_codec = AudioCodec.AUDIO_CODEC_PCM then
    match strrchr name '.' with
    | some i => name.take i ++ ".mov".toList
    | none => name
  else name

/-- `encoder_init` (encoder.c 152-215). -/
def encoder_init (quality : Quality) (width height fps sample_rate channels : Int)
    (audio_codec : AudioCodec) (audio_bitrate : Int) (lib : InitLib) : InitResult :=
  if !lib.malloc then ⟨none, none, none, none, none, none⟩
  else
    let c0 : EncoderContext :=
      { fmt_ctx := none, video_enc_ctx := none, video_stream := none, audio_enc_ctx := none,
        audio_stream := none, sws_ctx := none, swr_ctx := none, frame_index := 0,
        audio_pts := 0, quality := quality, filename := [] }
    let filepath := output_dir lib.home
    let mkdir_cmd := snprintf 1200 ("mkdir -p ".toList ++ filepath)
    let c1 := { c0 with filename := session_filename audio_codec lib.now }
    let fullpath := snprintf 2048 (filepath ++ c1.filename)
    let forced : Option (List Char) :=
      if audio_codec = AudioCodec.AUDIO_CODEC_PCM then some "mov".toList else none
    if lib.alloc_output < 0 ∨ !lib.alloc_output_ctx then
      ⟨none, some mkdir_cmd, some fullpath, forced, none, some c1⟩
    else
      let c2 := { c1 with
        fmt_ctx := some ⟨forced, fullpath, lib.nofile, lib.globalheader, none⟩ }
      let v := setup_video_stream c2 width height fps lib.video
      if v.1 < 0 then ⟨none, some mkdir_cmd, some fullpath, forced, none, some v.2⟩
      else
        let a := setup_audio_stream v.2 sample_rate channels audio_codec audio_bitrate
          lib.audio
        if a.ret < 0 then ⟨none, some mkdir_cmd, some fullpath, forced, a.open_arg, some a.ctx⟩
        else if !lib.nofile ∧ lib.avio_open < 0 then
          ⟨none, some mkdir_cmd, some fullpath, forced, a.open_arg, some a.ctx⟩
        else
          let c3 := if !lib.nofile then
              { a.ctx with
                fmt_ctx := some ⟨forced, fullpath, lib.nofile, lib.globalheader, some fullpath⟩ }
            else a.ctx
          if lib.write_header < 0 then
            ⟨none, some mkdir_cmd, some fullpath, forced, a.open_arg, some c3⟩
          else ⟨some c3, some mkdir_cmd, some fullpath, forced, a.open_arg, none⟩

/-! ## recorder.h, recorder.c -/

structure RecorderContext where
  root : Nat
  /-- Target window for capture (0: none). -/
  target : Nat
  x : Int
  y : Int
  width : Int
  height : Int
  is_capturing : Int
  is_window_capture : Int
  deriving DecidableEq, Repr

/-- What the X server reports to the recorder. -/
structure XServer where
  /-- `XOpenDisplay(NULL)` returned a display. -/
  open_display : Bool
  /-- `RootWindow` of the default screen. -/
  root : Nat
  /-- `DisplayWidth` and `DisplayHeight` of the default screen. -/
  display_width : Int
  display_height : Int
  /-- `XGetWindowAttributes`: `(x, y, width, height)` of a window, `none` on failure. -/
  window_attributes : Nat → Option (Int × Int × Int × Int)
  /-- `XGetImage(display, window, x, y, width, height, ...)`: the pixel at column `i`, row
  `j` of the grabbed image (`XGetPixel`), `none` when the grab fails. -/
  get_image : Nat → Int → Int → Int → Int → Option (Nat → Nat → Nat)
  /-- Whether `malloc` of the given number of bytes returns a block. -/
  malloc : Nat → Bool

/-- `recorder_init` (recorder.c 61-98). -/
def recorder_init (target : Nat) (xs : XServer) : Option RecorderContext :=
  if !xs.open_display then none
  else if target ≠ 0 then
    match xs.window_attributes target with
    | none => none
    | some (x, y, w, h) =>
      some { root := xs.root, target := target, x := x, y := y, width := w, height := h,
             is_capturing := 0, is_window_capture := 1 }
  else
    some { root := xs.root, target := 0, x := 0, y := 0, width := xs.display_width,
           height := xs.display_height, is_capturing := 0, is_window_capture := 0 }

/-- `recorder_start` (recorder.c 100-104): return value and updated context. -/
def recorder_start (ctx : Option RecorderContext) : Int × Option RecorderContext :=
  match ctx with
  | none => (-1, none)
  | some c => (0, some { c with is_capturing := 1 })

/-- `recorder_stop` (recorder.c 106-110). -/
def recorder_stop (ctx : Option RecorderContext) : Int × Option RecorderContext :=
  match ctx with
  | none => (-1, none)
  | some c => (0, some { c with is_capturing := 0 })

/-- The three stores of the inner loop body (recorder.c 144-148) for column `i`, row `j`.
`index` is an `int`; a store outside the block is undefined in C and is dropped here. -/
def store_pixel (width : Int) (pixel : Nat) (buffer : List Nat) (i j : Nat) : List Nat :=
  let index := wrapInt32 (wrapInt32 (wrapInt32 ((j : Int) * width) + (i : Int)) * 3)
  if index < 0 then buffer
  else
    ((buffer.set index.toNat ((pixel >>> 16) &&& 255)).set (index.toNat + 1)
      ((pixel >>> 8) &&& 255)).set (index.toNat + 2) (pixel &&& 255)

/-- The conversion loops of recorder.c 142-150 over an allocated block `buffer`. -/
def convert_rows (width height : Int) (img : Nat → Nat → Nat) (buffer : List Nat) : List Nat :=
  (List.range height.toNat).foldl
    (fun buf j => (List.range width.toNat).foldl
      (fun b i => store_pixel width (img i j) b i j) buf) buffer

/-- Result of `recorder_capture_frame`. -/
structure CaptureResult where
  /-- The returned buffer; `none` is `NULL`. -/
  frame : Option (List Nat)
  /-- The value stored through `linesize`, if any. -/
  linesize : Option Int
  /-- Window, x and y of the `XGetImage` call, if it was made. -/
  grab : Option (Nat × Int × Int)
  /-- The context after the call (the function stores nothing through `ctx`). -/
  ctx : Option RecorderContext
  deriving DecidableEq, Repr

/-- `recorder_capture_frame` (recorder.c 125-155).  `init` is the indeterminate content of
the freshly allocated block (as many bytes as requested are used); `linesize` is always a
valid pointer in the callers of this program. -/
def recorder_capture_frame (ctx : Option RecorderContext) (xs : XServer) (init : Nat → Nat) :
    CaptureResult :=
  match ctx with
  | none => ⟨none, none, none, none⟩
  | some c =>
    if c.is_capturing = 0 then ⟨none, none, none, some c⟩
    else
      let capture_win := if c.is_window_capture ≠ 0 then c.target else c.root
      let x := if c.is_window_capture ≠ 0 then 0 else c.x
      let y := if c.is_window_capture ≠ 0 then 0 else c.y
      match xs.get_image capture_win x y c.width c.height with
      | none => ⟨none, none, some (capture_win, x, y), some c⟩
      | some img =>
        let size := wrapInt32 (wrapInt32 (c.width * c.height) * 3)
        -- malloc takes a size_t: the int is converted to a 64-bit unsigned value
        let bytes := (size % 18446744073709551616).toNat
        if !xs.malloc bytes then ⟨none, none, some (capture_win, x, y), some c⟩
        else
          let buffer := (List.range bytes).map init
          ⟨some (convert_rows c.width c.height img buffer), some (wrapInt32 (c.width * 3)),
            some (capture_win, x, y), some c⟩

/-- `recorder_update_window_geometry` (recorder.c 160-173). -/
def recorder_update_window_geometry (ctx : Option RecorderContext) (xs : XServer) :
    Int × Option RecorderContext :=
  match ctx with
  | none => (-1, none)
  | some c =>
    if c.is_window_capture = 0 then (-1, some c)
    else
      match xs.window_attributes c.target with
      | none => (-1, some c)
      | some (x, y, w, h) => (0, some { c with x := x, y := y, width := w, height := h })

/-! ## main.c: the start path of `on_record_toggle` -/

inductive RecordSource where
  | RECORD_SOURCE_ALL
  | RECORD_SOURCE_WINDOW
  | RECORD_SOURCE_MONITOR
  deriving DecidableEq, Repr

/-- What the GUI and the X server report during the start path (main.c 291-358). -/
structure StartLib where
  /-- `gui_get_record_source`. -/
  source : RecordSource
  /-- `gui_get_resolution`. -/
  resolution_choice : List Char
  /-- `XOpenDisplay(NULL)` at line 302 returned a display. -/
  display_ok : Bool
  /-- `DisplayWidth` and `DisplayHeight` at lines 307-308: the native desktop size. -/
  native_width : Int
  native_height : Int
  /-- The X server as the recorder sees it. -/
  xserver : XServer
  /-- `recorder_select_window`: `(target, x, y, width, height)` when a window was picked and
  its geometry read; `none` when it returned without storing anything. -/
  select_window : Option (Nat × Int × Int × Int × Int)
  /-- `gui_get_monitor_name`; `none` is the null pointer. -/
  monitor_name : Option (List Char)
  /-- `get_monitor_geometry`: `(x, y, width, height)` of a connected monitor, `none` when it
  returns -1 without storing anything. -/
  monitor_geometry : List Char → Option (Int × Int × Int × Int)

/-- The resolution override of main.c 311-318 applied to the native size `(w, h)`. -/
def resolution_override (resolution_choice : List Char) (w h : Int) : Int × Int :=
  if resolution_choice = "1080p".toList then (1920, 1080)
  else if resolution_choice = "720p".toList then (1280, 720)
  else if resolution_choice = "480p".toList then (854, 480)
  else (w, h)

/-- State of the start path on reaching line 354: the recorder context and the locals
`capture_width`, `capture_height`. -/
structure StartDims where
  rec_ctx : RecorderContext
  capture_width : Int
  capture_height : Int
  deriving DecidableEq, Repr

/-- Lines 295-353 of `on_record_toggle`: `none` when the path returns early. -/
def start_dimensions (lib : StartLib) : Option StartDims :=
  if !lib.display_ok then none
  else
    let d := resolution_override lib.resolution_choice lib.native_width lib.native_height
    match lib.source with
    | RecordSource.RECORD_SOURCE_WINDOW =>
      match recorder_init 0 lib.xserver with
      | none => none
      | some _ =>
        -- recorder_select_window(rec_ctx->display, &target, &rec_ctx->x, &rec_ctx->y,
        --   &capture_width, &capture_height); recorder_cleanup(rec_ctx);
        let target := match lib.select_window with
          | some (t, _, _, _, _) => t
          | none => 0
        let d1 := match lib.select_window with
          | some (_, _, _, w, h) => (w, h)
          | none => d
        match recorder_init target lib.xserver with
        | none => none
        | some r => some ⟨r, d1.1, d1.2⟩
    | RecordSource.RECORD_SOURCE_MONITOR =>
      let g := match lib.monitor_name with
        | some mon => lib.monitor_geometry mon
        | none => none
      let cap := match g with
        | some (x, y, w, h) => (x, y, w, h)
        | none => (0, 0, d.1, d.2)
      match recorder_init 0 lib.xserver with
      | none => none
      | some r => some ⟨{ r with x := cap.1, y := cap.2.1 }, cap.2.2.1, cap.2.2.2⟩
    | RecordSource.RECORD_SOURCE_ALL =>
      match recorder_init 0 lib.xserver with
      | none => none
      | some r => some ⟨r, d.1, d.2⟩

/-- The correction of main.c 354-355: `if (v % 2 != 0) v--;` with the truncating `%` of C.
An odd `int` is larger than `INT_MIN`, so the decrement stays in range. -/
def even_correct (v : Int) : Int :=
  if Int.tmod v 2 ≠ 0 then v - 1 else v

/-- The recorder context after `recorder_start` and the width and height arguments of
`encoder_init` (main.c 354-365). -/
structure StartCapture where
  rec_ctx : RecorderContext
  enc_width : Int
  enc_height : Int
  deriving DecidableEq, Repr

/-- Lines 354-358 applied to the state reached at line 354. -/
def start_correct (d : StartDims) : StartCapture :=
  let capture_width := even_correct d.capture_width
  let capture_height := even_correct d.capture_height
  let r := { d.rec_ctx with width := capture_width, height := capture_height }
  ⟨{ r with is_capturing := 1 }, capture_width, capture_height⟩

/-- Lines 295-365 of `on_record_toggle` up to the call of `encoder_init`. -/
def start_capture (lib : StartLib) : Option StartCapture :=
  (start_dimensions lib).map start_correct

/-! ## main.c: the stop path of `on_record_toggle` -/

/-- `prompt_for_filename` (main.c 266-287): `accept` is whether the dialog ended with
`GTK_RESPONSE_ACCEPT`, `text` the entry text (`none`: null pointer). -/
def prompt_for_filename (accept : Bool) (text : Option (List Char)) : Option (List Char) :=
  if accept then
    match text with
    | some t => if t.length > 0 then some t else none
    | none => none
  else none

/-- The files that exist, by path. -/
abbrev FileSystem := List Char → Bool

/-- `remove(path)`: the return value and the file system afterwards.  `ok` is what the
system decides for a file that exists (the call can fail, for lack of permission say, and
main.c 421-423 handle that); a missing file always makes it fail.  A failed call changes
nothing. -/
def fs_remove (fs : FileSystem) (ok : Bool) (path : List Char) : Int × FileSystem :=
  if ok && fs path then (0, fun q => if q = path then false else fs q) else (-1, fs)

/-- `rename(old, new)`: the return value and the file system afterwards.  `ok` is what the
system decides for a file that exists (the call fails when the directory of `new` is
missing, say, and main.c 412-413 handle that).  A failed call changes nothing. -/
def fs_rename (fs : FileSystem) (ok : Bool) (old new : List Char) : Int × FileSystem :=
  if ok && fs old then
    (0, fun q => if q = new then true else if q = old then false else fs q)
  else (-1, fs)

inductive FsCall where
  | remove (path : List Char)
  | rename (old new : List Char)
  deriving DecidableEq, Repr

/-- The full output path: `snprintf(buf, 2048, "%s%s", dir, filename)` with the directory of
`output_dir` (encoder.c 174-175 and main.c 390-397). -/
def full_output_path (home : Option (List Char)) (filename : List Char) : List Char :=
  snprintf 2048 (output_dir home ++ filename)

/-- The local `new_fullpath` of main.c 400-410. -/
def rename_target (home : Option (List Char)) (new_basename : List Char) : List Char :=
  if new_basename.head? = some '/' then strncpy 2047 new_basename
  else snprintf 2048 (output_dir home ++ new_basename)

/-- Result of the file handling of the stop path. -/
structure StopFiles where
  /-- The `remove` and `rename` calls made, in order. -/
  calls : List FsCall
  fs : FileSystem
  /-- `enc_ctx->filename` afterwards. -/
  filename : List Char

/-- Lines 390-425 of `on_record_toggle`; `new_basename` is the result of
`prompt_for_filename`, `remove_ok` and `rename_ok` what the system decides for the `remove`
and the `rename` call. -/
def stop_files (home : Option (List Char)) (filename : List Char)
    (new_basename : Option (List Char)) (fs : FileSystem) (remove_ok rename_ok : Bool) :
    StopFiles :=
  let original_fullpath := full_output_path home filename
  match new_basename with
  | some n =>
    let new_fullpath := rename_target home n
    if new_fullpath ≠ original_fullpath then
      let r := fs_rename fs rename_ok original_fullpath new_fullpath
      if r.1 ≠ 0 then ⟨[FsCall.rename original_fullpath new_fullpath], r.2, filename⟩
      else ⟨[FsCall.rename original_fullpath new_fullpath], r.2, strncpy 511 new_fullpath⟩
    else ⟨[], fs, filename⟩
  | none =>
    ⟨[FsCall.remove original_fullpath], (fs_remove fs remove_ok original_fullpath).2, filename⟩

/-- A library in which every call made during construction succeeds. -/
def all_ok_lib (home : Option (List Char)) (t : Tm) : InitLib :=
  { malloc := true, home := home, now := t, alloc_output := 0,
    alloc_output_ctx := true, nofile := false, globalheader := true,
    video := ⟨true, some 0, true, 0, 0, true⟩,
    audio :=
      { find_encoder := fun id => some ⟨id, some [SampleFormat.AV_SAMPLE_FMT_FLTP]⟩,
        new_stream := some 1, alloc_context := true, open2 := 0, frame_size := 1024,
        parameters := 0, swr_alloc := true, swr_init := 0 },
    avio_open := 0, write_header := 0 }

/-- A video submission in which every library call succeeds and a packet is written. -/
def video_ok : Option (List Nat) × VideoLib := (some [], ⟨true, 0, true, 0, 0, 0, 0⟩)

/-- A sample session: the fields of a freshly constructed one. -/
def fresh_session : EncoderContext :=
  { fmt_ctx := none, video_enc_ctx := none, video_stream := none, audio_enc_ctx := none,
    audio_stream := none, sws_ctx := none, swr_ctx := none, frame_index := 0,
    audio_pts := 0, quality := Quality.QUALITY_MEDIUM, filename := [] }

/-- An audio submission in which every library call succeeds and the resampler reports
`n` samples converted. -/
def audio_ok (n : Int) : Option (List Nat) × Int × AudioLib :=
  (some [], 4096, ⟨true, 0, 0, n, 0, 0, 0⟩)

/-- An audio submission whose conversion fails with error code `e`. -/
def audio_conv_fail (e : Int) : Option (List Nat) × Int × AudioLib :=
  (some [], 4096, ⟨true, 0, 0, e, 0, 0, 0⟩)

/-- A list of `(pts, nb_samples)` stamps is a running count started at `k`: every stamp is
the count so far, and the count then grows by the samples of that stamp. -/
def pts_chain : Int → List (Int × Int) → Prop
  | _, [] => True
  | k, (p, n) :: rest => p = k ∧ 0 ≤ n ∧ pts_chain (k + n) rest

/-- An X server with a 1367x769 desktop on which every request succeeds; every pixel of a
grabbed image encodes its own coordinates. -/
def sample_xserver : XServer :=
  { open_display := true, root := 1, display_width := 1367, display_height := 769,
    window_attributes := fun _ => some (10, 20, 641, 480),
    get_image := fun _ _ _ _ _ => some (fun i j => 65536 * (i + 1) + 256 * (j + 1) + 7),
    malloc := fun _ => true }

/-- A start request for the whole desktop at its native ("Full") resolution. -/
def odd_desktop : StartLib :=
  { source := RecordSource.RECORD_SOURCE_ALL, resolution_choice := "Full".toList,
    display_ok := true, native_width := 1367, native_height := 769,
    xserver := sample_xserver, select_window := none, monitor_name := none,
    monitor_geometry := fun _ => none }

/-- The part of the generated name before its extension. -/
def filename_stem (t : Tm) : List Char :=
  "screenrecording_".toList ++ fmt_Y t ++ fmt_02 (t.tm_mon + 1) ++ fmt_02 t.tm_mday ++
    "_".toList ++ fmt_02 t.tm_hour ++ fmt_02 t.tm_min ++ fmt_02 t.tm_sec

/-- The extension the specification gives per audio codec. -/
def spec_extension : AudioCodec → List Char
  | AudioCodec.AUDIO_CODEC_PCM => ".mov".toList
  | _ => ".mp4".toList

/-- The 8-digit date `YYYYMMDD` of the specification, for the calendar year `tm_year + 1900`,
month `tm_mon + 1` and day `tm_mday`. -/
def spec_date8 (t : Tm) : List Char :=
  let y := (t.tm_year + 1900).toNat
  let m := t.tm_mon + 1
  [Nat.digitChar (y / 1000), Nat.digitChar (y / 100 % 10), Nat.digitChar (y / 10 % 10),
   Nat.digitChar (y % 10), Nat.digitChar (m / 10), Nat.digitChar (m % 10),
   Nat.digitChar (t.tm_mday / 10), Nat.digitChar (t.tm_mday % 10)]

/-- The 6-digit time `HHMMSS` of the specification. -/
def spec_time6 (t : Tm) : List Char :=
  [Nat.digitChar (t.tm_hour / 10), Nat.digitChar (t.tm_hour % 10),
   Nat.digitChar (t.tm_min / 10), Nat.digitChar (t.tm_min % 10),
   Nat.digitChar (t.tm_sec / 10), Nat.digitChar (t.tm_sec % 10)]

/-- The output path of the specification:
`<HOME>/Videos/Screenrecords/screenrecording_<YYYYMMDD>_<HHMMSS><ext>`, with `.` for an
unset `HOME`. -/
def spec_output_path (home : Option (List Char)) (audio_codec : AudioCodec) (t : Tm) :
    List Char :=
  (match home with
    | some h => h
    | none => ".".toList) ++ "/Videos/Screenrecords/".toList ++ "screenrecording_".toList ++
    spec_date8 t ++ "_".toList ++ spec_time6 t ++ spec_extension audio_codec

/-- Noon of 2 January 2024, second 5 of minute 4 of hour 3. -/
def sample_time : Tm :=
  { tm_year := 124, tm_mon := 0, tm_mday := 2, tm_hour := 3, tm_min := 4, tm_sec := 5 }

/-- A `HOME` value of 1002 bytes. -/
def long_home : List Char := '/' :: List.replicate 1001 'h'

/-- An absolute replacement name of 2048 bytes. -/
def long_name : List Char := '/' :: List.replicate 2047 'a'

/-- A file system holding exactly the file at `path`. -/
def only_file (path : List Char) : FileSystem := fun q => decide (q = path)

/-- Byte `k` of the tightly packed RGB24 image of the specification: channel `k % 3` (red,
green, blue) of the pixel in column `k / 3 % width`, row `k / 3 / width`. -/
def rgb_byte (width : Nat) (img : Nat → Nat → Nat) (k : Nat) : Nat :=
  if k % 3 = 0 then img (k / 3 % width) (k / 3 / width) / 65536 % 256
  else if k % 3 = 1 then img (k / 3 % width) (k / 3 / width) / 256 % 256
  else img (k / 3 % width) (k / 3 / width) % 256

/-- A block whose first `t` bytes hold the packed image and whose rest is still as allocated. -/
def filled_to (width : Nat) (img : Nat → Nat → Nat) (init : Nat → Nat) (t : Nat) (k : Nat) :
    Nat :=
  if k < t then rgb_byte width img k else init k

/-- A capturing full-desktop recorder context for a 3x2 region at offset (5, 7). -/
def tiny_ctx : RecorderContext :=
  { root := 1, target := 0, x := 5, y := 7, width := 3, height := 2, is_capturing := 1,
    is_window_capture := 0 }

/-- The sample X server with no memory left: every `malloc` fails. -/
def no_memory_xserver : XServer := { sample_xserver with malloc := fun _ => false }

/-- A capturing full-desktop recorder context for a 32768x32768 region. -/
def huge_ctx : RecorderContext :=
  { root := 1, target := 0, x := 0, y := 0, width := 32768, height := 32768,
    is_capturing := 1, is_window_capture := 0 }

/-! ## audio.h, audio.c -/

structure AudioContext where
  pcm_handle : Nat
  is_recording : Int
  sample_rate : Int
  channels : Int
  /-- Flag for the dynamic audio toggle (1 = enabled, 0 = disabled). -/
  capture_audio : Int
  deriving DecidableEq, Repr

/-- The ALSA calls the audio component makes on its device. -/
inductive PcmCall where
  | pcm_open
  | set_params
  | readi (frames : Int)
  | recover (err : Int)
  | close
  deriving DecidableEq, Repr

/-- What `malloc` and ALSA report to `audio_init`. -/
structure AudioInitLib where
  /-- `malloc(sizeof(AudioContext))` returned a block. -/
  malloc : Bool
  /-- Return value of `snd_pcm_open`. -/
  pcm_open : Int
  /-- The handle it stored. -/
  handle : Nat
  /-- Return value of `snd_pcm_set_params`. -/
  set_params : Int
  deriving DecidableEq, Repr

/-- `audio_init` (audio.c 8-31): the returned context and the ALSA calls made. -/
def audio_init (lib : AudioInitLib) : Option AudioContext × List PcmCall :=
  if !lib.malloc then (none, [])
  else if lib.pcm_open < 0 then (none, [PcmCall.pcm_open])
  else if lib.set_params < 0 then
    (none, [PcmCall.pcm_open, PcmCall.set_params, PcmCall.close])
  else
    (some { pcm_handle := lib.handle, is_recording := 0, sample_rate := 44100, channels := 2,
            capture_audio := 1 }, [PcmCall.pcm_open, PcmCall.set_params])

/-- Result of an audio call: return value, context afterwards, ALSA calls made. -/
structure AudioResult where
  ret : Int
  ctx : Option AudioContext
  calls : List PcmCall
  deriving DecidableEq, Repr

/-- `audio_start` (audio.c 33-37). -/
def audio_start (ctx : Option AudioContext) : AudioResult :=
  match ctx with
  | none => ⟨-1, none, []⟩
  | some c => ⟨0, some { c with is_recording := 1 }, []⟩

/-- `audio_stop` (audio.c 39-43). -/
def audio_stop (ctx : Option AudioContext) : AudioResult :=
  match ctx with
  | none => ⟨-1, none, []⟩
  | some c => ⟨0, some { c with is_recording := 0 }, []⟩

/-- `audio_set_capture` (audio.c 65-68); the function returns nothing, `ret` is 0. -/
def audio_set_capture (ctx : Option AudioContext) (enabled : Int) : AudioResult :=
  match ctx with
  | none => ⟨0, none, []⟩
  | some c => ⟨0, some { c with capture_audio := enabled }, []⟩

/-- `audio_cleanup` (audio.c 45-51): the ALSA calls made; the context is freed. -/
def audio_cleanup (ctx : Option AudioContext) : List PcmCall :=
  match ctx with
  | none => []
  | some c => if c.pcm_handle ≠ 0 then [PcmCall.close] else []

/-- What the device reports during one `audio_capture`. -/
structure CaptureLib where
  /-- Return value of `snd_pcm_readi`, as stored in the `int frames`. -/
  readi : Int
  /-- Return value of `snd_pcm_recover`: 0 when the error was handled, else negative. -/
  recover : Int
  deriving DecidableEq, Repr

/-- `audio_capture` (audio.c 53-63).  The frame count requested from the device is the
truncating `int` quotient `buffer_size / (channels * 2)`. -/
def audio_capture (ctx : Option AudioContext) (buffer_size : Int) (dev : CaptureLib) :
    AudioResult :=
  match ctx with
  | none => ⟨-1, none, []⟩
  | some c =>
    if c.is_recording = 0 then ⟨-1, some c, []⟩
    else if c.capture_audio = 0 then ⟨0, some c, []⟩
    else
      let request := Int.tdiv buffer_size (wrapInt32 (c.channels * 2))
      if dev.readi < 0 then
        ⟨dev.recover, some c, [PcmCall.readi request, PcmCall.recover dev.readi]⟩
      else ⟨dev.readi, some c, [PcmCall.readi request]⟩

/-- The context `audio_init` returns on success, armed by `audio_start`. -/
def armed_audio : AudioContext :=
  { pcm_handle := 7, is_recording := 1, sample_rate := 44100, channels := 2,
    capture_audio := 1 }

/-- A device with 1024 frames pending. -/
def ready_device : CaptureLib := { readi := 1024, recover := 0 }

/-- A device in underrun (`-EPIPE`) whose recovery succeeds. -/
def underrun_device : CaptureLib := { readi := -32, recover := 0 }

/-! ## encoder.c: finalize and cleanup -/

/-- `encoder_finalize` (encoder.c 335-341); `trailer` is the return value of
`av_write_trailer`.  The function stores nothing in the session. -/
def encoder_finalize (ctx : Option EncoderContext) (trailer : Int) :
    Int × Option EncoderContext :=
  match ctx with
  | none => (-1, none)
  | some c => (trailer, some c)

/-- The library resources a session can hold. -/
inductive Resource where
  | resampler
  | scaler
  | video_codec
  | audio_codec
  | output_file
  | container
  deriving DecidableEq, Repr

/-- The resources `encoder_cleanup` releases (encoder.c 343-357), in order. -/
def encoder_cleanup (ctx : Option EncoderContext) : List Resource :=
  match ctx with
  | none => []
  | some c =>
    (if c.swr_ctx.isSome then [Resource.resampler] else []) ++
    (if c.sws_ctx.isSome then [Resource.scaler] else []) ++
    (if c.video_enc_ctx.isSome then [Resource.video_codec] else []) ++
    (if c.audio_enc_ctx.isSome then [Resource.audio_codec] else []) ++
    (match c.fmt_ctx with
      | some f => (if !f.nofile then [Resource.output_file] else []) ++ [Resource.container]
      | none => [])

/-- The resources a session holds open: what was allocated or opened into its fields. -/
def open_resources (c : EncoderContext) : List Resource :=
  (if c.swr_ctx.isSome then [Resource.resampler] else []) ++
  (if c.sws_ctx.isSome then [Resource.scaler] else []) ++
  (if c.video_enc_ctx.isSome then [Resource.video_codec] else []) ++
  (if c.audio_enc_ctx.isSome then [Resource.audio_codec] else []) ++
  (match c.fmt_ctx with
    | some f => (if f.pb.isSome then [Resource.output_file] else []) ++ [Resource.container]
    | none => [])

/-- A library in which the audio encoder is not found and everything else succeeds. -/
def no_audio_codec_lib : InitLib :=
  { all_ok_lib (some "/home/u".toList) sample_time with
    audio := { (all_ok_lib (some "/home/u".toList) sample_time).audio with
      find_encoder := fun _ => none } }

/-- A video submission with a valid buffer whose library calls report `lib`. -/
def sample_video_lib : VideoLib := ⟨true, 0, true, 0, 0, 0, 0⟩

/-- A PCM audio codec context with two channels. -/
def pcm_stereo : AudioCodecContext :=
  { codec_id := CodecID.AV_CODEC_ID_PCM_S16LE, bit_rate := 0,
    sample_fmt := SampleFormat.AV_SAMPLE_FMT_S16, sample_rate := 44100, nb_channels := 2,
    time_base := ⟨1, 44100⟩, global_header := false, frame_size := 0 }

/-- A session whose frame counter has reached `INT_MAX`. -/
def last_index_session : EncoderContext := { fresh_session with frame_index := 2147483647 }

/-! ## main.c: globals, worker loops and the toggle handler -/

/-- The globals of main.c used by the recording paths. -/
structure App where
  is_recording : Int
  enc_ctx : Option EncoderContext
  rec_ctx : Option RecorderContext
  /-- The pointer in `rec_ctx` refers to a context already freed by `recorder_cleanup`. -/
  rec_ctx_freed : Bool
  audio_ctx : Option AudioContext
  /-- The video loop has been launched by `pthread_create` and not joined yet. -/
  record_thread : Bool
  /-- The audio loop has been launched by `pthread_create` and not joined yet. -/
  audio_thread : Bool
  deriving DecidableEq, Repr

/-- The globals at program start (main.c 61-64). -/
def App.initial : App :=
  { is_recording := 0, enc_ctx := none, rec_ctx := none, rec_ctx_freed := false,
    audio_ctx := none, record_thread := false, audio_thread := false }

/-- What the environment reports during one run of `on_record_toggle`. -/
structure ToggleLib where
  start : StartLib
  /-- `gui_get_quality`. -/
  quality : Quality
  /-- `gui_get_fps`. -/
  fps : Int
  /-- `gui_get_audio_codec`. -/
  audio_codec : AudioCodec
  init : InitLib
  audio_init : AudioInitLib
  /-- `gtk_toggle_button_get_active` of the audio toggle. -/
  audio_toggle_state : Int
  /-- Return value of `av_write_trailer`. -/
  trailer : Int
  /-- `getenv("HOME")` in the stop path. -/
  home : Option (List Char)
  /-- The save dialog ended with `GTK_RESPONSE_ACCEPT`. -/
  prompt_accept : Bool
  /-- The text of the dialog entry. -/
  prompt_text : Option (List Char)
  fs : FileSystem
  /-- What the system decides for the `remove` call of the stop path. -/
  remove_ok : Bool
  /-- What the system decides for the `rename` call of the stop path. -/
  rename_ok : Bool

/-- The start path of `on_record_toggle` (main.c 291-380): the globals afterwards.  Every
early `return` leaves `is_recording` and the thread handles as they were. -/
def start_path (app : App) (lib : ToggleLib) : App :=
  if !lib.start.display_ok then app
  else
    match start_capture lib.start with
    | none => { app with rec_ctx := none, rec_ctx_freed := false }
    | some s =>
      match (encoder_init lib.quality s.enc_width s.enc_height lib.fps 44100 2 lib.audio_codec
          DEFAULT_AUDIO_BIT_RATE lib.init).ctx with
      | none =>
        -- recorder_cleanup(rec_ctx); return;  (the global keeps the freed pointer)
        { app with enc_ctx := none, rec_ctx := some s.rec_ctx, rec_ctx_freed := true }
      | some e =>
        -- audio_ctx = audio_init(); audio_start(audio_ctx); audio_set_capture(...);
        -- is_recording = 1; pthread_create x 2
        let a := audio_set_capture (audio_start (audio_init lib.audio_init).1).ctx
          lib.audio_toggle_state
        { is_recording := 1, enc_ctx := some e, rec_ctx := some s.rec_ctx,
          rec_ctx_freed := false, audio_ctx := a.ctx, record_thread := true,
          audio_thread := true }

/-- What the stop path did besides updating the globals. -/
structure StopResult where
  app : App
  /-- Return value of `encoder_finalize`. -/
  finalize : Int
  files : StopFiles
  /-- Resources released by `encoder_cleanup`. -/
  released : List Resource
  /-- ALSA calls of `audio_cleanup`. -/
  pcm_calls : List PcmCall

/-- The stop path of `on_record_toggle` (main.c 382-432).  `none` is undefined behaviour:
the path reads `enc_ctx->filename` without a null check, and `recorder_stop` writes through
`rec_ctx`. -/
def stop_path (app : App) (lib : ToggleLib) : Option StopResult :=
  if app.rec_ctx_freed then none
  else
    match app.enc_ctx with
    | none => none
    | some e =>
      let fin := encoder_finalize (some e) lib.trailer
      let files := stop_files lib.home e.filename
        (prompt_for_filename lib.prompt_accept lib.prompt_text) lib.fs lib.remove_ok
        lib.rename_ok
      some
        { app := { is_recording := 0, enc_ctx := none, rec_ctx := none, rec_ctx_freed := false,
                   audio_ctx := none, record_thread := false, audio_thread := false },
          finalize := fin.1, files := files,
          released := encoder_cleanup (some { e with filename := files.filename }),
          pcm_calls := audio_cleanup (audio_stop app.audio_ctx).ctx }

/-- The two branches of `on_record_toggle`. -/
inductive TogglePath where
  | start
  | stop
  deriving DecidableEq, Repr

/-- The toggle button and the globals. -/
structure Gui where
  /-- `gtk_toggle_button_get_active` of the record toggle. -/
  active : Bool
  app : App
  deriving DecidableEq, Repr

/-- One activation of the record toggle: GTK flips the button state and emits "toggled";
`on_record_toggle` (main.c 290-433) runs the start path when the button is now active and
the stop path otherwise.  The handler never changes the button state itself.  The result
is the branch taken and the state afterwards (`none`: undefined behaviour). -/
def on_record_toggle (g : Gui) (lib : ToggleLib) : TogglePath × Option Gui :=
  let active := !g.active
  if active then (TogglePath.start, some ⟨active, start_path g.app lib⟩)
  else (TogglePath.stop, (stop_path g.app lib).map (fun r => ⟨active, r.app⟩))

/-- The states reachable from program start by activations of the record toggle. -/
inductive Reachable : Gui → Prop where
  | initial : Reachable ⟨false, App.initial⟩
  | toggle (g g2 : Gui) (lib : ToggleLib) (p : TogglePath) :
      Reachable g → on_record_toggle g lib = (p, some g2) → Reachable g2

/-- The Recording state of the coordinator: flag set and all three contexts live. -/
def App.recording (a : App) : Prop :=
  a.is_recording = 1 ∧ a.enc_ctx.isSome = true ∧ a.rec_ctx.isSome = true ∧
    a.rec_ctx_freed = false ∧ a.audio_ctx.isSome = true

instance (a : App) : Decidable a.recording := by
  unfold App.recording
  infer_instance

/-- The Idle state of the coordinator. -/
def App.idle (a : App) : Prop := a.is_recording = 0

instance (a : App) : Decidable a.idle := by
  unfold App.idle
  infer_instance

/-- A run of the handler in which every call succeeds (whole desktop, AAC). -/
def ok_toggle : ToggleLib :=
  { start := odd_desktop, quality := Quality.QUALITY_MEDIUM, fps := 30,
    audio_codec := AudioCodec.AUDIO_CODEC_AAC,
    init := all_ok_lib (some "/home/u".toList) sample_time,
    audio_init := ⟨true, 0, 7, 0⟩, audio_toggle_state := 1, trailer := 0,
    home := some "/home/u".toList, prompt_accept := false, prompt_text := none,
    fs := only_file
      "/home/u/Videos/Screenrecords/screenrecording_20240102_030405.mp4".toList,
    remove_ok := true, rename_ok := true }

/-- The same run with an audio device that cannot be opened (`snd_pcm_open` fails). -/
def no_audio_device : ToggleLib := { ok_toggle with audio_init := ⟨true, -2, 0, 0⟩ }

/-- The session of the Recording state that `ok_toggle` starts. -/
def recording_session : EncoderContext :=
  ((start_path App.initial ok_toggle).enc_ctx).getD fresh_session

/-- A stop in which the save dialog is cancelled and `remove` fails on the existing file. -/
def stop_remove_fails : ToggleLib := { ok_toggle with remove_ok := false }

/-- A stop in which the name `demo.mp4` is supplied. -/
def stop_renamed : ToggleLib :=
  { ok_toggle with prompt_accept := true, prompt_text := some "demo.mp4".toList }

/-- A stop in which a name in a directory that does not exist is supplied, so that `rename`
fails. -/
def stop_rename_fails : ToggleLib :=
  { ok_toggle with
    rename_ok := false, prompt_accept := true,
    prompt_text := some "/nowhere/demo.mp4".toList }

/-- The same run with an X display that cannot be opened at line 302. -/
def no_display : ToggleLib :=
  { ok_toggle with start := { odd_desktop with display_ok := false } }

/-- One iteration of the loop of `audio_thread_func` (main.c 98-105). -/
structure AudioIteration where
  /-- Result of `audio_capture`. -/
  capture : AudioResult
  /-- The byte length passed to `encoder_encode_audio_frame`, when it is called. -/
  size : Option Int
  /-- Result of `encoder_encode_audio_frame`, when it is called. -/
  submit : Option SubmitResult
  /-- `enc_ctx` after the iteration. -/
  enc_ctx : Option EncoderContext
  deriving DecidableEq, Repr

/-- The locals `bytes_per_frame` and `buffer_size` of `audio_thread_func` (main.c 93-95). -/
def bytes_per_frame (a : AudioContext) : Int := wrapInt32 (a.channels * 2)

def audio_buffer_size (a : AudioContext) : Int := wrapInt32 (1024 * bytes_per_frame a)

/-- The body of the loop of `audio_thread_func` (main.c 99-103) for the device context `a`
the thread read its channel count from. -/
def audio_thread_iteration (a : AudioContext) (enc_ctx : Option EncoderContext)
    (dev : CaptureLib) (lib : AudioLib) : AudioIteration :=
  let r := audio_capture (some a) (audio_buffer_size a) dev
  if r.ret > 0 then
    let size := wrapInt32 (r.ret * bytes_per_frame a)
    let s := encoder_encode_audio_frame enc_ctx (some []) size lib
    ⟨r, some size, some s, s.ctx⟩
  else ⟨r, none, none, enc_ctx⟩

/-- The number of bytes `encoder_encode_video_frame` reads from its buffer: the RGB24
picture of the encoder's `width` x `height` laid out by `av_image_fill_arrays` with
alignment 1 and read by `sws_scale` (encoder.c 236-248). -/
def video_read_size (c : EncoderContext) : Option Int :=
  c.video_enc_ctx.map (fun v => v.width * v.height * 3)

/-- One iteration of the loop of `record_thread_func` (main.c 114-123). -/
structure VideoIteration where
  /-- `rec_ctx` after the iteration. -/
  rec_ctx : Option RecorderContext
  /-- Result of `recorder_capture_frame`. -/
  capture : CaptureResult
  /-- Result of `encoder_encode_video_frame`, when it is called. -/
  submit : Option SubmitResult
  /-- `enc_ctx` after the iteration. -/
  enc_ctx : Option EncoderContext
  deriving DecidableEq, Repr

/-- The body of the loop of `record_thread_func` (main.c 115-121). -/
def record_thread_iteration (rec_ctx : Option RecorderContext)
    (enc_ctx : Option EncoderContext) (xs : XServer) (init : Nat → Nat) (lib : VideoLib) :
    VideoIteration :=
  let rec1 := match rec_ctx with
    | some r =>
      if r.is_window_capture ≠ 0 then (recorder_update_window_geometry (some r) xs).2
      else some r
    | none => none
  let cap := recorder_capture_frame rec1 xs init
  match cap.frame with
  | some frame_data =>
    let s := encoder_encode_video_frame enc_ctx (some frame_data) lib
    ⟨rec1, cap, some s, s.ctx⟩
  | none => ⟨rec1, cap, none, enc_ctx⟩

/-- Result of `update_info_callback`. -/
structure InfoResult where
  /-- The return value: whether the timer keeps running. -/
  again : Bool
  /-- The path passed to `stat` by `get_file_size`. -/
  stat_path : Option (List Char)
  /-- The byte size formatted into the status text. -/
  reported_size : Option Int
  deriving DecidableEq, Repr

/-- `update_info_callback` with `get_file_size` (main.c 73-89); `stat` gives the size of
the file a path names, resolved like the kernel does from the working directory, and `none`
when `stat` fails. -/
def update_info_callback (app : App) (stat : List Char → Option Int) : InfoResult :=
  if app.is_recording = 0 then ⟨false, none, none⟩
  else
    match app.enc_ctx with
    | none => ⟨false, none, none⟩
    | some e =>
      let fsize := match stat e.filename with
        | some sz => sz
        | none => -1
      ⟨true, some e.filename, some (if fsize > 0 then fsize else 0)⟩

/-- A capturing window-capture context as the start path leaves it for a selected 640x480
window. -/
def window_ctx : RecorderContext :=
  { root := 1, target := 9, x := 10, y := 20, width := 640, height := 480,
    is_capturing := 1, is_window_capture := 1 }

/-- The sample X server after the tracked window was resized to 320x240. -/
def shrunk_xserver : XServer :=
  { sample_xserver with window_attributes := fun _ => some (10, 20, 320, 240) }

/-- A session whose video encoder was constructed for 640x480. -/
def session_640x480 : EncoderContext :=
  { fresh_session with
    video_enc_ctx := some
      { codec_id := CodecID.AV_CODEC_ID_H264, bit_rate := 400000, width := 640, height := 480,
        time_base := ⟨1, 30⟩, framerate := ⟨30, 1⟩, gop_size := 12, max_b_frames := 2,
        global_header := true } }

/-- An armed, enabled audio context with 1048576 channels. -/
def wide_audio : AudioContext := { armed_audio with channels := 1048576 }

/-- The globals after a start in which every call succeeded. -/
def recording_app : App := start_path App.initial ok_toggle

/-- A file system view in which only the full output path of the sample recording names a
file, of 5000 bytes. -/
def sample_stat : List Char → Option Int := fun p =>
  if p = "/home/u/Videos/Screenrecords/screenrecording_20240102_030405.mp4".toList
  then some 5000 else none

/-! ## main.c: option parsing -/

/-- What `parse_options` writes. -/
inductive Printed where
  /-- `print_help`: the usage text, on standard output. -/
  | usage
  /-- The line `<program> version <APP_VERSION>`, on standard output. -/
  | version
  /-- The line `[DEBUG] Debug mode enabled`, on standard error. -/
  | debug_enabled
  deriving DecidableEq, Repr

/-- Result of `parse_options`: the exit status when the program exits in it (`none` when it
returns), the debug flag and what was printed, in order. -/
structure ParseResult where
  exit_status : Option Int
  g_debug : Int
  printed : List Printed
  deriving DecidableEq, Repr

/-- The code `getopt_long` returns for `--help` and `-h` (the character `h`). -/
def OPT_HELP : Int := 104

/-- The code `getopt_long` returns for `--version` and `-v` (the character `v`). -/
def OPT_VERSION : Int := 118

/-- The code `getopt_long` returns for `--debug` and `-d` (the character `d`). -/
def OPT_DEBUG : Int := 100

/-- The code `getopt_long` returns for an unrecognised option (the character `?`). -/
def OPT_UNKNOWN : Int := 63

/-- `parse_options` (main.c 472-497).  `opts` are the values the successive calls of
`getopt_long` return for the argument list, left to right; the loop ends at the first -1, and
the end of the list stands for -1 as well.  `g_debug` is the flag on entry, `out` what has
been printed so far. -/
def parse_options : List Int → Int → List Printed → ParseResult
  | [], g_debug, out => ⟨none, g_debug, out⟩
  | opt :: rest, g_debug, out =>
    if opt = -1 then ⟨none, g_debug, out⟩
    else if opt = OPT_HELP then ⟨some 0, g_debug, out ++ [Printed.usage]⟩
    else if opt = OPT_VERSION then ⟨some 0, g_debug, out ++ [Printed.version]⟩
    else if opt = OPT_DEBUG then parse_options rest 1 (out ++ [Printed.debug_enabled])
    else ⟨some 1, g_debug, out ++ [Printed.usage]⟩

/-- The value of `g_debug` after `n` debug options, starting from the initial 0
(main.c 26). -/
def debug_flag_after (n : Nat) : Int := if n = 0 then 0 else 1

/-! ## main.c: the two worker loops side by side -/

/-- Where a worker loop stands within one iteration (main.c 98-105 and 114-123). -/
inductive LoopPc where
  /-- At the test of `is_recording`. -/
  | top
  /-- The capture call has returned data to submit. -/
  | captured
  /-- Inside `encoder_encode_video_frame` / `encoder_encode_audio_frame`: the convert,
  encode and write sequence on the shared container. -/
  | submitting
  /-- In `usleep`. -/
  | sleeping
  /-- The loop has returned. -/
  | exited
  deriving DecidableEq, Repr

/-- One step of a worker loop.  `got` is whether the capture call of this iteration gave
data.  Neither loop takes a lock or waits for the other anywhere: a step of a loop depends
on its own position and on `is_recording` only. -/
def loop_step (pc : LoopPc) (is_recording : Bool) (got : Bool) : LoopPc :=
  match pc with
  | LoopPc.top => if is_recording then (if got then LoopPc.captured else LoopPc.sleeping)
      else LoopPc.exited
  | LoopPc.captured => LoopPc.submitting
  | LoopPc.submitting => LoopPc.sleeping
  | LoopPc.sleeping => LoopPc.top
  | LoopPc.exited => LoopPc.exited

/-- The two worker loops and the shared flag. -/
structure Workers where
  video : LoopPc
  audio : LoopPc
  is_recording : Bool
  deriving DecidableEq, Repr

/-- The interleavings of the two loops and of the main thread clearing `is_recording`. -/
inductive WorkersStep : Workers → Workers → Prop where
  | video (w : Workers) (got : Bool) :
      WorkersStep w { w with video := loop_step w.video w.is_recording got }
  | audio (w : Workers) (got : Bool) :
      WorkersStep w { w with audio := loop_step w.audio w.is_recording got }
  | stop (w : Workers) : WorkersStep w { w with is_recording := false }

/-- The states the workers reach from the launch of both loops (main.c 376-379). -/
inductive WorkersReach : Workers → Prop where
  | launch : WorkersReach ⟨LoopPc.top, LoopPc.top, true⟩
  | step (w w2 : Workers) : WorkersReach w → WorkersStep w w2 → WorkersReach w2

/-! ## Theorems -/

theorem wrapInt32_of_range (v : Int) (h1 : INT_MIN ≤ v) (h2 : v ≤ INT_MAX) :
    wrapInt32 v = v := by
  unfold wrapInt32 INT_MIN INT_MAX at *
  omega

theorem wrapInt32_add_one (v k : Int) : wrapInt32 (wrapInt32 (v + k) + 1) = wrapInt32 (v + (k + 1)) := by
  unfold wrapInt32
  omega

/-- One video submission either stamps nothing and leaves the session as it was, or stamps
the current `frame_index` and stores its successor. -/
theorem video_step (c : EncoderContext) (data : Option (List Nat)) (lib : VideoLib) :
    ((encoder_encode_video_frame (some c) data lib).pts = none ∧
      (encoder_encode_video_frame (some c) data lib).ctx = some c) ∨
    ((encoder_encode_video_frame (some c) data lib).pts = some c.frame_index ∧
      (encoder_encode_video_frame (some c) data lib).ctx =
        some { c with frame_index := wrapInt32 (c.frame_index + 1) }) := by
  unfold encoder_encode_video_frame
  cases data with
  | none => simp
  | some d =>
    simp only []
    split_ifs <;> simp

theorem video_pts_trace_wrap (calls : List (Option (List Nat) × VideoLib)) :
    ∀ (c : EncoderContext) (k : Int),
      ∃ n : Nat, n ≤ calls.length ∧
        video_pts_trace (some { c with frame_index := wrapInt32 k }) calls =
          (List.range n).map (fun (i : Nat) => wrapInt32 (k + (i : Int))) := by
  induction calls with
  | nil => intro c k; exact ⟨0, by simp, by simp [video_pts_trace]⟩
  | cons call rest ih =>
    intro c k
    obtain ⟨data, lib⟩ := call
    rcases video_step { c with frame_index := wrapInt32 k } data lib with ⟨h1, h2⟩ | ⟨h1, h2⟩
    · obtain ⟨n, hn, ih0⟩ := ih c k
      refine ⟨n, by simp; omega, ?_⟩
      simp only [video_pts_trace, h1, h2]
      exact ih0
    · obtain ⟨n, hn, ih1⟩ := ih c (k + 1)
      refine ⟨n + 1, by simp; omega, ?_⟩
      have hw : wrapInt32 (wrapInt32 k + 1) = wrapInt32 (k + 1) := by
        have := wrapInt32_add_one k 0
        simpa using this
      simp only [video_pts_trace, h1, h2, hw, ih1]
      rw [List.range_succ_eq_map, List.map_cons, List.map_map]
      congr 1
      · simp
      · apply List.map_congr_left
        intro i _
        simp only [Function.comp, Nat.succ_eq_add_one, Nat.cast_add, Nat.cast_one]
        congr 1
        ring

theorem setup_video_stream_keeps (c : EncoderContext) (w h f : Int) (lib : VideoSetupLib) :
    (setup_video_stream c w h f lib).2.frame_index = c.frame_index ∧
    (setup_video_stream c w h f lib).2.audio_pts = c.audio_pts ∧
    (setup_video_stream c w h f lib).2.filename = c.filename ∧
    (setup_video_stream c w h f lib).2.quality = c.quality ∧
    (setup_video_stream c w h f lib).2.fmt_ctx = c.fmt_ctx := by
  unfold setup_video_stream
  cases lib.new_stream <;> simp only [] <;> split_ifs <;> simp

theorem setup_audio_stream_keeps (c : EncoderContext) (r ch : Int) (ac : AudioCodec) (br : Int)
    (lib : AudioSetupLib) :
    (setup_audio_stream c r ch ac br lib).ctx.frame_index = c.frame_index ∧
    (setup_audio_stream c r ch ac br lib).ctx.audio_pts = c.audio_pts ∧
    (setup_audio_stream c r ch ac br lib).ctx.filename = c.filename ∧
    (setup_audio_stream c r ch ac br lib).ctx.quality = c.quality ∧
    (setup_audio_stream c r ch ac br lib).ctx.fmt_ctx = c.fmt_ctx := by
  unfold setup_audio_stream
  cases lib.find_encoder (audio_codec_id ac) <;> cases lib.new_stream <;> simp only [] <;>
    (try split_ifs) <;> simp

theorem encoder_init_counters (quality : Quality) (width height fps sample_rate channels : Int)
    (audio_codec : AudioCodec) (audio_bitrate : Int) (lib : InitLib) (c : EncoderContext)
    (h : (encoder_init quality width height fps sample_rate channels audio_codec audio_bitrate
      lib).ctx = some c) :
    c.frame_index = 0 ∧ c.audio_pts = 0 ∧ c.quality = quality ∧
      c.filename = session_filename audio_codec lib.now := by
  unfold encoder_init at h
  simp only [apply_ite InitResult.ctx] at h
  split_ifs at h <;> simp at h <;> subst h <;>
    simp [setup_video_stream_keeps, setup_audio_stream_keeps]

theorem video_pts_trace_index (c : EncoderContext) (calls : List (Option (List Nat) × VideoLib))
    (h0 : c.frame_index = 0) :
    ∃ n : Nat, n ≤ calls.length ∧
      video_pts_trace (some c) calls = (List.range n).map (fun (i : Nat) => wrapInt32 (i : Int)) := by
  have hc : c = { c with frame_index := wrapInt32 0 } := by
    cases c
    simp only [EncoderContext.mk.injEq, true_and, and_true] at *
    rw [h0]
    rfl
  obtain ⟨n, hn, h⟩ := video_pts_trace_wrap calls c 0
  refine ⟨n, hn, ?_⟩
  rw [hc, h]
  simp

theorem video_pts_trace_replicate (n : Nat) :
    ∀ (c : EncoderContext) (k : Int), c.frame_index = wrapInt32 k →
      video_pts_trace (some c) (List.replicate n video_ok) =
        (List.range n).map (fun (i : Nat) => wrapInt32 (k + (i : Int))) := by
  induction n with
  | zero => intro c k _; rfl
  | succ n ih =>
    intro c k hk
    have hw : wrapInt32 (wrapInt32 k + 1) = wrapInt32 (k + 1) := by
      have := wrapInt32_add_one k 0
      simpa using this
    have hstep : video_pts_trace (some c) (video_ok :: List.replicate n video_ok) =
        wrapInt32 k :: video_pts_trace (some { c with frame_index := wrapInt32 (k + 1) })
          (List.replicate n video_ok) := by
      simp [video_pts_trace, encoder_encode_video_frame, video_ok, hw, hk]
    rw [List.replicate_succ, hstep, ih _ (k + 1) rfl, List.range_succ_eq_map, List.map_cons,
      List.map_map]
    congr 1
    · simp
    · apply List.map_congr_left
      intro i _
      simp only [Function.comp, Nat.succ_eq_add_one, Nat.cast_add, Nat.cast_one]
      congr 1
      ring

/-- C1 (amended): a freshly constructed session has `frame_index = 0`, and in every sequence
of `encoder_encode_video_frame` calls on it the k-th submitted frame carries pts `k`, for
every `k` below 2^31 (the range of the 32-bit `frame_index`). -/
theorem video_pts_sequence :
    (∀ (quality : Quality) (width height fps sample_rate channels : Int)
        (audio_codec : AudioCodec) (audio_bitrate : Int) (lib : InitLib) (c : EncoderContext),
        (encoder_init quality width height fps sample_rate channels audio_codec audio_bitrate
          lib).ctx = some c → c.frame_index = 0) ∧
    (∀ (c : EncoderContext) (calls : List (Option (List Nat) × VideoLib)) (k : Nat),
        c.frame_index = 0 → k < (video_pts_trace (some c) calls).length → k < 2147483648 →
        (video_pts_trace (some c) calls)[k]? = some (k : Int)) := by
  constructor
  · intro q w h f r ch ac br lib c hc
    exact (encoder_init_counters q w h f r ch ac br lib c hc).1
  · intro c calls k h0 hk hlt
    obtain ⟨n, _, h⟩ := video_pts_trace_index c calls h0
    rw [h] at hk ⊢
    simp only [List.length_map, List.length_range] at hk
    rw [List.getElem?_map, List.getElem?_range hk]
    have hw : wrapInt32 (k : Int) = (k : Int) := by
      unfold wrapInt32
      omega
    rw [Option.map_some', hw]

theorem video_pts_sequence_witness :
    (video_pts_trace (some fresh_session)
      [video_ok, (none, video_ok.2), video_ok, video_ok])[2]? = some ((2 : Nat) : Int) :=
  video_pts_sequence.2 fresh_session [video_ok, (none, video_ok.2), video_ok, video_ok] 2
    rfl (by decide) (by decide)

/-- C1 (counterexample): after 2^31 submitted frames the 32-bit `frame_index` has wrapped, so
the frame number 2^31 of the session carries pts `-2^31` instead of `2^31`. -/
theorem video_pts_overflow :
    (video_pts_trace (some fresh_session) (List.replicate 2147483649 video_ok))[2147483648]? =
      some (-2147483648) ∧ (-2147483648 : Int) ≠ 2147483648 := by
  constructor
  · have h0 : fresh_session.frame_index = wrapInt32 0 := by decide
    have h := video_pts_trace_replicate 2147483649 fresh_session 0 h0
    have hw : wrapInt32 (0 + ((2147483648 : Nat) : Int)) = -2147483648 := by decide
    rw [h, List.getElem?_map, List.getElem?_range (by omega), Option.map_some', hw]
  · omega

theorem wrapInt64_of_range (v : Int) (h1 : 0 ≤ v) (h2 : v ≤ INT64_MAX) : wrapInt64 v = v := by
  unfold wrapInt64 INT64_MAX at *
  omega

/-- One audio submission either stamps nothing and leaves the session as it was, or stamps
the current `audio_pts` with a non-negative converted count and adds that count. -/
theorem audio_step (c : EncoderContext) (data : Option (List Nat)) (size : Int) (lib : AudioLib) :
    ((encoder_encode_audio_frame (some c) data size lib).pts = none ∧
      (encoder_encode_audio_frame (some c) data size lib).ctx = some c) ∨
    ((encoder_encode_audio_frame (some c) data size lib).pts = some c.audio_pts ∧
      (encoder_encode_audio_frame (some c) data size lib).nb_samples = lib.converted ∧
      0 ≤ lib.converted ∧
      (encoder_encode_audio_frame (some c) data size lib).ctx =
        some { c with audio_pts := wrapInt64 (c.audio_pts + lib.converted) }) := by
  unfold encoder_encode_audio_frame
  cases data with
  | none => simp
  | some d =>
    simp only []
    split_ifs <;> simp <;> omega

theorem audio_trace_nonneg (calls : List (Option (List Nat) × Int × AudioLib)) :
    ∀ (c : EncoderContext), ∀ x ∈ audio_pts_trace (some c) calls, 0 ≤ x.2 := by
  induction calls with
  | nil => intro c x hx; simp [audio_pts_trace] at hx
  | cons call rest ih =>
    intro c x hx
    obtain ⟨data, size, lib⟩ := call
    rcases audio_step c data size lib with ⟨h1, h2⟩ | ⟨h1, h2, h3, h4⟩
    · simp only [audio_pts_trace, h1, h2] at hx
      exact ih c x hx
    · simp only [audio_pts_trace, h1, h2, h4, List.mem_cons] at hx
      rcases hx with hx | hx
      · rw [hx]; exact h3
      · exact ih _ x hx

theorem audio_trace_chain (calls : List (Option (List Nat) × Int × AudioLib)) :
    ∀ (c : EncoderContext), 0 ≤ c.audio_pts →
      c.audio_pts + ((audio_pts_trace (some c) calls).map Prod.snd).sum ≤ INT64_MAX →
      pts_chain c.audio_pts (audio_pts_trace (some c) calls) ∧
      (audio_session_end (some c) calls).map EncoderContext.audio_pts =
        some (c.audio_pts + ((audio_pts_trace (some c) calls).map Prod.snd).sum) := by
  induction calls with
  | nil => intro c _ _; simp [audio_pts_trace, audio_session_end, pts_chain]
  | cons call rest ih =>
    intro c h0 hsum
    obtain ⟨data, size, lib⟩ := call
    rcases audio_step c data size lib with ⟨h1, h2⟩ | ⟨h1, h2, h3, h4⟩
    · simp only [audio_pts_trace, audio_session_end, h1, h2] at hsum ⊢
      exact ih c h0 hsum
    · simp only [audio_pts_trace, audio_session_end, h1, h2, h4, List.map_cons,
        List.sum_cons] at hsum ⊢
      have hnn : 0 ≤ ((audio_pts_trace
          (some { c with audio_pts := wrapInt64 (c.audio_pts + lib.converted) }) rest).map
            Prod.snd).sum := by
        apply List.sum_nonneg
        intro x hx
        obtain ⟨y, hy, rfl⟩ := List.mem_map.mp hx
        exact audio_trace_nonneg rest _ y hy
      have hw : wrapInt64 (c.audio_pts + lib.converted) = c.audio_pts + lib.converted :=
        wrapInt64_of_range _ (by omega) (by omega)
      have ih1 := ih { c with audio_pts := wrapInt64 (c.audio_pts + lib.converted) }
      simp only [hw] at ih1 hsum hnn ⊢
      obtain ⟨i1, i2⟩ := ih1 (by omega) (by omega)
      refine ⟨⟨rfl, h3, i1⟩, ?_⟩
      rw [i2]
      congr 1
      ring

theorem pts_chain_head (k : Int) (l : List (Int × Int)) (h : pts_chain k l) (p n : Int)
    (h0 : l[0]? = some (p, n)) : p = k := by
  cases l with
  | nil => simp at h0
  | cons x rest =>
    obtain ⟨a, b⟩ := x
    simp only [List.getElem?_cons_zero, Option.some.injEq, Prod.mk.injEq] at h0
    obtain ⟨rfl, rfl⟩ := h0
    exact h.1

theorem pts_chain_diff (l : List (Int × Int)) :
    ∀ (k : Int), pts_chain k l → ∀ (i : Nat) (p n q m : Int),
      l[i]? = some (p, n) → l[i + 1]? = some (q, m) → q - p = n ∧ 0 ≤ n := by
  induction l with
  | nil => intro k _ i p n q m h; simp at h
  | cons x rest ih =>
    intro k h i p n q m hi hi1
    obtain ⟨a, b⟩ := x
    obtain ⟨ha, hb, hrest⟩ := h
    cases i with
    | zero =>
      simp only [List.getElem?_cons_zero, Option.some.injEq, Prod.mk.injEq] at hi
      obtain ⟨rfl, rfl⟩ := hi
      simp only [zero_add, List.getElem?_cons_succ] at hi1
      have := pts_chain_head _ _ hrest q m hi1
      constructor
      · rw [this, ha]; ring
      · exact hb
    | succ j =>
      simp only [List.getElem?_cons_succ] at hi hi1
      exact ih _ hrest j p n q m hi hi1

theorem audio_pts_trace_replicate (m : Int) (hm : 0 ≤ m) (n : Nat) :
    ∀ (c : EncoderContext) (k : Int), c.audio_pts = wrapInt64 k →
      audio_pts_trace (some c) (List.replicate n (audio_ok m)) =
        (List.range n).map (fun (i : Nat) => (wrapInt64 (k + (i : Int) * m), m)) := by
  induction n with
  | zero => intro c k _; rfl
  | succ n ih =>
    intro c k hk
    have hw : wrapInt64 (wrapInt64 k + m) = wrapInt64 (k + m) := by
      unfold wrapInt64
      omega
    have hstep : audio_pts_trace (some c) (audio_ok m :: List.replicate n (audio_ok m)) =
        (wrapInt64 k, m) :: audio_pts_trace (some { c with audio_pts := wrapInt64 (k + m) })
          (List.replicate n (audio_ok m)) := by
      have hneg : ¬ m < 0 := by omega
      simp [audio_pts_trace, encoder_encode_audio_frame, audio_ok, hw, hk, hneg]
    rw [List.replicate_succ, hstep, ih _ (k + m) rfl, List.range_succ_eq_map, List.map_cons,
      List.map_map]
    congr 1
    · simp
    · apply List.map_congr_left
      intro i _
      simp only [Function.comp, Nat.succ_eq_add_one, Nat.cast_add, Nat.cast_one]
      congr 2
      ring

/-- C2 (amended): the running audio sample count of a fresh session is 0; a call whose
conversion fails stamps nothing and leaves the session unchanged; and as long as the total
of the converted samples stays within the 64-bit range of `audio_pts`, the first frame is
stamped 0, each frame is stamped with the count before its call, consecutive stamps differ
by exactly the (non-negative) converted count of the earlier one, and the final count is
the total. -/
theorem audio_pts_running_count :
    (∀ (quality : Quality) (width height fps sample_rate channels : Int)
        (audio_codec : AudioCodec) (audio_bitrate : Int) (lib : InitLib) (c : EncoderContext),
        (encoder_init quality width height fps sample_rate channels audio_codec audio_bitrate
          lib).ctx = some c → c.audio_pts = 0) ∧
    (∀ (c : EncoderContext) (data : Option (List Nat)) (size : Int) (lib : AudioLib),
        lib.converted < 0 →
        (encoder_encode_audio_frame (some c) data size lib).ctx = some c ∧
        (encoder_encode_audio_frame (some c) data size lib).pts = none) ∧
    (∀ (c : EncoderContext) (data : Option (List Nat)) (size : Int) (lib : AudioLib) (p : Int),
        (encoder_encode_audio_frame (some c) data size lib).pts = some p →
        0 ≤ c.audio_pts → c.audio_pts + lib.converted ≤ INT64_MAX →
        p = c.audio_pts ∧
        (encoder_encode_audio_frame (some c) data size lib).nb_samples = lib.converted ∧
        (encoder_encode_audio_frame (some c) data size lib).ctx =
          some { c with audio_pts := c.audio_pts + lib.converted }) ∧
    (∀ (c : EncoderContext) (calls : List (Option (List Nat) × Int × AudioLib)),
        c.audio_pts = 0 →
        ((audio_pts_trace (some c) calls).map Prod.snd).sum ≤ INT64_MAX →
        (∀ (p n : Int), (audio_pts_trace (some c) calls)[0]? = some (p, n) → p = 0) ∧
        (∀ (i : Nat) (p n q m : Int),
          (audio_pts_trace (some c) calls)[i]? = some (p, n) →
          (audio_pts_trace (some c) calls)[i + 1]? = some (q, m) → q - p = n ∧ 0 ≤ n) ∧
        (audio_session_end (some c) calls).map EncoderContext.audio_pts =
          some (((audio_pts_trace (some c) calls).map Prod.snd).sum)) := by
  refine ⟨?_, ?_, ?_, ?_⟩
  · intro q w h f r ch ac br lib c hc
    exact (encoder_init_counters q w h f r ch ac br lib c hc).2.1
  · intro c data size lib hneg
    rcases audio_step c data size lib with ⟨h1, h2⟩ | ⟨_, _, h3, _⟩
    · exact ⟨h2, h1⟩
    · omega
  · intro c data size lib p hp h0 hmax
    rcases audio_step c data size lib with ⟨h1, _⟩ | ⟨h1, h2, h3, h4⟩
    · rw [h1] at hp; simp at hp
    · rw [h1] at hp
      have hw := wrapInt64_of_range (c.audio_pts + lib.converted) (by omega) hmax
      rw [hw] at h4
      simp only [Option.some.injEq] at hp
      exact ⟨hp.symm, h2, h4⟩
  · intro c calls h0 hsum
    obtain ⟨hchain, hend⟩ := audio_trace_chain calls c (by omega) (by omega)
    rw [h0] at hchain hend
    refine ⟨?_, ?_, ?_⟩
    · intro p n hp
      exact pts_chain_head 0 _ hchain p n hp
    · intro i p n q m hi hi1
      exact pts_chain_diff _ 0 hchain i p n q m hi hi1
    · rw [hend]
      simp

/-- C2 (witness): four submissions, the second with a failed conversion. -/
theorem audio_pts_running_count_witness :
    (audio_pts_trace (some fresh_session)
      [audio_ok 1024, audio_conv_fail (-22), audio_ok 1000, audio_ok 512])[1]? =
        some (1024, 1000) ∧
    (audio_pts_trace (some fresh_session)
      [audio_ok 1024, audio_conv_fail (-22), audio_ok 1000, audio_ok 512])[2]? =
        some (2024, 512) ∧
    ((2024 : Int) - 1024 = 1000 ∧ (0 : Int) ≤ 1000) :=
  ⟨by decide, by decide,
    (audio_pts_running_count.2.2.2 fresh_session
      [audio_ok 1024, audio_conv_fail (-22), audio_ok 1000, audio_ok 512] rfl
      (by decide)).2.1 1 1024 1000 2024 512 (by decide) (by decide)⟩

/-- C2 (counterexample): 2^32 + 4 submissions that each convert 2^31 - 1 samples.  The
submission number 2^32 + 2 is stamped 2^63 - 2; adding its samples leaves the 64-bit range,
so the next stamp is negative and the two differ by something else than the converted
count. -/
theorem audio_pts_overflow :
    (audio_pts_trace (some fresh_session)
      (List.replicate 4294967300 (audio_ok 2147483647)))[4294967298]? =
        some (9223372036854775806, 2147483647) ∧
    (audio_pts_trace (some fresh_session)
      (List.replicate 4294967300 (audio_ok 2147483647)))[4294967298 + 1]? =
        some (-9223372034707292163, 2147483647) ∧
    (-9223372034707292163 : Int) - 9223372036854775806 ≠ 2147483647 := by
  have h0 : fresh_session.audio_pts = wrapInt64 0 := by decide
  have h := audio_pts_trace_replicate 2147483647 (by omega) 4294967300 fresh_session 0 h0
  have hw1 : wrapInt64 (0 + ((4294967298 : Nat) : Int) * 2147483647) = 9223372036854775806 := by
    decide
  have hw2 : wrapInt64 (0 + ((4294967298 + 1 : Nat) : Int) * 2147483647) =
      -9223372034707292163 := by
    decide
  refine ⟨?_, ?_, by omega⟩
  · rw [h, List.getElem?_map, List.getElem?_range (by omega), Option.map_some', hw1]
  · rw [h, List.getElem?_map, List.getElem?_range (by omega), Option.map_some', hw2]

theorem setup_audio_open_arg (ctx : EncoderContext) (r ch : Int) (ac : AudioCodec) (br : Int)
    (lib : AudioSetupLib) (a : AudioCodecContext)
    (h : (setup_audio_stream ctx r ch ac br lib).open_arg = some a) :
    ∃ cd, lib.find_encoder (audio_codec_id ac) = some cd ∧
      a = audio_configure ctx.fmt_ctx cd r ch ac br := by
  unfold setup_audio_stream at h
  cases hf : lib.find_encoder (audio_codec_id ac) with
  | none => rw [hf] at h; simp at h
  | some cd =>
    rw [hf] at h
    refine ⟨cd, rfl, ?_⟩
    cases hn : lib.new_stream with
    | none => rw [hn] at h; simp at h
    | some idx =>
      rw [hn] at h
      simp only [] at h
      split_ifs at h <;> simp at h <;> exact h.symm

/-- C4: whenever `setup_audio_stream` reaches `avcodec_open2`, the codec context it opens
has sample rate 48000 and time base 1/48000 for Opus, whatever rate was requested, and the
requested rate `r` with time base 1/r for AAC and PCM; the call is reached as soon as the
codec is found and the stream and context are allocated, and on success the session keeps
that rate and time base. -/
theorem opus_rate_coercion :
    (∀ (ctx : EncoderContext) (r ch : Int) (ac : AudioCodec) (br : Int) (lib : AudioSetupLib)
        (a : AudioCodecContext),
        (setup_audio_stream ctx r ch ac br lib).open_arg = some a →
        (ac = AudioCodec.AUDIO_CODEC_OPUS →
          a.sample_rate = 48000 ∧ a.time_base = ⟨1, 48000⟩) ∧
        (ac ≠ AudioCodec.AUDIO_CODEC_OPUS → a.sample_rate = r ∧ a.time_base = ⟨1, r⟩)) ∧
    (∀ (ctx : EncoderContext) (r ch : Int) (ac : AudioCodec) (br : Int) (lib : AudioSetupLib)
        (cd : AVCodec) (idx : Int),
        lib.find_encoder (audio_codec_id ac) = some cd → lib.new_stream = some idx →
        lib.alloc_context = true →
        (setup_audio_stream ctx r ch ac br lib).open_arg =
          some (audio_configure ctx.fmt_ctx cd r ch ac br)) ∧
    (∀ (ctx : EncoderContext) (r ch : Int) (ac : AudioCodec) (br : Int) (lib : AudioSetupLib),
        (setup_audio_stream ctx r ch ac br lib).ret = 0 →
        ∃ a, (setup_audio_stream ctx r ch ac br lib).open_arg = some a ∧
          (setup_audio_stream ctx r ch ac br lib).ctx.audio_enc_ctx =
            some { a with frame_size := lib.frame_size }) := by
  refine ⟨?_, ?_, ?_⟩
  · intro ctx r ch ac br lib a h
    obtain ⟨cd, _, rfl⟩ := setup_audio_open_arg ctx r ch ac br lib a h
    constructor
    · intro hac
      subst hac
      by_cases hr : r = 48000 <;> simp [audio_configure, effective_sample_rate, hr]
    · intro hac
      simp [audio_configure, effective_sample_rate, hac]
  · intro ctx r ch ac br lib cd idx hf hn ha
    unfold setup_audio_stream
    rw [hf, hn]
    simp only [ha, Bool.not_true, Bool.false_eq_true, if_false]
    split_ifs <;> rfl
  · intro ctx r ch ac br lib hret
    unfold setup_audio_stream at hret ⊢
    cases hf : lib.find_encoder (audio_codec_id ac) with
    | none => simp [hf] at hret
    | some cd =>
      cases hn : lib.new_stream with
      | none => simp [hf, hn] at hret
      | some idx =>
        simp only [hf, hn] at hret ⊢
        split_ifs at hret ⊢ <;> simp at hret ⊢
        omega

/-- C4 (witness): Opus requested at 44100 Hz is opened at 48000 Hz. -/
theorem opus_rate_coercion_witness :
    ((AudioCodec.AUDIO_CODEC_OPUS = AudioCodec.AUDIO_CODEC_OPUS →
        (audio_configure none ⟨CodecID.AV_CODEC_ID_OPUS, none⟩ 44100 2
          AudioCodec.AUDIO_CODEC_OPUS 64000).sample_rate = 48000 ∧
        (audio_configure none ⟨CodecID.AV_CODEC_ID_OPUS, none⟩ 44100 2
          AudioCodec.AUDIO_CODEC_OPUS 64000).time_base = ⟨1, 48000⟩) ∧
      (AudioCodec.AUDIO_CODEC_OPUS ≠ AudioCodec.AUDIO_CODEC_OPUS →
        (audio_configure none ⟨CodecID.AV_CODEC_ID_OPUS, none⟩ 44100 2
          AudioCodec.AUDIO_CODEC_OPUS 64000).sample_rate = 44100 ∧
        (audio_configure none ⟨CodecID.AV_CODEC_ID_OPUS, none⟩ 44100 2
          AudioCodec.AUDIO_CODEC_OPUS 64000).time_base = ⟨1, 44100⟩)) :=
  opus_rate_coercion.1 fresh_session 44100 2 AudioCodec.AUDIO_CODEC_OPUS 64000
    { find_encoder := fun id => some ⟨id, none⟩, new_stream := some 1, alloc_context := true,
      open2 := 0, frame_size := 960, parameters := 0, swr_alloc := true, swr_init := 0 }
    (audio_configure none ⟨CodecID.AV_CODEC_ID_OPUS, none⟩ 44100 2
      AudioCodec.AUDIO_CODEC_OPUS 64000) (by rfl)

theorem toDigitsCore_step (fuel n : Nat) (ds : List Char) (hf : 0 < fuel) :
    Nat.toDigitsCore 10 fuel n ds =
      if n / 10 = 0 then Nat.digitChar (n % 10) :: ds
      else Nat.toDigitsCore 10 (fuel - 1) (n / 10) (Nat.digitChar (n % 10) :: ds) := by
  cases fuel with
  | zero => omega
  | succ f => simp [Nat.toDigitsCore]

theorem toDigitsCore_length (k : Nat) :
    ∀ (fuel n : Nat) (ds : List Char), n < 10 ^ (k + 1) →
      (Nat.toDigitsCore 10 fuel n ds).length ≤ k + 1 + ds.length := by
  induction k with
  | zero =>
    intro fuel n ds hn
    cases fuel with
    | zero => simp [Nat.toDigitsCore]
    | succ f =>
      rw [toDigitsCore_step _ _ _ (by omega)]
      have : n / 10 = 0 := by omega
      simp only [this, if_true, List.length_cons]
      omega
  | succ k ih =>
    intro fuel n ds hn
    cases fuel with
    | zero => simp [Nat.toDigitsCore]
    | succ f =>
      rw [toDigitsCore_step _ _ _ (by omega)]
      split_ifs with h0
      · simp only [List.length_cons]
        omega
      · have hlt : n / 10 < 10 ^ (k + 1) := by
          rw [Nat.div_lt_iff_lt_mul (by norm_num)]
          calc n < 10 ^ (k + 1 + 1) := hn
            _ = 10 ^ (k + 1) * 10 := by ring
        have := ih (f + 1 - 1) (n / 10) (Nat.digitChar (n % 10) :: ds) hlt
        simp only [List.length_cons] at this
        omega

theorem toDigits_two (n : Nat) (h1 : 10 ≤ n) (h2 : n < 100) :
    Nat.toDigits 10 n = [Nat.digitChar (n / 10), Nat.digitChar (n % 10)] := by
  unfold Nat.toDigits
  rw [toDigitsCore_step _ _ _ (by omega), if_neg (by omega),
    toDigitsCore_step _ _ _ (by omega), if_pos (by omega)]
  congr 2
  omega

theorem toDigits_one (n : Nat) (h : n < 10) : Nat.toDigits 10 n = [Nat.digitChar n] := by
  unfold Nat.toDigits
  rw [toDigitsCore_step _ _ _ (by omega), if_pos (by omega)]
  congr 2
  omega

theorem toDigits_four (n : Nat) (h1 : 1000 ≤ n) (h2 : n < 10000) :
    Nat.toDigits 10 n = [Nat.digitChar (n / 1000), Nat.digitChar (n / 100 % 10),
      Nat.digitChar (n / 10 % 10), Nat.digitChar (n % 10)] := by
  unfold Nat.toDigits
  rw [toDigitsCore_step _ _ _ (by omega), if_neg (by omega),
    toDigitsCore_step _ _ _ (by omega), if_neg (by omega),
    toDigitsCore_step _ _ _ (by omega), if_neg (by omega),
    toDigitsCore_step _ _ _ (by omega), if_pos (by omega)]
  have e1 : n / 10 / 10 / 10 % 10 = n / 1000 := by omega
  have e2 : n / 10 / 10 % 10 = n / 100 % 10 := by omega
  rw [e1, e2]

theorem fmt_02_eq (n : Nat) (h : n < 100) :
    fmt_02 n = [Nat.digitChar (n / 10), Nat.digitChar (n % 10)] := by
  unfold fmt_02
  by_cases h10 : n < 10
  · rw [if_pos h10, toDigits_one n h10]
    have h0 : n / 10 = 0 := by omega
    have h1 : n % 10 = n := by omega
    rw [h0, h1]
    rfl
  · rw [if_neg h10, toDigits_two n (by omega) h]

theorem fmt_Y_length (t : Tm) (h : t.wf) : (fmt_Y t).length ≤ 11 := by
  obtain ⟨h1, h2, _⟩ := h
  unfold INT_MIN INT_MAX at *
  have hb : (t.tm_year + 1900).natAbs < 10 ^ (9 + 1) := by omega
  have hl := toDigitsCore_length 9 ((t.tm_year + 1900).natAbs + 1) (t.tm_year + 1900).natAbs []
    hb
  unfold fmt_Y
  simp only [Nat.toDigits]
  split_ifs
  · simp only [List.length_cons]
    simp only [List.length_nil] at hl
    omega
  · simp only [List.length_nil] at hl
    omega

theorem filename_text_eq (t : Tm) : filename_text t = filename_stem t ++ ".mp4".toList := rfl

theorem filename_stem_length (t : Tm) (h : t.wf) : (filename_stem t).length ≤ 40 := by
  have hy := fmt_Y_length t h
  obtain ⟨_, _, h3, h4, h5, h6, h7, h8⟩ := h
  unfold filename_stem
  rw [fmt_02_eq _ (by omega), fmt_02_eq _ (by omega), fmt_02_eq _ (by omega),
    fmt_02_eq _ (by omega), fmt_02_eq _ (by omega)]
  simp only [List.length_append, List.length_cons, List.length_nil, String.toList]
  have : "screenrecording_".data.length = 16 := by decide
  have : "_".data.length = 1 := by decide
  omega

theorem generate_filename_eq (t : Tm) (h : t.wf) :
    generate_filename 512 t = filename_stem t ++ ".mp4".toList := by
  have hl := filename_stem_length t h
  unfold generate_filename strftime
  rw [filename_text_eq, if_pos]
  rw [List.length_append]
  have : ".mp4".toList.length = 4 := by decide
  omega

theorem strrchr_append_ext (s e : List Char) (he : strrchr e '.' = none) :
    strrchr (s ++ '.' :: e) '.' = some s.length := by
  induction s with
  | nil => simp [strrchr, he]
  | cons x xs ih => simp [strrchr, ih]

theorem session_filename_eq (ac : AudioCodec) (t : Tm) (h : t.wf) :
    session_filename ac t = filename_stem t ++ spec_extension ac := by
  unfold session_filename
  rw [generate_filename_eq t h]
  cases ac with
  | AUDIO_CODEC_PCM =>
    have hd : strrchr (filename_stem t ++ ".mp4".toList) '.' = some (filename_stem t).length :=
      strrchr_append_ext (filename_stem t) "mp4".toList (by decide)
    simp only [if_true, hd, List.take_left', spec_extension]
  | AUDIO_CODEC_AAC => simp [spec_extension]
  | AUDIO_CODEC_OPUS => simp [spec_extension]

theorem suffix4_unique (stem a b : List Char) (ha : a.length = 4) (hb : b.length = 4)
    (h : a <:+ stem ++ b) : a = b := by
  have h1 : b <:+ stem ++ b := List.suffix_append stem b
  have h2 : a <:+ b := List.suffix_of_suffix_length_le h h1 (by omega)
  exact List.IsSuffix.eq_of_length h2 (by omega)

theorem mp4_not_suffix_mov (stem : List Char) :
    ¬ ".mp4".toList <:+ stem ++ ".mov".toList := by
  intro hs
  have := suffix4_unique _ _ _ (by decide) (by decide) hs
  revert this
  decide

theorem mov_not_suffix_mp4 (stem : List Char) :
    ¬ ".mov".toList <:+ stem ++ ".mp4".toList := by
  intro hs
  have := suffix4_unique _ _ _ (by decide) (by decide) hs
  revert this
  decide

/-- The container context of a session returned by `encoder_init`: the forced format, the
full output path as url, and the file opened on that path unless the format needs none. -/
theorem encoder_init_fmt (quality : Quality) (width height fps sample_rate channels : Int)
    (audio_codec : AudioCodec) (audio_bitrate : Int) (lib : InitLib) (c : EncoderContext)
    (h : (encoder_init quality width height fps sample_rate channels audio_codec audio_bitrate
      lib).ctx = some c) :
    c.fmt_ctx = some
      { format_name :=
          if audio_codec = AudioCodec.AUDIO_CODEC_PCM then some "mov".toList else none,
        url := full_output_path lib.home (session_filename audio_codec lib.now),
        nofile := lib.nofile, globalheader := lib.globalheader,
        pb := if lib.nofile then none
          else some (full_output_path lib.home (session_filename audio_codec lib.now)) } ∧
    (encoder_init quality width height fps sample_rate channels audio_codec audio_bitrate
      lib).fullpath =
        some (full_output_path lib.home (session_filename audio_codec lib.now)) := by
  unfold encoder_init at h ⊢
  simp only [apply_ite InitResult.ctx, apply_ite InitResult.fullpath] at h ⊢
  split_ifs at h <;> simp at h <;> subst h <;>
    simp_all [setup_video_stream_keeps, setup_audio_stream_keeps, full_output_path]

/-- C5: for every wall-clock time, the session file name ends in `.mov` exactly when the
audio codec is PCM and in `.mp4` exactly when it is AAC or Opus; the names for the three
codecs share one stem and differ only in that extension; and `encoder_init` uses this name
and passes the container format `mov` exactly when the codec is PCM, no format otherwise. -/
theorem extension_by_codec (t : Tm) (h : t.wf) :
    (∀ ac : AudioCodec,
      (".mov".toList <:+ session_filename ac t ↔ ac = AudioCodec.AUDIO_CODEC_PCM) ∧
      (".mp4".toList <:+ session_filename ac t ↔ ac ≠ AudioCodec.AUDIO_CODEC_PCM)) ∧
    (session_filename AudioCodec.AUDIO_CODEC_AAC t = filename_stem t ++ ".mp4".toList ∧
      session_filename AudioCodec.AUDIO_CODEC_OPUS t = filename_stem t ++ ".mp4".toList ∧
      session_filename AudioCodec.AUDIO_CODEC_PCM t = filename_stem t ++ ".mov".toList) ∧
    (∀ (quality : Quality) (width height fps sample_rate channels : Int) (ac : AudioCodec)
        (audio_bitrate : Int) (lib : InitLib), lib.now = t → lib.malloc = true →
      (encoder_init quality width height fps sample_rate channels ac audio_bitrate
          lib).format_name =
        (if ac = AudioCodec.AUDIO_CODEC_PCM then some "mov".toList else none) ∧
      (∀ c : EncoderContext,
        (encoder_init quality width height fps sample_rate channels ac audio_bitrate
          lib).ctx = some c →
        c.filename = session_filename ac t ∧
        ∃ f : AVFormatContext, c.fmt_ctx = some f ∧
          f.format_name = (if ac = AudioCodec.AUDIO_CODEC_PCM then some "mov".toList
            else none))) := by
  refine ⟨?_, ?_, ?_⟩
  · intro ac
    rw [session_filename_eq ac t h]
    cases ac with
    | AUDIO_CODEC_PCM =>
      have := mp4_not_suffix_mov (filename_stem t)
      simp only [spec_extension, List.suffix_append, this, ne_eq, reduceCtorEq,
        not_true_eq_false, not_false_eq_true, and_self]
    | AUDIO_CODEC_AAC =>
      have := mov_not_suffix_mp4 (filename_stem t)
      simp only [spec_extension, List.suffix_append, this, ne_eq, reduceCtorEq,
        not_true_eq_false, not_false_eq_true, and_self]
    | AUDIO_CODEC_OPUS =>
      have := mov_not_suffix_mp4 (filename_stem t)
      simp only [spec_extension, List.suffix_append, this, ne_eq, reduceCtorEq,
        not_true_eq_false, not_false_eq_true, and_self]
  · exact ⟨session_filename_eq _ t h, session_filename_eq _ t h, session_filename_eq _ t h⟩
  · intro q w hh f r ch ac br lib hnow hm
    constructor
    · unfold encoder_init
      simp only [hm, apply_ite InitResult.format_name]
      simp
    · intro c hc
      have hk := encoder_init_counters q w hh f r ch ac br lib c hc
      have hf := (encoder_init_fmt q w hh f r ch ac br lib c hc).1
      rw [hnow] at hk
      exact ⟨hk.2.2.2, _, hf, rfl⟩

/-- C5 (witness): the names generated at `sample_time`. -/
theorem extension_by_codec_witness :
    sample_time.wf ∧
    (session_filename AudioCodec.AUDIO_CODEC_AAC sample_time =
        filename_stem sample_time ++ ".mp4".toList ∧
      session_filename AudioCodec.AUDIO_CODEC_OPUS sample_time =
        filename_stem sample_time ++ ".mp4".toList ∧
      session_filename AudioCodec.AUDIO_CODEC_PCM sample_time =
        filename_stem sample_time ++ ".mov".toList) ∧
    session_filename AudioCodec.AUDIO_CODEC_PCM sample_time =
      "screenrecording_20240102_030405.mov".toList :=
  ⟨by decide, (extension_by_codec sample_time (by decide)).2.1, by decide⟩

theorem filename_stem_spec (t : Tm) (h : t.wf) (hy1 : 1000 ≤ t.tm_year + 1900)
    (hy2 : t.tm_year + 1900 ≤ 9999) :
    filename_stem t =
      "screenrecording_".toList ++ spec_date8 t ++ "_".toList ++ spec_time6 t := by
  obtain ⟨_, _, h3, h4, h5, h6, h7, h8⟩ := h
  have hY : fmt_Y t = [Nat.digitChar ((t.tm_year + 1900).toNat / 1000),
      Nat.digitChar ((t.tm_year + 1900).toNat / 100 % 10),
      Nat.digitChar ((t.tm_year + 1900).toNat / 10 % 10),
      Nat.digitChar ((t.tm_year + 1900).toNat % 10)] := by
    unfold fmt_Y
    have hn : ¬ t.tm_year + 1900 < 0 := by omega
    have habs : (t.tm_year + 1900).natAbs = (t.tm_year + 1900).toNat := by omega
    simp only [hn, if_false, habs]
    exact toDigits_four _ (by omega) (by omega)
  unfold filename_stem spec_date8 spec_time6
  rw [hY, fmt_02_eq _ (by omega), fmt_02_eq _ (by omega), fmt_02_eq _ (by omega),
    fmt_02_eq _ (by omega), fmt_02_eq _ (by omega)]
  simp

theorem output_dir_short (h : List Char) (hl : h.length ≤ 1001) :
    output_dir (some h) = h ++ "/Videos/Screenrecords/".toList := by
  unfold output_dir snprintf
  simp only []
  apply List.take_of_length_le
  have : "/Videos/Screenrecords/".toList.length = 22 := by decide
  rw [List.length_append]
  omega

theorem output_dir_unset : output_dir none = "./Videos/Screenrecords/".toList := by decide

theorem session_filename_length (ac : AudioCodec) (t : Tm) (h : t.wf) :
    (session_filename ac t).length ≤ 44 := by
  rw [session_filename_eq ac t h, List.length_append]
  have := filename_stem_length t h
  have : (spec_extension ac).length = 4 := by cases ac <;> decide
  omega

/-- C6 (amended): for every `HOME` value of at most 1001 bytes and every wall-clock time
with a four-digit year, the output path `encoder_init` computes, uses as the container url
and opens is `HOME` followed by `/Videos/Screenrecords/`, `screenrecording_`, the 8-digit
date, `_`, the 6-digit time and the extension; with `HOME` unset the directory prefix is
`./Videos/Screenrecords/`. -/
theorem output_path_format (home : Option (List Char)) (ac : AudioCodec) (t : Tm) (h : t.wf)
    (hy1 : 1000 ≤ t.tm_year + 1900) (hy2 : t.tm_year + 1900 ≤ 9999)
    (hh : ∀ s, home = some s → s.length ≤ 1001) :
    full_output_path home (session_filename ac t) = spec_output_path home ac t ∧
    spec_output_path none ac t =
      "./Videos/Screenrecords/".toList ++ "screenrecording_".toList ++ spec_date8 t ++
        "_".toList ++ spec_time6 t ++ spec_extension ac ∧
    (spec_date8 t).length = 8 ∧ (spec_time6 t).length = 6 ∧
    (∀ (quality : Quality) (width height fps sample_rate channels : Int)
        (audio_bitrate : Int) (lib : InitLib) (c : EncoderContext),
      lib.now = t → lib.home = home →
      (encoder_init quality width height fps sample_rate channels ac audio_bitrate
        lib).ctx = some c →
      (encoder_init quality width height fps sample_rate channels ac audio_bitrate
        lib).fullpath = some (spec_output_path home ac t) ∧
      ∃ f : AVFormatContext, c.fmt_ctx = some f ∧ f.url = spec_output_path home ac t ∧
        (lib.nofile = false → f.pb = some (spec_output_path home ac t))) := by
  have hname := session_filename_eq ac t h
  have hlen := session_filename_length ac t h
  have hstem := filename_stem_spec t h hy1 hy2
  have hmain : full_output_path home (session_filename ac t) = spec_output_path home ac t := by
    unfold full_output_path spec_output_path snprintf
    cases home with
    | none =>
      rw [output_dir_unset, List.take_of_length_le, hname, hstem]
      · simp
      · have : "./Videos/Screenrecords/".toList.length = 23 := by decide
        rw [List.length_append]
        omega
    | some s =>
      have hs := hh s rfl
      rw [output_dir_short s hs, List.take_of_length_le, hname, hstem]
      · simp
      · have : "/Videos/Screenrecords/".toList.length = 22 := by decide
        rw [List.length_append, List.length_append]
        omega
  refine ⟨hmain, by simp [spec_output_path], by simp [spec_date8], by simp [spec_time6], ?_⟩
  intro q w hgt f r ch br lib c hnow hhome hc
  obtain ⟨hf, hp⟩ := encoder_init_fmt q w hgt f r ch ac br lib c hc
  rw [hnow, hhome, hmain] at hf hp
  refine ⟨hp, _, hf, rfl, ?_⟩
  intro hnf
  simp [hnf]

/-- C6 (witness): `HOME=/home/u` at `sample_time` with AAC. -/
theorem output_path_format_witness :
    full_output_path (some "/home/u".toList)
        (session_filename AudioCodec.AUDIO_CODEC_AAC sample_time) =
      "/home/u/Videos/Screenrecords/screenrecording_20240102_030405.mp4".toList ∧
    spec_output_path (some "/home/u".toList) AudioCodec.AUDIO_CODEC_AAC sample_time =
      "/home/u/Videos/Screenrecords/screenrecording_20240102_030405.mp4".toList ∧
    full_output_path (some "/home/u".toList)
        (session_filename AudioCodec.AUDIO_CODEC_AAC sample_time) =
      spec_output_path (some "/home/u".toList) AudioCodec.AUDIO_CODEC_AAC sample_time :=
  ⟨by decide, by decide,
    (output_path_format (some "/home/u".toList) AudioCodec.AUDIO_CODEC_AAC sample_time
      (by decide) (by decide) (by decide)
      (by intro s hs; cases hs; decide)).1⟩

theorem encoder_init_fullpath (quality : Quality) (width height fps sample_rate channels : Int)
    (audio_codec : AudioCodec) (audio_bitrate : Int) (lib : InitLib) (hm : lib.malloc = true) :
    (encoder_init quality width height fps sample_rate channels audio_codec audio_bitrate
      lib).fullpath =
        some (full_output_path lib.home (session_filename audio_codec lib.now)) := by
  unfold encoder_init
  simp only [hm, apply_ite InitResult.fullpath, full_output_path]
  simp

theorem long_home_length : long_home.length = 1002 := by
  simp only [long_home, List.length_cons, List.length_replicate]

theorem output_dir_long : output_dir (some long_home) =
    long_home ++ "/Videos/Screenrecords".toList := by
  unfold output_dir snprintf
  simp only []
  have h : 1024 - 1 = long_home.length + 21 := by rw [long_home_length]
  rw [h, List.take_append]
  congr 1

/-- C6 (counterexample): with the 1002-byte `HOME` value `long_home` the directory text is
cut to the 1023 bytes that fit `filepath`, losing its final `/`; the path `encoder_init`
computes is one byte shorter than `HOME` + `/Videos/Screenrecords/` + name. -/
theorem output_path_truncated :
    (encoder_init Quality.QUALITY_MEDIUM 1280 720 30 44100 2 AudioCodec.AUDIO_CODEC_AAC 64000
      (all_ok_lib (some long_home) sample_time)).fullpath =
      some (long_home ++ "/Videos/Screenrecords".toList ++
        "screenrecording_20240102_030405.mp4".toList) ∧
    long_home ++ "/Videos/Screenrecords".toList ++
        "screenrecording_20240102_030405.mp4".toList ≠
      spec_output_path (some long_home) AudioCodec.AUDIO_CODEC_AAC sample_time := by
  have hname : session_filename AudioCodec.AUDIO_CODEC_AAC sample_time =
      "screenrecording_20240102_030405.mp4".toList := by decide
  constructor
  · rw [encoder_init_fullpath _ _ _ _ _ _ _ _ _ rfl]
    show some (full_output_path (some long_home)
      (session_filename AudioCodec.AUDIO_CODEC_AAC sample_time)) = _
    rw [hname]
    unfold full_output_path snprintf
    rw [output_dir_long, List.take_of_length_le]
    simp only [List.length_append, long_home_length]
    decide
  · intro heq
    have hl := congrArg List.length heq
    simp only [spec_output_path, List.length_append, long_home_length] at hl
    revert hl
    decide

theorem prompt_none_iff (accept : Bool) (text : Option (List Char)) :
    prompt_for_filename accept text = none ↔
      (accept = false ∨ text = none ∨ text = some []) := by
  unfold prompt_for_filename
  cases accept with
  | false => simp
  | true =>
    cases text with
    | none => simp
    | some t =>
      cases t with
      | nil => simp
      | cons x xs => simp

/-- The stop path on a live session: it returns, resets the globals to their initial values
and handles the files as `stop_files` does with the prompt's result. -/
theorem stop_path_some (app : App) (e : EncoderContext) (lib : ToggleLib)
    (he : app.enc_ctx = some e) (hf : app.rec_ctx_freed = false) :
    ∃ r : StopResult, stop_path app lib = some r ∧ r.app = App.initial ∧
      r.files = stop_files lib.home e.filename
        (prompt_for_filename lib.prompt_accept lib.prompt_text) lib.fs lib.remove_ok
        lib.rename_ok ∧
      on_record_toggle ⟨true, app⟩ lib = (TogglePath.stop, some ⟨false, r.app⟩) := by
  have hs : stop_path app lib = some
      { app := App.initial, finalize := (encoder_finalize (some e) lib.trailer).1,
        files := stop_files lib.home e.filename
          (prompt_for_filename lib.prompt_accept lib.prompt_text) lib.fs lib.remove_ok
          lib.rename_ok,
        released := encoder_cleanup (some { e with filename :=
          (stop_files lib.home e.filename
            (prompt_for_filename lib.prompt_accept lib.prompt_text) lib.fs lib.remove_ok
            lib.rename_ok).filename }),
        pcm_calls := audio_cleanup (audio_stop app.audio_ctx).ctx } := by
    unfold stop_path
    rw [he, hf]
    rfl
  refine ⟨_, hs, rfl, rfl, ?_⟩
  unfold on_record_toggle
  rw [hs]
  rfl

/-- The file calls of the stop path when no name is supplied. -/
theorem stop_files_none (home : Option (List Char)) (filename : List Char) (fs : FileSystem)
    (rm rn : Bool) :
    (stop_files home filename none fs rm rn).calls =
      [FsCall.remove (full_output_path home filename)] ∧
    (stop_files home filename none fs rm rn).filename = filename ∧
    (rm = true → (stop_files home filename none fs rm rn).fs
      (full_output_path home filename) = false) ∧
    (rm = false → (stop_files home filename none fs rm rn).fs = fs) ∧
    (∀ q, q ≠ full_output_path home filename →
      (stop_files home filename none fs rm rn).fs q = fs q) := by
  refine ⟨rfl, rfl, ?_, ?_, ?_⟩
  · intro hrm
    simp only [stop_files, fs_remove, hrm, Bool.true_and]
    by_cases hx : fs (full_output_path home filename) = true
    · simp [hx]
    · simp [hx]
  · intro hrm
    simp [stop_files, fs_remove, hrm]
  · intro q hq
    simp only [stop_files, fs_remove]
    by_cases hx : (rm && fs (full_output_path home filename)) = true
    · simp [hx, hq]
    · simp [hx]

/-- C8 (amended): when the prompt supplies no name (it is cancelled, or accepted with no or
empty text), the stop path of `on_record_toggle` on a live session makes exactly one file
call, `remove` on the session's full output path (the path `encoder_init` opened, `HOME`
being the same), and no `rename`; when that `remove` is not refused the file at that path
does not exist afterwards, when it is refused the files are as before; every other path
is untouched in both cases. -/
theorem stop_without_name_deletes (app : App) (e : EncoderContext) (lib : ToggleLib)
    (he : app.enc_ctx = some e) (hf : app.rec_ctx_freed = false)
    (hname : lib.prompt_accept = false ∨ lib.prompt_text = none ∨ lib.prompt_text = some []) :
    prompt_for_filename lib.prompt_accept lib.prompt_text = none ∧
    (∃ r : StopResult, stop_path app lib = some r ∧
      on_record_toggle ⟨true, app⟩ lib = (TogglePath.stop, some ⟨false, r.app⟩) ∧
      r.app = App.initial ∧
      r.files.calls = [FsCall.remove (full_output_path lib.home e.filename)] ∧
      (∀ o n, FsCall.rename o n ∉ r.files.calls) ∧
      (lib.remove_ok = true → r.files.fs (full_output_path lib.home e.filename) = false) ∧
      (lib.remove_ok = false → r.files.fs = lib.fs) ∧
      (∀ q, q ≠ full_output_path lib.home e.filename → r.files.fs q = lib.fs q)) ∧
    (∀ (quality : Quality) (width height fps sample_rate channels : Int) (ac : AudioCodec)
        (audio_bitrate : Int) (init : InitLib),
      (encoder_init quality width height fps sample_rate channels ac audio_bitrate
        init).ctx = some e → init.home = lib.home →
      (encoder_init quality width height fps sample_rate channels ac audio_bitrate
        init).fullpath = some (full_output_path lib.home e.filename) ∧
      ∃ f : AVFormatContext, e.fmt_ctx = some f ∧
        f.url = full_output_path lib.home e.filename) ∧
    (∀ (accept : Bool) (text : Option (List Char)),
      prompt_for_filename accept text = none ↔
        (accept = false ∨ text = none ∨ text = some [])) := by
  have hp : prompt_for_filename lib.prompt_accept lib.prompt_text = none :=
    (prompt_none_iff lib.prompt_accept lib.prompt_text).2 hname
  refine ⟨hp, ?_, ?_, prompt_none_iff⟩
  · obtain ⟨r, hr, happ, hfiles, htog⟩ := stop_path_some app e lib he hf
    rw [hp] at hfiles
    obtain ⟨h1, _, h3, h4, h5⟩ :=
      stop_files_none lib.home e.filename lib.fs lib.remove_ok lib.rename_ok
    refine ⟨r, hr, htog, happ, ?_, ?_, ?_, ?_, ?_⟩
    · rw [hfiles, h1]
    · intro o n hmem
      rw [hfiles, h1] at hmem
      simp at hmem
    · rw [hfiles]
      exact h3
    · rw [hfiles]
      exact h4
    · rw [hfiles]
      exact h5
  · intro q w h f r ch ac br init hc hhome
    obtain ⟨hfm, hpath⟩ := encoder_init_fmt q w h f r ch ac br init e hc
    have hk := encoder_init_counters q w h f r ch ac br init e hc
    rw [← hhome, hk.2.2.2]
    exact ⟨hpath, _, hfm, rfl⟩

/-- C8 (witness): the recording that `ok_toggle` starts is stopped with the dialog
cancelled: the one file call removes the recording, which is gone afterwards. -/
theorem stop_without_name_deletes_witness :
    recording_app.enc_ctx = some recording_session ∧ recording_app.is_recording = 1 ∧
    ok_toggle.prompt_accept = false ∧
    full_output_path ok_toggle.home recording_session.filename =
      "/home/u/Videos/Screenrecords/screenrecording_20240102_030405.mp4".toList ∧
    ok_toggle.fs (full_output_path ok_toggle.home recording_session.filename) = true ∧
    ∃ r : StopResult, stop_path recording_app ok_toggle = some r ∧
      r.files.calls =
        [FsCall.remove (full_output_path ok_toggle.home recording_session.filename)] ∧
      r.files.fs (full_output_path ok_toggle.home recording_session.filename) = false :=
  ⟨by decide, by decide, rfl, by decide, by decide,
    Exists.imp (fun _ h => ⟨h.1, h.2.2.2.1, h.2.2.2.2.2.1 rfl⟩)
      (stop_without_name_deletes recording_app recording_session ok_toggle (by decide)
        (by decide) (Or.inl rfl)).2.1⟩

/-- C8 (counterexample): the same stop with `remove` refused by the system: the stop path
makes its one `remove` call, only reports the failure, and the output file still exists
afterwards. -/
theorem stop_remove_refused :
    recording_app.recording ∧
    prompt_for_filename stop_remove_fails.prompt_accept stop_remove_fails.prompt_text = none ∧
    ((stop_path recording_app stop_remove_fails).map (fun r => r.files.calls)) =
      some [FsCall.remove
        "/home/u/Videos/Screenrecords/screenrecording_20240102_030405.mp4".toList] ∧
    ((stop_path recording_app stop_remove_fails).map (fun r => r.files.fs
        "/home/u/Videos/Screenrecords/screenrecording_20240102_030405.mp4".toList)) =
      some true := by
  decide

/-- The file calls of the stop path when a name is supplied. -/
theorem stop_files_some (home : Option (List Char)) (filename n : List Char) (fs : FileSystem)
    (rm rn : Bool) :
    (rename_target home n ≠ full_output_path home filename →
      (stop_files home filename (some n) fs rm rn).calls =
        [FsCall.rename (full_output_path home filename) (rename_target home n)]) ∧
    (rename_target home n = full_output_path home filename →
      (stop_files home filename (some n) fs rm rn).calls = [] ∧
      (stop_files home filename (some n) fs rm rn).fs = fs ∧
      (stop_files home filename (some n) fs rm rn).filename = filename) ∧
    (rename_target home n ≠ full_output_path home filename → rn = true →
      fs (full_output_path home filename) = true →
      (stop_files home filename (some n) fs rm rn).fs (rename_target home n) = true ∧
      (stop_files home filename (some n) fs rm rn).fs (full_output_path home filename) =
        false) ∧
    (rename_target home n ≠ full_output_path home filename → rn = false →
      (stop_files home filename (some n) fs rm rn).fs = fs ∧
      (stop_files home filename (some n) fs rm rn).filename = filename) := by
  refine ⟨?_, ?_, ?_, ?_⟩
  · intro hne
    simp only [stop_files, hne, ne_eq, not_false_eq_true, if_true]
    split_ifs <;> rfl
  · intro heq
    simp [stop_files, heq]
  · intro hne hrn hfs
    have hne2 : full_output_path home filename ≠ rename_target home n := fun h => hne h.symm
    simp [stop_files, fs_rename, hne, hrn, hfs, hne2]
  · intro hne hrn
    simp [stop_files, fs_rename, hne, hrn]

/-- C9 (amended): when a non-empty name `n` is supplied, the rename target is the first 2047
bytes of `n` when `n` begins with `/` and otherwise the first 2047 bytes of the output
directory followed by `n` (so `n` itself, respectively the directory followed by `n`,
whenever that text has at most 2047 bytes); the stop path of `on_record_toggle` on a live
session calls `rename` from the original full output path to the target exactly when the
two differ, and that is then its only file call; it never calls `remove`; when the two are
equal it makes no file call at all; a `rename` that is not refused leaves the file at the
target and no longer at the original path, a refused one leaves the files as they were. -/
theorem rename_when_named (app : App) (e : EncoderContext) (lib : ToggleLib) (n : List Char)
    (he : app.enc_ctx = some e) (hf : app.rec_ctx_freed = false)
    (haccept : lib.prompt_accept = true) (htext : lib.prompt_text = some n) (hn : n ≠ []) :
    (n.head? = some '/' → rename_target lib.home n = n.take 2047) ∧
    (n.head? ≠ some '/' → rename_target lib.home n = (output_dir lib.home ++ n).take 2047) ∧
    (n.head? = some '/' → n.length ≤ 2047 → rename_target lib.home n = n) ∧
    (n.head? ≠ some '/' → (output_dir lib.home ++ n).length ≤ 2047 →
      rename_target lib.home n = output_dir lib.home ++ n) ∧
    prompt_for_filename lib.prompt_accept lib.prompt_text = some n ∧
    (∃ r : StopResult, stop_path app lib = some r ∧
      on_record_toggle ⟨true, app⟩ lib = (TogglePath.stop, some ⟨false, r.app⟩) ∧
      r.app = App.initial ∧
      (r.files.calls =
          [FsCall.rename (full_output_path lib.home e.filename) (rename_target lib.home n)] ↔
        rename_target lib.home n ≠ full_output_path lib.home e.filename) ∧
      (rename_target lib.home n = full_output_path lib.home e.filename →
        r.files.calls = [] ∧ r.files.fs = lib.fs) ∧
      (∀ p, FsCall.remove p ∉ r.files.calls) ∧
      (rename_target lib.home n ≠ full_output_path lib.home e.filename →
        lib.rename_ok = true → lib.fs (full_output_path lib.home e.filename) = true →
        r.files.fs (rename_target lib.home n) = true ∧
        r.files.fs (full_output_path lib.home e.filename) = false) ∧
      (rename_target lib.home n ≠ full_output_path lib.home e.filename →
        lib.rename_ok = false → r.files.fs = lib.fs)) := by
  have hp : prompt_for_filename lib.prompt_accept lib.prompt_text = some n := by
    rw [haccept, htext]
    cases n with
    | nil => exact absurd rfl hn
    | cons x xs => simp [prompt_for_filename]
  obtain ⟨hs1, hs2, hs3, hs4⟩ :=
    stop_files_some lib.home e.filename n lib.fs lib.remove_ok lib.rename_ok
  refine ⟨?_, ?_, ?_, ?_, hp, ?_⟩
  · intro h
    simp [rename_target, h, strncpy]
  · intro h
    simp [rename_target, h, snprintf]
  · intro h hl
    simp only [rename_target, h, if_true, strncpy]
    exact List.take_of_length_le hl
  · intro h hl
    simp only [rename_target, h, if_false, snprintf]
    exact List.take_of_length_le hl
  · obtain ⟨r, hr, happ, hfiles, htog⟩ := stop_path_some app e lib he hf
    rw [hp] at hfiles
    refine ⟨r, hr, htog, happ, ?_, ?_, ?_, ?_, ?_⟩
    · rw [hfiles]
      constructor
      · intro hc heq
        rw [(hs2 heq).1] at hc
        simp at hc
      · exact hs1
    · intro heq
      rw [hfiles]
      exact ⟨(hs2 heq).1, (hs2 heq).2.1⟩
    · intro p hmem
      rw [hfiles] at hmem
      by_cases heq : rename_target lib.home n = full_output_path lib.home e.filename
      · rw [(hs2 heq).1] at hmem
        simp at hmem
      · rw [hs1 heq] at hmem
        simp at hmem
    · intro hne hok hex
      rw [hfiles]
      exact hs3 hne hok hex
    · intro hne hok
      rw [hfiles]
      exact (hs4 hne hok).1

/-- C9 (witness): the recording that `ok_toggle` starts is stopped with the name `demo.mp4`
supplied: the stop path renames it to `/home/u/Videos/Screenrecords/demo.mp4`. -/
theorem rename_when_named_witness :
    recording_app.enc_ctx = some recording_session ∧
    stop_renamed.prompt_text = some "demo.mp4".toList ∧
    rename_target stop_renamed.home "demo.mp4".toList =
      "/home/u/Videos/Screenrecords/demo.mp4".toList ∧
    ∃ r : StopResult, stop_path recording_app stop_renamed = some r ∧
      (r.files.calls =
          [FsCall.rename (full_output_path stop_renamed.home recording_session.filename)
            (rename_target stop_renamed.home "demo.mp4".toList)] ↔
        rename_target stop_renamed.home "demo.mp4".toList ≠
          full_output_path stop_renamed.home recording_session.filename) :=
  ⟨by decide, rfl, by decide,
    Exists.imp (fun _ h => ⟨h.1, h.2.2.2.1⟩)
      (rename_when_named recording_app recording_session stop_renamed "demo.mp4".toList
        (by decide) (by decide) rfl rfl (by decide)).2.2.2.2.2⟩

/-- C9 (counterexample): for the 2048-byte absolute name `long_name` the rename target is
not the name itself but its first 2047 bytes; and for a name in a directory that does not
exist the target differs from the original path, `rename` is called and refused, and the
output file is still at its original path and not at the target. -/
theorem rename_target_truncated :
    long_name.head? = some '/' ∧ long_name ≠ [] ∧
    rename_target none long_name = long_name.take 2047 ∧
    rename_target none long_name ≠ long_name ∧
    ((stop_path recording_app stop_rename_fails).map (fun r => r.files.calls)) =
      some [FsCall.rename
        "/home/u/Videos/Screenrecords/screenrecording_20240102_030405.mp4".toList
        "/nowhere/demo.mp4".toList] ∧
    ((stop_path recording_app stop_rename_fails).map (fun r =>
        (r.files.fs
          "/home/u/Videos/Screenrecords/screenrecording_20240102_030405.mp4".toList,
        r.files.fs "/nowhere/demo.mp4".toList))) = some (true, false) := by
  have h1 : long_name.head? = some '/' := rfl
  have h2 : rename_target none long_name = long_name.take 2047 := by
    simp only [rename_target, h1, if_true, strncpy]
  refine ⟨h1, by simp only [long_name, ne_eq, reduceCtorEq, not_false_eq_true], h2, ?_,
    by decide, by decide⟩
  intro heq
  have hl := congrArg List.length heq
  rw [h2] at hl
  simp only [long_name, List.length_take, List.length_cons, List.length_replicate] at hl
  omega

theorem shift_and_byte (p s : Nat) : (p >>> s) &&& 255 = p / 2 ^ s % 256 := by
  rw [Nat.shiftRight_eq_div_pow]
  exact Nat.and_pow_two_sub_one_eq_mod _ 8

theorem and_byte (p : Nat) : p &&& 255 = p % 256 :=
  Nat.and_pow_two_sub_one_eq_mod p 8

theorem wrapInt32_nat (n : Nat) (h : n ≤ 2147483647) : wrapInt32 (n : Int) = (n : Int) := by
  unfold wrapInt32
  omega

theorem pixel_index_bound (W H i j : Nat) (hi : i < W) (hj : j < H) :
    (j * W + i) * 3 + 3 ≤ W * H * 3 := by
  have h1 : (j + 1) * W ≤ H * W := Nat.mul_le_mul_right W hj
  have h2 : (j + 1) * W = j * W + W := by ring
  have h3 : W * H = H * W := Nat.mul_comm W H
  omega

theorem store_pixel_eq (W H i j pixel : Nat) (buffer : List Nat) (hi : i < W) (hj : j < H)
    (hmax : (W : Int) * (H : Int) * 3 ≤ INT_MAX) :
    store_pixel (W : Int) pixel buffer i j =
      ((buffer.set ((j * W + i) * 3) (pixel / 65536 % 256)).set ((j * W + i) * 3 + 1)
        (pixel / 256 % 256)).set ((j * W + i) * 3 + 2) (pixel % 256) := by
  have hb := pixel_index_bound W H i j hi hj
  have hmax2 : W * H * 3 ≤ 2147483647 := by
    unfold INT_MAX at hmax
    exact_mod_cast hmax
  have e1 : wrapInt32 ((j : Int) * (W : Int)) = ((j * W : Nat) : Int) := by
    rw [← Nat.cast_mul]
    exact wrapInt32_nat _ (by omega)
  have e2 : wrapInt32 (((j * W : Nat) : Int) + (i : Int)) = ((j * W + i : Nat) : Int) := by
    rw [← Nat.cast_add]
    exact wrapInt32_nat _ (by omega)
  have e3 : wrapInt32 (((j * W + i : Nat) : Int) * 3) = (((j * W + i) * 3 : Nat) : Int) := by
    have : ((j * W + i : Nat) : Int) * 3 = (((j * W + i) * 3 : Nat) : Int) := by push_cast; ring
    rw [this]
    exact wrapInt32_nat _ (by omega)
  unfold store_pixel
  simp only [e1, e2, e3]
  have hneg : ¬ (((j * W + i) * 3 : Nat) : Int) < 0 := by omega
  rw [if_neg hneg, Int.toNat_ofNat, shift_and_byte, shift_and_byte, and_byte]
  norm_num

theorem fill_step (W : Nat) (img : Nat → Nat → Nat) (init : Nat → Nat) (N i j : Nat)
    (hi : i < W) (hN : (j * W + i) * 3 + 3 ≤ N) :
    ((((List.range N).map (filled_to W img init ((j * W + i) * 3))).set ((j * W + i) * 3)
        (img i j / 65536 % 256)).set ((j * W + i) * 3 + 1) (img i j / 256 % 256)).set
        ((j * W + i) * 3 + 2) (img i j % 256) =
      (List.range N).map (filled_to W img init ((j * W + i + 1) * 3)) := by
  have hW : 0 < W := by omega
  have hq : (j * W + i) % W = i := by
    rw [Nat.add_comm, Nat.add_mul_mod_self_right]
    exact Nat.mod_eq_of_lt hi
  have hd : (j * W + i) / W = j := by
    rw [Nat.add_comm, Nat.add_mul_div_right _ _ hW, Nat.div_eq_of_lt hi]
    omega
  apply List.ext_getElem?
  intro k
  simp only [List.getElem?_set, List.length_set, List.length_map, List.length_range,
    List.getElem?_map]
  by_cases hk : k < N
  · rw [List.getElem?_range hk]
    simp only [Option.map_some']
    by_cases h0 : k = (j * W + i) * 3
    · subst h0
      have hm : (j * W + i) * 3 % 3 = 0 := by omega
      have hdv : (j * W + i) * 3 / 3 = j * W + i := by omega
      have h1 : ¬ (j * W + i) * 3 + 2 = (j * W + i) * 3 := by omega
      have h2 : ¬ (j * W + i) * 3 + 1 = (j * W + i) * 3 := by omega
      have h3 : (j * W + i) * 3 < (j * W + i + 1) * 3 := by omega
      simp [h1, h2, hk, filled_to, h3, rgb_byte, hm, hdv, hq, hd]
    · by_cases h1 : k = (j * W + i) * 3 + 1
      · subst h1
        have hm : ((j * W + i) * 3 + 1) % 3 = 1 := by omega
        have hdv : ((j * W + i) * 3 + 1) / 3 = j * W + i := by omega
        have h3 : (j * W + i) * 3 + 1 < (j * W + i + 1) * 3 := by omega
        simp [hk, filled_to, h3, rgb_byte, hm, hdv, hq, hd]
      · by_cases h2 : k = (j * W + i) * 3 + 2
        · subst h2
          have hm : ((j * W + i) * 3 + 2) % 3 = 2 := by omega
          have hdv : ((j * W + i) * 3 + 2) / 3 = j * W + i := by omega
          have h3 : (j * W + i) * 3 + 2 < (j * W + i + 1) * 3 := by omega
          simp [hk, filled_to, h3, rgb_byte, hm, hdv, hq, hd]
        · have e0 : ¬ (j * W + i) * 3 = k := fun h => h0 h.symm
          have e1 : ¬ (j * W + i) * 3 + 1 = k := fun h => h1 h.symm
          have e2 : ¬ (j * W + i) * 3 + 2 = k := fun h => h2 h.symm
          have hiff : (k < (j * W + i) * 3) ↔ (k < (j * W + i + 1) * 3) := by omega
          simp [e0, e1, e2, filled_to, hiff]
  · have hnone : (List.range N)[k]? = none := by
      rw [List.getElem?_eq_none_iff]
      simp only [List.length_range]
      omega
    have e0 : ¬ (j * W + i) * 3 = k := by omega
    have e1 : ¬ (j * W + i) * 3 + 1 = k := by omega
    have e2 : ¬ (j * W + i) * 3 + 2 = k := by omega
    simp [hnone, e0, e1, e2]

theorem convert_row (W H N : Nat) (img : Nat → Nat → Nat) (init : Nat → Nat) (j : Nat)
    (hj : j < H) (hmax : (W : Int) * (H : Int) * 3 ≤ INT_MAX) (hN : W * H * 3 ≤ N) :
    ∀ m : Nat, m ≤ W →
      (List.range m).foldl (fun b i => store_pixel (W : Int) (img i j) b i j)
          ((List.range N).map (filled_to W img init (j * W * 3))) =
        (List.range N).map (filled_to W img init ((j * W + m) * 3)) := by
  intro m
  induction m with
  | zero =>
    intro _
    simp only [List.range_zero, List.foldl_nil, Nat.add_zero]
  | succ m ih =>
    intro hm
    have hb := pixel_index_bound W H m j (by omega) hj
    rw [List.range_succ, List.foldl_append, ih (by omega)]
    rw [List.foldl_cons, List.foldl_nil]
    rw [store_pixel_eq W H m j _ _ (by omega) hj hmax,
      fill_step W img init N m j (by omega) (by omega), Nat.add_assoc]

theorem convert_rows_prefix (W H N : Nat) (img : Nat → Nat → Nat) (init : Nat → Nat)
    (hmax : (W : Int) * (H : Int) * 3 ≤ INT_MAX) (hN : W * H * 3 ≤ N) :
    ∀ r : Nat, r ≤ H →
      (List.range r).foldl
          (fun buf j => (List.range W).foldl
            (fun b i => store_pixel (W : Int) (img i j) b i j) buf)
          ((List.range N).map (filled_to W img init 0)) =
        (List.range N).map (filled_to W img init (r * W * 3)) := by
  intro r
  induction r with
  | zero =>
    intro _
    simp only [List.range_zero, List.foldl_nil, Nat.zero_mul]
  | succ r ih =>
    intro hr
    rw [List.range_succ, List.foldl_append, ih (by omega)]
    rw [List.foldl_cons, List.foldl_nil]
    rw [convert_row W H N img init r (by omega) hmax hN W (Nat.le_refl W)]
    have e : (r * W + W) * 3 = (r + 1) * W * 3 := by ring
    rw [e]

theorem convert_rows_eq (W H : Nat) (img : Nat → Nat → Nat) (init : Nat → Nat)
    (hmax : (W : Int) * (H : Int) * 3 ≤ INT_MAX) :
    convert_rows (W : Int) (H : Int) img ((List.range (W * H * 3)).map init) =
      (List.range (W * H * 3)).map (rgb_byte W img) := by
  have h0 : filled_to W img init 0 = init := by
    funext k
    simp only [filled_to, Nat.not_lt_zero, if_false]
  have h := convert_rows_prefix W H (W * H * 3) img init hmax (Nat.le_refl _) H (Nat.le_refl H)
  rw [h0] at h
  unfold convert_rows
  simp only [Int.toNat_ofNat]
  rw [h]
  apply List.map_congr_left
  intro k hk
  have hk' : k < H * W * 3 := by
    have := List.mem_range.mp hk
    have e : W * H = H * W := Nat.mul_comm W H
    rw [e] at this
    exact this
  simp only [filled_to, hk', if_true]

theorem packed_offsets_cover (W H k : Nat) (hk : k < W * H * 3) :
    ∃! t : Nat × Nat × Nat,
      t.1 < W ∧ t.2.1 < H ∧ t.2.2 < 3 ∧ (t.2.1 * W + t.1) * 3 + t.2.2 = k := by
  have hW : 0 < W := by
    rcases Nat.eq_zero_or_pos W with h | h
    · subst h; simp at hk
    · exact h
  have hq : k / 3 < W * H := by omega
  have hj : k / 3 / W < H := by
    rw [Nat.div_lt_iff_lt_mul hW, Nat.mul_comm]
    exact hq
  have hi : k / 3 % W < W := Nat.mod_lt _ hW
  have hsum : k / 3 / W * W + k / 3 % W = k / 3 := by
    rw [Nat.mul_comm]
    exact Nat.div_add_mod (k / 3) W
  refine ⟨(k / 3 % W, k / 3 / W, k % 3), ⟨hi, hj, Nat.mod_lt _ (by norm_num), ?_⟩, ?_⟩
  · show (k / 3 / W * W + k / 3 % W) * 3 + k % 3 = k
    rw [hsum]
    omega
  · rintro ⟨i, j, ch⟩ ⟨h1, _, h3, h4⟩
    simp only at h1 h3 h4
    have hq2 : k / 3 = j * W + i := by omega
    have hc : k % 3 = ch := by omega
    have hi2 : k / 3 % W = i := by
      rw [hq2, Nat.add_comm, Nat.add_mul_mod_self_right]
      exact Nat.mod_eq_of_lt h1
    have hj2 : k / 3 / W = j := by
      rw [hq2, Nat.add_comm, Nat.add_mul_div_right _ _ hW, Nat.div_eq_of_lt h1]
      omega
    rw [hi2, hj2, hc]

theorem rgb_byte_at (W : Nat) (img : Nat → Nat → Nat) (i j : Nat) (hi : i < W) :
    rgb_byte W img ((j * W + i) * 3) = img i j / 65536 % 256 ∧
    rgb_byte W img ((j * W + i) * 3 + 1) = img i j / 256 % 256 ∧
    rgb_byte W img ((j * W + i) * 3 + 2) = img i j % 256 := by
  have hW : 0 < W := by omega
  have hq : (j * W + i) % W = i := by
    rw [Nat.add_comm, Nat.add_mul_mod_self_right]
    exact Nat.mod_eq_of_lt hi
  have hd : (j * W + i) / W = j := by
    rw [Nat.add_comm, Nat.add_mul_div_right _ _ hW, Nat.div_eq_of_lt hi]
    omega
  have m0 : (j * W + i) * 3 % 3 = 0 := by omega
  have d0 : (j * W + i) * 3 / 3 = j * W + i := by omega
  have m1 : ((j * W + i) * 3 + 1) % 3 = 1 := by omega
  have d1 : ((j * W + i) * 3 + 1) / 3 = j * W + i := by omega
  have m2 : ((j * W + i) * 3 + 2) % 3 = 2 := by omega
  have d2 : ((j * W + i) * 3 + 2) / 3 = j * W + i := by omega
  refine ⟨?_, ?_, ?_⟩
  · simp [rgb_byte, m0, d0, hq, hd]
  · simp [rgb_byte, m1, d1, hq, hd]
  · simp [rgb_byte, m2, d2, hq, hd]

theorem capture_frame_some (c : RecorderContext) (xs : XServer) (init : Nat → Nat)
    (img : Nat → Nat → Nat) (hcap : c.is_capturing ≠ 0)
    (hgrab : xs.get_image (if c.is_window_capture ≠ 0 then c.target else c.root)
      (if c.is_window_capture ≠ 0 then 0 else c.x)
      (if c.is_window_capture ≠ 0 then 0 else c.y) c.width c.height = some img)
    (hmalloc : xs.malloc
      (wrapInt32 (wrapInt32 (c.width * c.height) * 3) % 18446744073709551616).toNat = true) :
    recorder_capture_frame (some c) xs init =
      ⟨some (convert_rows c.width c.height img
          ((List.range
            (wrapInt32 (wrapInt32 (c.width * c.height) * 3) % 18446744073709551616).toNat).map
              init)),
        some (wrapInt32 (c.width * 3)),
        some (if c.is_window_capture ≠ 0 then c.target else c.root,
          if c.is_window_capture ≠ 0 then 0 else c.x,
          if c.is_window_capture ≠ 0 then 0 else c.y), some c⟩ := by
  unfold recorder_capture_frame
  simp only [hcap, if_false, hgrab, hmalloc, Bool.not_true, Bool.false_eq_true]

theorem capture_frame_malloc_fail (c : RecorderContext) (xs : XServer) (init : Nat → Nat)
    (img : Nat → Nat → Nat) (hcap : c.is_capturing ≠ 0)
    (hgrab : xs.get_image (if c.is_window_capture ≠ 0 then c.target else c.root)
      (if c.is_window_capture ≠ 0 then 0 else c.x)
      (if c.is_window_capture ≠ 0 then 0 else c.y) c.width c.height = some img)
    (hmalloc : xs.malloc
      (wrapInt32 (wrapInt32 (c.width * c.height) * 3) % 18446744073709551616).toNat = false) :
    recorder_capture_frame (some c) xs init =
      ⟨none, none,
        some (if c.is_window_capture ≠ 0 then c.target else c.root,
          if c.is_window_capture ≠ 0 then 0 else c.x,
          if c.is_window_capture ≠ 0 then 0 else c.y), some c⟩ := by
  unfold recorder_capture_frame
  simp only [hcap, if_false, hgrab, hmalloc, Bool.not_false, if_true]

theorem capture_frame_grab_fail (c : RecorderContext) (xs : XServer) (init : Nat → Nat)
    (hcap : c.is_capturing ≠ 0)
    (hgrab : xs.get_image (if c.is_window_capture ≠ 0 then c.target else c.root)
      (if c.is_window_capture ≠ 0 then 0 else c.x)
      (if c.is_window_capture ≠ 0 then 0 else c.y) c.width c.height = none) :
    recorder_capture_frame (some c) xs init =
      ⟨none, none,
        some (if c.is_window_capture ≠ 0 then c.target else c.root,
          if c.is_window_capture ≠ 0 then 0 else c.x,
          if c.is_window_capture ≠ 0 then 0 else c.y), some c⟩ := by
  unfold recorder_capture_frame
  simp only [hcap, if_false, hgrab]

theorem capture_frame_idle (c : RecorderContext) (xs : XServer) (init : Nat → Nat)
    (hcap : c.is_capturing = 0) :
    recorder_capture_frame (some c) xs init = ⟨none, none, none, some c⟩ := by
  unfold recorder_capture_frame
  simp only [hcap, if_true]

theorem capture_frame_nat (root target : Nat) (x y : Int) (W H : Nat) (cap win : Int)
    (xs : XServer) (init : Nat → Nat) (img : Nat → Nat → Nat) (hcap : cap ≠ 0)
    (hrow : (W : Int) * 3 ≤ INT_MAX) (hmax : (W : Int) * (H : Int) * 3 ≤ INT_MAX)
    (hgrab : xs.get_image (if win ≠ 0 then target else root) (if win ≠ 0 then 0 else x)
      (if win ≠ 0 then 0 else y) (W : Int) (H : Int) = some img)
    (hmalloc : xs.malloc (W * H * 3) = true) :
    (recorder_capture_frame
        (some ⟨root, target, x, y, (W : Int), (H : Int), cap, win⟩) xs init).frame =
      some ((List.range (W * H * 3)).map (rgb_byte W img)) ∧
    (recorder_capture_frame
        (some ⟨root, target, x, y, (W : Int), (H : Int), cap, win⟩) xs init).linesize =
      some ((W : Int) * 3) := by
  have hmax2 : W * H * 3 ≤ 2147483647 := by
    unfold INT_MAX at hmax
    exact_mod_cast hmax
  have hrow2 : W * 3 ≤ 2147483647 := by
    unfold INT_MAX at hrow
    exact_mod_cast hrow
  have e1 : wrapInt32 ((W : Int) * (H : Int)) = ((W * H : Nat) : Int) := by
    rw [← Nat.cast_mul]
    exact wrapInt32_nat _ (by omega)
  have e2 : wrapInt32 (((W * H : Nat) : Int) * 3) = ((W * H * 3 : Nat) : Int) := by
    have : ((W * H : Nat) : Int) * 3 = ((W * H * 3 : Nat) : Int) := by push_cast; ring
    rw [this]
    exact wrapInt32_nat _ hmax2
  have e3 : ∀ n : Nat, n ≤ 2147483647 →
      (((n : Nat) : Int) % 18446744073709551616).toNat = n := by
    intro n hn
    omega
  have e4 : wrapInt32 ((W : Int) * 3) = (W : Int) * 3 := by
    have : (W : Int) * 3 = ((W * 3 : Nat) : Int) := by push_cast; ring
    rw [this]
    exact wrapInt32_nat _ hrow2
  have hbytes : (wrapInt32 (wrapInt32 ((W : Int) * (H : Int)) * 3) %
      18446744073709551616).toNat = W * H * 3 := by
    rw [e1, e2]
    exact e3 _ hmax2
  have hm2 : xs.malloc (wrapInt32 (wrapInt32 ((W : Int) * (H : Int)) * 3) %
      18446744073709551616).toNat = true := by
    rw [hbytes]
    exact hmalloc
  rw [capture_frame_some ⟨root, target, x, y, (W : Int), (H : Int), cap, win⟩ xs init img hcap
    hgrab hm2]
  show some (convert_rows (W : Int) (H : Int) img
      ((List.range (wrapInt32 (wrapInt32 ((W : Int) * (H : Int)) * 3) %
        18446744073709551616).toNat).map init)) = _ ∧ some (wrapInt32 ((W : Int) * 3)) = _
  rw [hbytes, e4, convert_rows_eq W H img init hmax]
  exact ⟨rfl, rfl⟩

theorem store_pixel_length (width : Int) (pixel : Nat) (buffer : List Nat) (i j : Nat) :
    (store_pixel width pixel buffer i j).length = buffer.length := by
  unfold store_pixel
  simp only []
  split_ifs <;> simp

theorem foldl_length_invariant {α : Type} (f : List Nat → α → List Nat)
    (hf : ∀ b a, (f b a).length = b.length) (l : List α) :
    ∀ b : List Nat, (l.foldl f b).length = b.length := by
  induction l with
  | nil => intro b; rfl
  | cons a l ih =>
    intro b
    rw [List.foldl_cons, ih, hf]

theorem convert_rows_length (width height : Int) (img : Nat → Nat → Nat) (buffer : List Nat) :
    (convert_rows width height img buffer).length = buffer.length := by
  unfold convert_rows
  apply foldl_length_invariant
  intro b j
  apply foldl_length_invariant
  intro b2 i
  exact store_pixel_length _ _ _ _ _

/-- Whatever buffer `recorder_capture_frame` returns has as many bytes as were requested
from `malloc`: the `int` product of line 136 converted to `size_t`. -/
theorem capture_frame_length (c : RecorderContext) (xs : XServer) (init : Nat → Nat)
    (buf : List Nat) (h : (recorder_capture_frame (some c) xs init).frame = some buf) :
    buf.length =
      (wrapInt32 (wrapInt32 (c.width * c.height) * 3) % 18446744073709551616).toNat := by
  by_cases hcap : c.is_capturing = 0
  · rw [capture_frame_idle c xs init hcap] at h
    simp at h
  · cases hg : xs.get_image (if c.is_window_capture ≠ 0 then c.target else c.root)
        (if c.is_window_capture ≠ 0 then 0 else c.x)
        (if c.is_window_capture ≠ 0 then 0 else c.y) c.width c.height with
    | none =>
      rw [capture_frame_grab_fail c xs init hcap hg] at h
      simp at h
    | some img =>
      cases hm : xs.malloc
          (wrapInt32 (wrapInt32 (c.width * c.height) * 3) % 18446744073709551616).toNat with
      | false =>
        rw [capture_frame_malloc_fail c xs init img hcap hg hm] at h
        simp at h
      | true =>
        rw [capture_frame_some c xs init img hcap hg hm] at h
        simp only [Option.some.injEq] at h
        rw [← h, convert_rows_length, List.length_map, List.length_range]

/-- C10 (amended): for every capturing context with width `w >= 0` and height `h >= 0` such
that `w*3` and `w*h*3` fit an `int`, whose grab and whose buffer allocation succeed,
`recorder_capture_frame` returns a buffer of exactly `w*h*3` bytes and reports row stride
`w*3`; for every `0 <= i < w`, `0 <= j < h` the bytes at offsets `(j*w+i)*3`, `+1`, `+2` are
bits 16-23, 8-15 and 0-7 of the native pixel at `(i, j)`; these offsets lie inside the
buffer, and every byte of the buffer is at exactly one such offset. -/
theorem capture_frame_layout (c : RecorderContext) (xs : XServer) (init : Nat → Nat)
    (img : Nat → Nat → Nat) (hcap : c.is_capturing ≠ 0) (hw : 0 ≤ c.width)
    (hh : 0 ≤ c.height) (hrow : c.width * 3 ≤ INT_MAX)
    (hmax : c.width * c.height * 3 ≤ INT_MAX)
    (hgrab : xs.get_image (if c.is_window_capture ≠ 0 then c.target else c.root)
      (if c.is_window_capture ≠ 0 then 0 else c.x)
      (if c.is_window_capture ≠ 0 then 0 else c.y) c.width c.height = some img)
    (hmalloc : xs.malloc (c.width * c.height * 3).toNat = true) :
    ∃ buf : List Nat,
      (recorder_capture_frame (some c) xs init).frame = some buf ∧
      (buf.length : Int) = c.width * c.height * 3 ∧
      (recorder_capture_frame (some c) xs init).linesize = some (c.width * 3) ∧
      (∀ i j : Nat, (i : Int) < c.width → (j : Int) < c.height →
        (j * c.width.toNat + i) * 3 + 2 < buf.length ∧
        buf[(j * c.width.toNat + i) * 3]? = some (img i j / 65536 % 256) ∧
        buf[(j * c.width.toNat + i) * 3 + 1]? = some (img i j / 256 % 256) ∧
        buf[(j * c.width.toNat + i) * 3 + 2]? = some (img i j % 256)) ∧
      (∀ k : Nat, k < buf.length →
        ∃! t : Nat × Nat × Nat, t.1 < c.width.toNat ∧ t.2.1 < c.height.toNat ∧ t.2.2 < 3 ∧
          (t.2.1 * c.width.toNat + t.1) * 3 + t.2.2 = k) := by
  obtain ⟨root, target, x, y, width, height, cap, win⟩ := c
  simp only at hcap hw hh hrow hmax hgrab hmalloc ⊢
  obtain ⟨W, rfl⟩ := Int.eq_ofNat_of_zero_le hw
  obtain ⟨H, rfl⟩ := Int.eq_ofNat_of_zero_le hh
  have hm : ((W : Int) * (H : Int) * 3).toNat = W * H * 3 := by
    have : (W : Int) * (H : Int) * 3 = ((W * H * 3 : Nat) : Int) := by push_cast; ring
    rw [this, Int.toNat_ofNat]
  rw [hm] at hmalloc
  obtain ⟨hf, hl⟩ := capture_frame_nat root target x y W H cap win xs init img hcap hrow hmax
    hgrab hmalloc
  refine ⟨_, hf, ?_, hl, ?_, ?_⟩
  · simp only [List.length_map, List.length_range]
    push_cast
    ring
  · intro i j hi hj
    have hi2 : i < W := by exact_mod_cast hi
    have hj2 : j < H := by exact_mod_cast hj
    have hb := pixel_index_bound W H i j hi2 hj2
    obtain ⟨r0, r1, r2⟩ := rgb_byte_at W img i j hi2
    simp only [Int.toNat_ofNat, List.length_map, List.length_range, List.getElem?_map]
    refine ⟨by omega, ?_, ?_, ?_⟩
    · rw [List.getElem?_range (by omega), Option.map_some', r0]
    · rw [List.getElem?_range (by omega), Option.map_some', r1]
    · rw [List.getElem?_range (by omega), Option.map_some', r2]
  · intro k hk
    simp only [List.length_map, List.length_range] at hk
    simp only [Int.toNat_ofNat]
    exact packed_offsets_cover W H k hk

/-- C10 (witness): a 3x2 full-desktop grab on the sample X server. -/
theorem capture_frame_layout_witness :
    ∃ buf : List Nat,
      (recorder_capture_frame (some tiny_ctx) sample_xserver (fun _ => 0)).frame = some buf ∧
      (buf.length : Int) = tiny_ctx.width * tiny_ctx.height * 3 ∧
      (recorder_capture_frame (some tiny_ctx) sample_xserver (fun _ => 0)).linesize =
        some (tiny_ctx.width * 3) ∧
      (∀ i j : Nat, (i : Int) < tiny_ctx.width → (j : Int) < tiny_ctx.height →
        (j * tiny_ctx.width.toNat + i) * 3 + 2 < buf.length ∧
        buf[(j * tiny_ctx.width.toNat + i) * 3]? =
          some ((65536 * (i + 1) + 256 * (j + 1) + 7) / 65536 % 256) ∧
        buf[(j * tiny_ctx.width.toNat + i) * 3 + 1]? =
          some ((65536 * (i + 1) + 256 * (j + 1) + 7) / 256 % 256) ∧
        buf[(j * tiny_ctx.width.toNat + i) * 3 + 2]? =
          some ((65536 * (i + 1) + 256 * (j + 1) + 7) % 256)) ∧
      (∀ k : Nat, k < buf.length →
        ∃! t : Nat × Nat × Nat, t.1 < tiny_ctx.width.toNat ∧ t.2.1 < tiny_ctx.height.toNat ∧
          t.2.2 < 3 ∧ (t.2.1 * tiny_ctx.width.toNat + t.1) * 3 + t.2.2 = k) :=
  capture_frame_layout tiny_ctx sample_xserver (fun _ => 0)
    (fun i j => 65536 * (i + 1) + 256 * (j + 1) + 7) (by decide) (by decide) (by decide)
    (by decide) (by decide) rfl rfl

/-- C10 (counterexample): with the grab succeeding, a 3x2 capture on a server without
memory returns no buffer at all; and a 32768x32768 capture cannot return a buffer of
`w*h*3 = 3221225472` bytes, because that product does not fit the `int` it is computed in. -/
theorem capture_frame_no_buffer :
    (tiny_ctx.is_capturing = 1 ∧ 0 ≤ tiny_ctx.width ∧ 0 ≤ tiny_ctx.height ∧
      (no_memory_xserver.get_image tiny_ctx.root tiny_ctx.x tiny_ctx.y tiny_ctx.width
        tiny_ctx.height).isSome = true ∧
      (recorder_capture_frame (some tiny_ctx) no_memory_xserver (fun _ => 0)).frame = none) ∧
    (huge_ctx.is_capturing = 1 ∧ 0 ≤ huge_ctx.width ∧ 0 ≤ huge_ctx.height ∧
      (sample_xserver.get_image huge_ctx.root huge_ctx.x huge_ctx.y huge_ctx.width
        huge_ctx.height).isSome = true ∧
      ∀ (init : Nat → Nat) (buf : List Nat),
        (recorder_capture_frame (some huge_ctx) sample_xserver init).frame = some buf →
        (buf.length : Int) ≠ huge_ctx.width * huge_ctx.height * 3) := by
  refine ⟨⟨rfl, by decide, by decide, rfl, by decide⟩, rfl, by decide, by decide, rfl, ?_⟩
  intro init buf h
  have hl := capture_frame_length huge_ctx sample_xserver init buf h
  have hv : (wrapInt32 (wrapInt32 (huge_ctx.width * huge_ctx.height) * 3) %
      18446744073709551616).toNat = 18446744072635809792 := by decide
  rw [hl, hv]
  decide

/-- C11: `recorder_capture_frame` returns `NULL` without attempting a grab when the context
is absent or its `is_capturing` flag is 0, and returns `NULL` when the grab fails; whenever
it returns `NULL` the context is left as it was; and it returns a frame only when capturing
is on and the grab succeeded. -/
theorem capture_no_frame (xs : XServer) (init : Nat → Nat) :
    ((recorder_capture_frame none xs init).frame = none ∧
      (recorder_capture_frame none xs init).grab = none) ∧
    (∀ c : RecorderContext, c.is_capturing = 0 →
      (recorder_capture_frame (some c) xs init).frame = none ∧
      (recorder_capture_frame (some c) xs init).grab = none) ∧
    (∀ c : RecorderContext, c.is_capturing ≠ 0 →
      xs.get_image (if c.is_window_capture ≠ 0 then c.target else c.root)
        (if c.is_window_capture ≠ 0 then 0 else c.x)
        (if c.is_window_capture ≠ 0 then 0 else c.y) c.width c.height = none →
      (recorder_capture_frame (some c) xs init).frame = none) ∧
    (∀ ctx : Option RecorderContext, (recorder_capture_frame ctx xs init).ctx = ctx) ∧
    (∀ (ctx : Option RecorderContext) (buf : List Nat),
      (recorder_capture_frame ctx xs init).frame = some buf →
      ∃ c : RecorderContext, ctx = some c ∧ c.is_capturing ≠ 0 ∧
        (xs.get_image (if c.is_window_capture ≠ 0 then c.target else c.root)
          (if c.is_window_capture ≠ 0 then 0 else c.x)
          (if c.is_window_capture ≠ 0 then 0 else c.y) c.width c.height).isSome = true) := by
  refine ⟨⟨rfl, rfl⟩, ?_, ?_, ?_, ?_⟩
  · intro c hc
    rw [capture_frame_idle c xs init hc]
    exact ⟨rfl, rfl⟩
  · intro c hc hg
    rw [capture_frame_grab_fail c xs init hc hg]
  · intro ctx
    cases ctx with
    | none => rfl
    | some c =>
      by_cases hcap : c.is_capturing = 0
      · rw [capture_frame_idle c xs init hcap]
      · cases hg : xs.get_image (if c.is_window_capture ≠ 0 then c.target else c.root)
            (if c.is_window_capture ≠ 0 then 0 else c.x)
            (if c.is_window_capture ≠ 0 then 0 else c.y) c.width c.height with
        | none => rw [capture_frame_grab_fail c xs init hcap hg]
        | some img =>
          cases hm : xs.malloc
              (wrapInt32 (wrapInt32 (c.width * c.height) * 3) % 18446744073709551616).toNat with
          | false => rw [capture_frame_malloc_fail c xs init img hcap hg hm]
          | true => rw [capture_frame_some c xs init img hcap hg hm]
  · intro ctx buf h
    cases ctx with
    | none => simp [recorder_capture_frame] at h
    | some c =>
      refine ⟨c, rfl, ?_⟩
      by_cases hcap : c.is_capturing = 0
      · rw [capture_frame_idle c xs init hcap] at h
        simp at h
      · refine ⟨hcap, ?_⟩
        cases hg : xs.get_image (if c.is_window_capture ≠ 0 then c.target else c.root)
            (if c.is_window_capture ≠ 0 then 0 else c.x)
            (if c.is_window_capture ≠ 0 then 0 else c.y) c.width c.height with
        | none =>
          rw [capture_frame_grab_fail c xs init hcap hg] at h
          simp at h
        | some img => rfl

/-- C11 (witness): a stopped context on the sample X server yields no frame and no grab. -/
theorem capture_no_frame_witness :
    (recorder_capture_frame (some { tiny_ctx with is_capturing := 0 }) sample_xserver
        (fun _ => 0)).frame = none ∧
    (recorder_capture_frame (some { tiny_ctx with is_capturing := 0 }) sample_xserver
        (fun _ => 0)).grab = none :=
  (capture_no_frame sample_xserver (fun _ => 0)).2.1 { tiny_ctx with is_capturing := 0 } rfl

/-- C12: `recorder_update_window_geometry` returns -1 and leaves the context as it was when
the context is absent, not in window-capture mode, or the window attributes cannot be
queried; otherwise it returns 0, stores the reported x, y, width and height and changes no
other field. -/
theorem update_window_geometry_spec (xs : XServer) :
    (recorder_update_window_geometry none xs = (-1, none)) ∧
    (∀ c : RecorderContext, c.is_window_capture = 0 →
      recorder_update_window_geometry (some c) xs = (-1, some c)) ∧
    (∀ c : RecorderContext, xs.window_attributes c.target = none →
      recorder_update_window_geometry (some c) xs = (-1, some c)) ∧
    (∀ (c : RecorderContext) (x y w h : Int), c.is_window_capture ≠ 0 →
      xs.window_attributes c.target = some (x, y, w, h) →
      recorder_update_window_geometry (some c) xs =
        (0, some { root := c.root, target := c.target, x := x, y := y, width := w,
                   height := h, is_capturing := c.is_capturing,
                   is_window_capture := c.is_window_capture })) ∧
    (∀ (ctx : Option RecorderContext),
      (recorder_update_window_geometry ctx xs).1 = 0 ∨
      ((recorder_update_window_geometry ctx xs).1 = -1 ∧
        (recorder_update_window_geometry ctx xs).2 = ctx)) := by
  refine ⟨rfl, ?_, ?_, ?_, ?_⟩
  · intro c hc
    simp [recorder_update_window_geometry, hc]
  · intro c hc
    simp only [recorder_update_window_geometry, hc]
    split_ifs <;> rfl
  · intro c x y w h hc ha
    simp [recorder_update_window_geometry, hc, ha]
  · intro ctx
    cases ctx with
    | none => right; exact ⟨rfl, rfl⟩
    | some c =>
      by_cases hc : c.is_window_capture = 0
      · right
        simp [recorder_update_window_geometry, hc]
      · cases ha : xs.window_attributes c.target with
        | none =>
          right
          simp [recorder_update_window_geometry, hc, ha]
        | some a =>
          obtain ⟨x, y, w, h⟩ := a
          left
          simp [recorder_update_window_geometry, hc, ha]

/-- C12 (witness): a full-desktop context is refused and left alone. -/
theorem update_window_geometry_spec_witness :
    recorder_update_window_geometry (some tiny_ctx) sample_xserver = (-1, some tiny_ctx) :=
  (update_window_geometry_spec sample_xserver).2.1 tiny_ctx rfl

/-- C13: a capturing context grabs from the target window at origin (0, 0) in window-capture
mode, whatever the stored x and y, and from the root window at the stored offset (x, y)
otherwise. -/
theorem capture_origin (c : RecorderContext) (xs : XServer) (init : Nat → Nat)
    (hcap : c.is_capturing ≠ 0) :
    (c.is_window_capture ≠ 0 →
      (recorder_capture_frame (some c) xs init).grab = some (c.target, 0, 0)) ∧
    (c.is_window_capture = 0 →
      (recorder_capture_frame (some c) xs init).grab = some (c.root, c.x, c.y)) := by
  have key : (recorder_capture_frame (some c) xs init).grab =
      some (if c.is_window_capture ≠ 0 then c.target else c.root,
        if c.is_window_capture ≠ 0 then 0 else c.x,
        if c.is_window_capture ≠ 0 then 0 else c.y) := by
    cases hg : xs.get_image (if c.is_window_capture ≠ 0 then c.target else c.root)
        (if c.is_window_capture ≠ 0 then 0 else c.x)
        (if c.is_window_capture ≠ 0 then 0 else c.y) c.width c.height with
    | none => rw [capture_frame_grab_fail c xs init hcap hg]
    | some img =>
      cases hm : xs.malloc
          (wrapInt32 (wrapInt32 (c.width * c.height) * 3) % 18446744073709551616).toNat with
      | false => rw [capture_frame_malloc_fail c xs init img hcap hg hm]
      | true => rw [capture_frame_some c xs init img hcap hg hm]
  constructor
  · intro hw
    rw [key]
    simp [hw]
  · intro hw
    rw [key]
    simp [hw]

/-- C13 (witness): the 3x2 desktop context grabs the root window at its offset (5, 7). -/
theorem capture_origin_witness :
    tiny_ctx.is_capturing ≠ 0 ∧ tiny_ctx.is_window_capture = 0 ∧
    (recorder_capture_frame (some tiny_ctx) sample_xserver (fun _ => 0)).grab =
      some (tiny_ctx.root, 5, 7) :=
  ⟨by decide, by decide,
    (capture_origin tiny_ctx sample_xserver (fun _ => 0) (by decide)).2 (by decide)⟩

/-- C14 (amended): for every armed context whose capture-enabled flag is off,
`audio_capture` makes no device call at all (it does not read or drain the device), reports
0 usable frames and leaves the context as it was; and the flag `audio_set_capture` stores
decides the very next `audio_capture` call: 0 gives that behaviour, any other value a read of
`buffer_size / (channels * 2)` frames. -/
theorem disabled_capture_skips (c : AudioContext) (buffer_size : Int) (dev : CaptureLib)
    (harm : c.is_recording ≠ 0) :
    (c.capture_audio = 0 → audio_capture (some c) buffer_size dev = ⟨0, some c, []⟩) ∧
    (audio_capture (audio_set_capture (some c) 0).ctx buffer_size dev =
      ⟨0, some { c with capture_audio := 0 }, []⟩) ∧
    (∀ enabled : Int, enabled ≠ 0 →
      (audio_capture (audio_set_capture (some c) enabled).ctx buffer_size dev).calls.head? =
        some (PcmCall.readi (Int.tdiv buffer_size (wrapInt32 (c.channels * 2))))) := by
  refine ⟨?_, ?_, ?_⟩
  · intro hoff
    simp [audio_capture, harm, hoff]
  · simp [audio_capture, audio_set_capture, harm]
  · intro enabled hen
    simp only [audio_capture, audio_set_capture, harm, hen, if_false]
    split_ifs <;> rfl

/-- C14 (witness): the armed sample context with the toggle off, 1024 frames pending. -/
theorem disabled_capture_skips_witness :
    audio_capture (audio_set_capture (some armed_audio) 0).ctx 4096 ready_device =
      ⟨0, some { armed_audio with capture_audio := 0 }, []⟩ :=
  (disabled_capture_skips armed_audio 4096 ready_device (by decide)).2.1

/-- C14 (counterexample): with the toggle off and 1024 frames pending on the device,
`audio_capture` returns 0 without any `snd_pcm_readi` call: nothing is drained. -/
theorem disabled_capture_no_drain :
    ({ armed_audio with capture_audio := 0 } : AudioContext).is_recording = 1 ∧
    (audio_capture (some { armed_audio with capture_audio := 0 }) 4096 ready_device).ret = 0 ∧
    (audio_capture (some { armed_audio with capture_audio := 0 }) 4096 ready_device).calls =
      [] := by
  decide

/-- C15 (amended): for every armed, enabled context, when the device read reports an
underrun or error, `audio_capture` makes exactly one `snd_pcm_recover` call after its single
read, never closes the device, leaves the context as it was, and returns what
`snd_pcm_recover` returned: 0 when the recovery succeeded (no chunk is read in this call) or
the negative error when it failed. -/
theorem underrun_recovery (c : AudioContext) (buffer_size : Int) (dev : CaptureLib)
    (harm : c.is_recording ≠ 0) (hen : c.capture_audio ≠ 0) (herr : dev.readi < 0) :
    (audio_capture (some c) buffer_size dev).calls =
      [PcmCall.readi (Int.tdiv buffer_size (wrapInt32 (c.channels * 2))),
        PcmCall.recover dev.readi] ∧
    PcmCall.close ∉ (audio_capture (some c) buffer_size dev).calls ∧
    (audio_capture (some c) buffer_size dev).ctx = some c ∧
    (audio_capture (some c) buffer_size dev).ret = dev.recover ∧
    (dev.recover = 0 → (audio_capture (some c) buffer_size dev).ret = 0) ∧
    (dev.recover < 0 → (audio_capture (some c) buffer_size dev).ret < 0) := by
  have h : audio_capture (some c) buffer_size dev =
      ⟨dev.recover, some c,
        [PcmCall.readi (Int.tdiv buffer_size (wrapInt32 (c.channels * 2))),
          PcmCall.recover dev.readi]⟩ := by
    simp [audio_capture, harm, hen, herr]
  rw [h]
  refine ⟨rfl, by simp, rfl, rfl, fun h0 => h0, fun h0 => h0⟩

/-- C15 (witness): an underrun whose recovery succeeds. -/
theorem underrun_recovery_witness :
    (audio_capture (some armed_audio) 4096 underrun_device).calls =
      [PcmCall.readi (Int.tdiv 4096 (wrapInt32 (armed_audio.channels * 2))),
        PcmCall.recover underrun_device.readi] :=
  (underrun_recovery armed_audio 4096 underrun_device (by decide) (by decide) (by decide)).1

/-- C15 (counterexample): after an underrun whose recovery succeeds the call returns 0, the
return value of `snd_pcm_recover`, and has read the device only once: no next chunk is
fetched, so no frame count of one is returned. -/
theorem underrun_returns_zero :
    (audio_capture (some armed_audio) 4096 underrun_device).ret = 0 ∧
    (audio_capture (some armed_audio) 4096 underrun_device).calls =
      [PcmCall.readi 1024, PcmCall.recover (-32)] := by
  decide

/-- C24: `audio_set_capture` changes only the capture-enabled flag, `audio_start` and
`audio_stop` change only the armed flag; none of them makes a device call (so none reopens
the device); and from the state `audio_init` returns all four (armed, enabled) combinations
are reached by them. -/
theorem audio_flags_independent (c : AudioContext) :
    (∀ enabled : Int, audio_set_capture (some c) enabled =
      ⟨0, some { pcm_handle := c.pcm_handle, is_recording := c.is_recording,
                 sample_rate := c.sample_rate, channels := c.channels,
                 capture_audio := enabled }, []⟩) ∧
    (audio_start (some c) =
      ⟨0, some { pcm_handle := c.pcm_handle, is_recording := 1,
                 sample_rate := c.sample_rate, channels := c.channels,
                 capture_audio := c.capture_audio }, []⟩) ∧
    (audio_stop (some c) =
      ⟨0, some { pcm_handle := c.pcm_handle, is_recording := 0,
                 sample_rate := c.sample_rate, channels := c.channels,
                 capture_audio := c.capture_audio }, []⟩) ∧
    (∀ (lib : AudioInitLib) (a : AudioContext), (audio_init lib).1 = some a →
      (a.is_recording = 0 ∧ a.capture_audio = 1) ∧
      (∃ b, (audio_set_capture (some a) 0).ctx = some b ∧
        b.is_recording = 0 ∧ b.capture_audio = 0) ∧
      (∃ b, (audio_start (some a)).ctx = some b ∧
        b.is_recording = 1 ∧ b.capture_audio = 1) ∧
      (∃ b, (audio_set_capture (audio_start (some a)).ctx 0).ctx = some b ∧
        b.is_recording = 1 ∧ b.capture_audio = 0)) := by
  refine ⟨fun _ => rfl, rfl, rfl, ?_⟩
  intro lib a ha
  unfold audio_init at ha
  split_ifs at ha
  simp at ha
  subst ha
  exact ⟨⟨rfl, rfl⟩, ⟨_, rfl, rfl, rfl⟩, ⟨_, rfl, rfl, rfl⟩, ⟨_, rfl, rfl, rfl⟩⟩

/-- C24 (witness): the context returned by a successful `audio_init`. -/
theorem audio_flags_independent_witness :
    ∃ b, (audio_set_capture (audio_start (some
        { pcm_handle := 7, is_recording := 0, sample_rate := 44100, channels := 2,
          capture_audio := 1 })).ctx 0).ctx = some b ∧
      b.is_recording = 1 ∧ b.capture_audio = 0 :=
  ((audio_flags_independent armed_audio).2.2.2 ⟨true, 0, 7, 0⟩
    { pcm_handle := 7, is_recording := 0, sample_rate := 44100, channels := 2,
      capture_audio := 1 } rfl).2.2.2

/-- C16 (amended): `encoder_encode_video_frame` called with a null buffer changes nothing -
`frame_index`, `audio_pts` and every other field of the session stay as they were and no
frame is stamped or written - but it reports an error: it returns -1. -/
theorem null_buffer_rejected (c : EncoderContext) (lib : VideoLib) :
    encoder_encode_video_frame (some c) none lib = ⟨-1, some c, none, 0, false, none⟩ := rfl

/-- C16 (counterexample): a null buffer on a fresh session returns -1, not a success value
(libav success values are 0 or positive). -/
theorem null_buffer_returns_error :
    (encoder_encode_video_frame (some fresh_session) none sample_video_lib).ret = -1 ∧
    ¬ (0 ≤ (encoder_encode_video_frame (some fresh_session) none sample_video_lib).ret) := by
  decide

theorem in_samples_eq (size ch : Int) (h0 : 0 ≤ size) (h1 : size ≤ INT_MAX) (hc : 1 ≤ ch)
    (hc2 : ch ≤ INT_MAX) : in_samples size ch = size / (2 * ch) := by
  unfold INT_MAX at *
  unfold in_samples
  have e1 : size % 18446744073709551616 = size := Int.emod_eq_of_lt h0 (by omega)
  have e2 : (ch * 2) % 18446744073709551616 = 2 * ch :=
    by rw [Int.emod_eq_of_lt (by omega) (by omega)]; ring
  rw [e1, e2]
  have hq0 : 0 ≤ size / (2 * ch) := Int.ediv_nonneg h0 (by omega)
  have hq1 : size / (2 * ch) ≤ size := Int.ediv_le_self _ h0
  exact wrapInt32_of_range _ (by unfold INT_MIN; omega) (by unfold INT_MAX; omega)

/-- C17: for an audio submission of `size` bytes (an `int`, not negative) on a session with
`c >= 1` channels, the input sample count is `size / (2*c)` by integer division and the
frame window is that count for PCM and the codec's `frame_size` for the other codecs; these
two numbers are what a call that gets as far as `swr_convert` passes to it. -/
theorem audio_frame_window (c : EncoderContext) (a : AudioCodecContext)
    (data : List Nat) (size : Int) (lib : AudioLib) (ha : c.audio_enc_ctx = some a)
    (h0 : 0 ≤ size) (h1 : size ≤ INT_MAX) (hc : 1 ≤ a.nb_channels)
    (hc2 : a.nb_channels ≤ INT_MAX) :
    in_samples size a.nb_channels = size / (2 * a.nb_channels) ∧
    (a.codec_id = CodecID.AV_CODEC_ID_PCM_S16LE →
      frame_window a size = size / (2 * a.nb_channels)) ∧
    (a.codec_id ≠ CodecID.AV_CODEC_ID_PCM_S16LE → frame_window a size = a.frame_size) ∧
    (lib.frame_alloc = true → 0 ≤ lib.layout_copy → 0 ≤ lib.get_buffer →
      (encoder_encode_audio_frame (some c) (some data) size lib).swr_request =
        some (frame_window a size, size / (2 * a.nb_channels))) := by
  have hin := in_samples_eq size a.nb_channels h0 h1 hc hc2
  refine ⟨hin, ?_, ?_, ?_⟩
  · intro hp
    simp [frame_window, hp, hin]
  · intro hp
    simp [frame_window, hp]
  · intro hf hl hg
    have hl' : ¬ lib.layout_copy < 0 := by omega
    have hg' : ¬ lib.get_buffer < 0 := by omega
    simp only [encoder_encode_audio_frame, hf, hl', hg', ha, hin, Bool.not_true,
      Bool.false_eq_true, if_false, Option.map_some']
    split_ifs <;> rfl

/-- C17 (witness): 4096 bytes of stereo PCM are 1024 input samples. -/
theorem audio_frame_window_witness :
    in_samples 4096 pcm_stereo.nb_channels = 4096 / (2 * pcm_stereo.nb_channels) ∧
    (4096 : Int) / (2 * pcm_stereo.nb_channels) = 1024 :=
  ⟨(audio_frame_window { fresh_session with audio_enc_ctx := some pcm_stereo } pcm_stereo []
      4096 (audio_ok 1024).2.2 rfl (by decide) (by decide) (by decide) (by decide)).1,
    by decide⟩

/-- C18 (the code at the failing input): when the audio encoder is not found,
`encoder_init` returns `NULL` after `free(ctx)` only: the container context, the video codec
context and the scaler it had opened are still open, although `encoder_cleanup` on the same
session would release exactly these. -/
theorem init_failure_leaks :
    (encoder_init Quality.QUALITY_MEDIUM 1280 720 30 44100 2 AudioCodec.AUDIO_CODEC_AAC 64000
      no_audio_codec_lib).ctx = none ∧
    ((encoder_init Quality.QUALITY_MEDIUM 1280 720 30 44100 2 AudioCodec.AUDIO_CODEC_AAC 64000
      no_audio_codec_lib).abandoned.map open_resources) =
        some [Resource.scaler, Resource.video_codec, Resource.container] ∧
    ((encoder_init Quality.QUALITY_MEDIUM 1280 720 30 44100 2 AudioCodec.AUDIO_CODEC_AAC 64000
      no_audio_codec_lib).abandoned.map (fun c => encoder_cleanup (some c))) =
        some [Resource.scaler, Resource.video_codec, Resource.output_file,
          Resource.container] := by
  decide

/-- C20 (amended): `encoder_finalize` leaves every field of the session as it was, so a
later `encoder_encode_video_frame` or `encoder_encode_audio_frame` is not rejected: it does
exactly what the same call would have done before the trailer was written. -/
theorem finalize_keeps_session (c : EncoderContext) (trailer : Int) :
    (encoder_finalize (some c) trailer).2 = some c ∧
    (encoder_finalize (some c) trailer).1 = trailer ∧
    (∀ (data : Option (List Nat)) (lib : VideoLib),
      encoder_encode_video_frame (encoder_finalize (some c) trailer).2 data lib =
        encoder_encode_video_frame (some c) data lib) ∧
    (∀ (data : Option (List Nat)) (size : Int) (lib : AudioLib),
      encoder_encode_audio_frame (encoder_finalize (some c) trailer).2 data size lib =
        encoder_encode_audio_frame (some c) data size lib) :=
  ⟨rfl, rfl, fun _ _ => rfl, fun _ _ _ => rfl⟩

/-- C20 (counterexample): on a finalized fresh session a video submission returns 0, stamps
pts 0 and advances `frame_index` to 1, and an audio submission returns 0 and advances
`audio_pts` by its 1024 converted samples. -/
theorem encode_after_finalize :
    (encoder_encode_video_frame (encoder_finalize (some fresh_session) 0).2 (some [])
      sample_video_lib).ret = 0 ∧
    (encoder_encode_video_frame (encoder_finalize (some fresh_session) 0).2 (some [])
      sample_video_lib).pts = some 0 ∧
    ((encoder_encode_video_frame (encoder_finalize (some fresh_session) 0).2 (some [])
      sample_video_lib).ctx.map EncoderContext.frame_index) = some 1 ∧
    (encoder_encode_audio_frame (encoder_finalize (some fresh_session) 0).2 (some []) 4096
      (audio_ok 1024).2.2).ret = 0 ∧
    ((encoder_encode_audio_frame (encoder_finalize (some fresh_session) 0).2 (some []) 4096
      (audio_ok 1024).2.2).ctx.map EncoderContext.audio_pts) = some 1024 := by
  decide

/-- C27 (amended): a video submission whose frame buffers are set up advances `frame_index`
by exactly 1 as long as it is below `INT_MAX`, whatever the encoder and the container write
report afterwards; a submission that returns before the scaling step (null session or
buffer, allocation or fill failure) leaves the session unchanged; so below `INT_MAX` the
counter never decreases. -/
theorem frame_index_step (c : EncoderContext) (lib : VideoLib) :
    (∀ data : List Nat, lib.frame_alloc = true → 0 ≤ lib.get_buffer → lib.rgb_alloc = true →
      0 ≤ lib.fill_arrays → INT_MIN ≤ c.frame_index → c.frame_index < INT_MAX →
      (encoder_encode_video_frame (some c) (some data) lib).ctx =
        some { c with frame_index := c.frame_index + 1 }) ∧
    (encoder_encode_video_frame (some c) none lib).ctx = some c ∧
    (encoder_encode_video_frame none none lib).ctx = none ∧
    (∀ data : List Nat,
      (lib.frame_alloc = false ∨ lib.get_buffer < 0 ∨ lib.rgb_alloc = false ∨
        lib.fill_arrays < 0) →
      (encoder_encode_video_frame (some c) (some data) lib).ctx = some c) ∧
    (∀ (data : Option (List Nat)) (c2 : EncoderContext), INT_MIN ≤ c.frame_index →
      c.frame_index < INT_MAX →
      (encoder_encode_video_frame (some c) data lib).ctx = some c2 →
      c.frame_index ≤ c2.frame_index ∧ c2.frame_index ≤ c.frame_index + 1) := by
  have hstep := video_step c
  refine ⟨?_, rfl, rfl, ?_, ?_⟩
  · intro data h1 h2 h3 h4 h5 h6
    have hw : wrapInt32 (c.frame_index + 1) = c.frame_index + 1 :=
      wrapInt32_of_range _ (by omega) (by unfold INT_MAX at *; omega)
    have h2' : ¬ lib.get_buffer < 0 := by omega
    have h4' : ¬ lib.fill_arrays < 0 := by omega
    simp only [encoder_encode_video_frame, h1, h2', h3, h4', hw, Bool.not_true,
      Bool.false_eq_true, if_false]
    split_ifs <;> rfl
  · intro data h
    rcases h with h | h | h | h
    · simp [encoder_encode_video_frame, h]
    · simp only [encoder_encode_video_frame, h, if_true]
      split_ifs <;> rfl
    · simp only [encoder_encode_video_frame, h, Bool.not_false, if_true]
      split_ifs <;> rfl
    · simp only [encoder_encode_video_frame, h, if_true]
      split_ifs <;> rfl
  · intro data c2 h5 h6 hc
    have hw : wrapInt32 (c.frame_index + 1) = c.frame_index + 1 :=
      wrapInt32_of_range _ (by omega) (by unfold INT_MAX at *; omega)
    rcases hstep data lib with ⟨_, h2⟩ | ⟨_, h2⟩
    · rw [h2] at hc
      simp only [Option.some.injEq] at hc
      subst hc
      omega
    · rw [h2, hw] at hc
      simp only [Option.some.injEq] at hc
      subst hc
      simp only
      omega

/-- C27 (witness): the first submission on a fresh session moves the counter from 0 to 1. -/
theorem frame_index_step_witness :
    (encoder_encode_video_frame (some fresh_session) (some []) sample_video_lib).ctx =
      some { fresh_session with frame_index := fresh_session.frame_index + 1 } :=
  (frame_index_step fresh_session sample_video_lib).1 [] rfl (by decide) rfl (by decide)
    (by decide) (by decide)

/-- C27 (counterexample): on a session whose counter is `INT_MAX` a successful submission
leaves `frame_index` at `INT_MIN`: it has not advanced by 1 and it has decreased. -/
theorem frame_index_wraps :
    last_index_session.frame_index = 2147483647 ∧
    ((encoder_encode_video_frame (some last_index_session) (some [])
      sample_video_lib).ctx.map EncoderContext.frame_index) = some (-2147483648) := by
  decide

theorem setup_video_stream_quality (c : EncoderContext) (q : Quality) (w h f : Int)
    (lib : VideoSetupLib) :
    setup_video_stream { c with quality := q } w h f lib =
      ((setup_video_stream c w h f lib).1,
        { (setup_video_stream c w h f lib).2 with quality := q }) := by
  unfold setup_video_stream
  cases lib.new_stream <;> simp only [] <;> (try split_ifs) <;> rfl

theorem setup_audio_stream_quality (c : EncoderContext) (q : Quality) (r ch : Int)
    (ac : AudioCodec) (br : Int) (lib : AudioSetupLib) :
    (setup_audio_stream { c with quality := q } r ch ac br lib).ret =
      (setup_audio_stream c r ch ac br lib).ret ∧
    (setup_audio_stream { c with quality := q } r ch ac br lib).open_arg =
      (setup_audio_stream c r ch ac br lib).open_arg ∧
    (setup_audio_stream { c with quality := q } r ch ac br lib).ctx =
      { (setup_audio_stream c r ch ac br lib).ctx with quality := q } := by
  unfold setup_audio_stream
  cases lib.find_encoder (audio_codec_id ac) <;> cases lib.new_stream <;> simp only [] <;>
    (try split_ifs) <;> simp

theorem setup_audio_stream_video (c : EncoderContext) (r ch : Int) (ac : AudioCodec) (br : Int)
    (lib : AudioSetupLib) :
    (setup_audio_stream c r ch ac br lib).ctx.video_enc_ctx = c.video_enc_ctx := by
  unfold setup_audio_stream
  cases lib.find_encoder (audio_codec_id ac) <;> cases lib.new_stream <;> simp only [] <;>
    (try split_ifs) <;> rfl

theorem setup_video_stream_params (c : EncoderContext) (w h f : Int) (lib : VideoSetupLib)
    (v : VideoCodecContext) (hc : c.video_enc_ctx = none)
    (hv : (setup_video_stream c w h f lib).2.video_enc_ctx = some v) :
    v.bit_rate = 400000 ∧ v.gop_size = 12 ∧ v.max_b_frames = 2 ∧ v.width = w ∧
      v.height = h := by
  unfold setup_video_stream at hv
  cases hn : lib.new_stream with
  | none =>
    simp only [hn] at hv
    split_ifs at hv <;> simp [hc] at hv
  | some idx =>
    simp only [hn] at hv
    split_ifs at hv <;> simp [hc] at hv <;> subst hv <;> simp [VIDEO_BIT_RATE]

/-- The session `encoder_init` starts from (encoder.c 153-173). -/
theorem encoder_init_quality (q1 q2 : Quality) (width height fps sample_rate channels : Int)
    (ac : AudioCodec) (br : Int) (lib : InitLib) :
    (encoder_init q1 width height fps sample_rate channels ac br lib).ctx.map
        (fun c => { c with quality := q2 }) =
      (encoder_init q2 width height fps sample_rate channels ac br lib).ctx ∧
    (encoder_init q1 width height fps sample_rate channels ac br lib).audio_open_arg =
      (encoder_init q2 width height fps sample_rate channels ac br lib).audio_open_arg := by
  have hv := setup_video_stream_quality
    { fmt_ctx := some ⟨if ac = AudioCodec.AUDIO_CODEC_PCM then some "mov".toList else none,
        snprintf 2048 (output_dir lib.home ++ session_filename ac lib.now), lib.nofile,
        lib.globalheader, none⟩,
      video_enc_ctx := none, video_stream := none, audio_enc_ctx := none,
      audio_stream := none, sws_ctx := none, swr_ctx := none, frame_index := 0,
      audio_pts := 0, quality := q1, filename := session_filename ac lib.now }
    q2 width height fps lib.video
  simp only [] at hv
  have ha := setup_audio_stream_quality
    (setup_video_stream
      { fmt_ctx := some ⟨if ac = AudioCodec.AUDIO_CODEC_PCM then some "mov".toList else none,
          snprintf 2048 (output_dir lib.home ++ session_filename ac lib.now), lib.nofile,
          lib.globalheader, none⟩,
        video_enc_ctx := none, video_stream := none, audio_enc_ctx := none,
        audio_stream := none, sws_ctx := none, swr_ctx := none, frame_index := 0,
        audio_pts := 0, quality := q1, filename := session_filename ac lib.now }
      width height fps lib.video).2 q2 sample_rate channels ac br lib.audio
  unfold encoder_init
  simp only [apply_ite InitResult.ctx, apply_ite InitResult.audio_open_arg, hv, ha.1, ha.2.1,
    ha.2.2]
  generalize setup_video_stream _ width height fps lib.video = V
  generalize setup_audio_stream V.2 sample_rate channels ac br lib.audio = A
  clear hv ha
  constructor
  · split_ifs <;> simp
  · trivial

/-- A successful `setup_video_stream` has configured the video encoder. -/
theorem setup_video_stream_configured (c : EncoderContext) (w h f : Int)
    (lib : VideoSetupLib) (hret : 0 ≤ (setup_video_stream c w h f lib).1) :
    ∃ v : VideoCodecContext, (setup_video_stream c w h f lib).2.video_enc_ctx = some v ∧
      v.bit_rate = 400000 ∧ v.gop_size = 12 ∧ v.max_b_frames = 2 := by
  unfold setup_video_stream at hret ⊢
  cases hn : lib.new_stream with
  | none =>
    simp only [hn] at hret
    split_ifs at hret <;> simp at hret
  | some idx =>
    simp only [hn] at hret ⊢
    split_ifs at hret ⊢ <;> first
      | (exfalso; simp at hret; done)
      | (exfalso; omega)
      | exact ⟨_, rfl, rfl, rfl, rfl⟩

/-- C29: for every quality tier, every session `encoder_init` returns has a video encoder
configured with bit rate 400000, GOP size 12 and at most 2 B-frames (and `encoder_init`
does return a session for each tier when every library call succeeds); two constructions
that differ only in the tier return sessions that differ only in the stored `quality`
field, with the same audio encoder configuration. -/
theorem quality_only_stored (q1 q2 : Quality) (width height fps sample_rate channels : Int)
    (ac : AudioCodec) (br : Int) (lib : InitLib) :
    (encoder_init q1 width height fps sample_rate channels ac br lib).ctx.map
        (fun c => { c with quality := q2 }) =
      (encoder_init q2 width height fps sample_rate channels ac br lib).ctx ∧
    (encoder_init q1 width height fps sample_rate channels ac br lib).audio_open_arg =
      (encoder_init q2 width height fps sample_rate channels ac br lib).audio_open_arg ∧
    (∀ c : EncoderContext,
      (encoder_init q1 width height fps sample_rate channels ac br lib).ctx = some c →
      c.quality = q1 ∧
      (∃ v : VideoCodecContext, c.video_enc_ctx = some v ∧
        v.bit_rate = 400000 ∧ v.gop_size = 12 ∧ v.max_b_frames = 2) ∧
      ∀ v : VideoCodecContext, c.video_enc_ctx = some v →
        v.bit_rate = 400000 ∧ v.gop_size = 12 ∧ v.max_b_frames = 2) ∧
    (((encoder_init q1 1366 768 30 44100 2 AudioCodec.AUDIO_CODEC_AAC DEFAULT_AUDIO_BIT_RATE
        (all_ok_lib (some "/home/u".toList) sample_time)).ctx.bind
          EncoderContext.video_enc_ctx).map
        (fun v => (v.bit_rate, v.gop_size, v.max_b_frames)) = some (400000, 12, 2)) := by
  obtain ⟨h1, h2⟩ := encoder_init_quality q1 q2 width height fps sample_rate channels ac br lib
  refine ⟨h1, h2, ?_, ?_⟩
  · intro c hc
    refine ⟨(encoder_init_counters q1 width height fps sample_rate channels ac br lib c
      hc).2.2.1, ?_⟩
    unfold encoder_init at hc
    simp only [apply_ite InitResult.ctx] at hc
    have hp := setup_video_stream_configured
      { fmt_ctx := some ⟨if ac = AudioCodec.AUDIO_CODEC_PCM then some "mov".toList else none,
          snprintf 2048 (output_dir lib.home ++ session_filename ac lib.now), lib.nofile,
          lib.globalheader, none⟩,
        video_enc_ctx := none, video_stream := none, audio_enc_ctx := none,
        audio_stream := none, sws_ctx := none, swr_ctx := none, frame_index := 0,
        audio_pts := 0, quality := q1, filename := session_filename ac lib.now }
      width height fps lib.video
    have hk := setup_audio_stream_video
      (setup_video_stream
        { fmt_ctx := some ⟨if ac = AudioCodec.AUDIO_CODEC_PCM then some "mov".toList else none,
            snprintf 2048 (output_dir lib.home ++ session_filename ac lib.now), lib.nofile,
            lib.globalheader, none⟩,
          video_enc_ctx := none, video_stream := none, audio_enc_ctx := none,
          audio_stream := none, sws_ctx := none, swr_ctx := none, frame_index := 0,
          audio_pts := 0, quality := q1, filename := session_filename ac lib.now }
        width height fps lib.video).2 sample_rate channels ac br lib.audio
    simp only [] at hp hk
    generalize setup_video_stream _ width height fps lib.video = V at hc hp hk
    generalize setup_audio_stream V.2 sample_rate channels ac br lib.audio = A at hc hk
    have hpos : 0 ≤ V.1 := by
      by_contra hneg
      have hV : V.1 < 0 := by omega
      split_ifs at hc
    have hcv : c.video_enc_ctx = A.ctx.video_enc_ctx := by
      split_ifs at hc <;> simp at hc <;> subst hc <;> rfl
    obtain ⟨v, hv, a, b, d⟩ := hp hpos
    rw [← hk, ← hcv] at hv
    refine ⟨⟨v, hv, a, b, d⟩, ?_⟩
    intro v2 hv2
    rw [hv] at hv2
    cases hv2
    exact ⟨a, b, d⟩
  · cases q1 <;> decide

/-- C19 (the code at the failing input): when the audio device cannot be opened, the start
path still sets `is_recording = 1` and launches both worker loops, with a null `audio_ctx`
and the recorder and encoder contexts still held. -/
theorem start_without_audio_device :
    (audio_init no_audio_device.audio_init).1 = none ∧
    (start_path App.initial no_audio_device).is_recording = 1 ∧
    (start_path App.initial no_audio_device).record_thread = true ∧
    (start_path App.initial no_audio_device).audio_thread = true ∧
    (start_path App.initial no_audio_device).audio_ctx = none ∧
    (start_path App.initial no_audio_device).rec_ctx.isSome = true ∧
    (start_path App.initial no_audio_device).enc_ctx.isSome = true := by
  decide

theorem reachable_inactive (g : Gui) (h : Reachable g) :
    g.active = false → g.app = App.initial := by
  induction h with
  | initial => intro _; rfl
  | toggle g1 g2 lib p _ hstep _ =>
    intro hact
    unfold on_record_toggle at hstep
    by_cases ha : (!g1.active) = true
    · simp only [ha, if_true, Prod.mk.injEq, Option.some.injEq] at hstep
      rw [← hstep.2] at hact
      simp at hact
    · simp only [ha, Bool.false_eq_true, if_false, Prod.mk.injEq] at hstep
      have hg := hstep.2
      unfold stop_path at hg
      by_cases hf : g1.app.rec_ctx_freed = true
      · simp [hf] at hg
      · cases he : g1.app.enc_ctx with
        | none => simp [hf, he] at hg
        | some e =>
          simp only [hf, he, Bool.false_eq_true, if_false, Option.map_some',
            Option.some.injEq] at hg
          rw [← hg]
          rfl

/-- C21 (the code at the failing input, with the part of the claim that does hold): the
start path runs only from the Idle state the program starts in; but after a start attempt
that fails because the X display cannot be opened the toggle button stays active, so the
next activation runs the stop path from that Idle state, with `is_recording = 0` and a null
`enc_ctx`, where it is undefined. -/
theorem toggle_paths :
    (∀ (g : Gui) (lib : ToggleLib), Reachable g →
      (on_record_toggle g lib).1 = TogglePath.start → g.app = App.initial ∧ g.app.idle) ∧
    (on_record_toggle ⟨false, App.initial⟩ no_display =
        (TogglePath.start, some ⟨true, App.initial⟩) ∧
      Reachable ⟨true, App.initial⟩ ∧
      ¬ App.initial.recording ∧ App.initial.is_recording = 0 ∧
      (on_record_toggle ⟨true, App.initial⟩ ok_toggle).1 = TogglePath.stop ∧
      (on_record_toggle ⟨true, App.initial⟩ ok_toggle).2 = none) := by
  constructor
  · intro g lib hg hp
    have hact : g.active = false := by
      unfold on_record_toggle at hp
      by_cases ha : (!g.active) = true
      · simpa using ha
      · simp [ha] at hp
    have := reachable_inactive g hg hact
    rw [this]
    exact ⟨rfl, rfl⟩
  · have h1 : on_record_toggle ⟨false, App.initial⟩ no_display =
        (TogglePath.start, some ⟨true, App.initial⟩) := by decide
    refine ⟨h1, ?_, by decide, rfl, by decide, by decide⟩
    exact Reachable.toggle _ _ no_display TogglePath.start Reachable.initial h1

/-- C22: in one iteration of the audio loop with audio capture disabled nothing is
submitted to the encoder: `encoder_encode_audio_frame` is not called and the session -
`audio_pts`, `frame_index` and every other field - is as before. -/
theorem disabled_audio_iteration (a : AudioContext) (enc_ctx : Option EncoderContext)
    (dev : CaptureLib) (lib : AudioLib) (hoff : a.capture_audio = 0) :
    (audio_thread_iteration a enc_ctx dev lib).submit = none ∧
    (audio_thread_iteration a enc_ctx dev lib).enc_ctx = enc_ctx ∧
    (a.is_recording ≠ 0 → (audio_thread_iteration a enc_ctx dev lib).capture.ret = 0) ∧
    (audio_thread_iteration a enc_ctx dev lib).capture.calls = [] := by
  have hret : (audio_capture (some a) (audio_buffer_size a) dev).ret ≤ 0 ∧
      (audio_capture (some a) (audio_buffer_size a) dev).calls = [] ∧
      (a.is_recording ≠ 0 → (audio_capture (some a) (audio_buffer_size a) dev).ret = 0) := by
    unfold audio_capture
    by_cases harm : a.is_recording = 0
    · simp [harm]
    · simp [harm, hoff]
  have hn : ¬ (audio_capture (some a) (audio_buffer_size a) dev).ret > 0 := by omega
  have hit : audio_thread_iteration a enc_ctx dev lib =
      ⟨audio_capture (some a) (audio_buffer_size a) dev, none, none, enc_ctx⟩ := by
    unfold audio_thread_iteration
    simp only [hn, if_false]
  rw [hit]
  exact ⟨rfl, rfl, hret.2.2, hret.2.1⟩

/-- C22 (witness): the armed sample device with the toggle off, on a fresh session. -/
theorem disabled_audio_iteration_witness :
    (audio_thread_iteration { armed_audio with capture_audio := 0 } (some fresh_session)
        ready_device (audio_ok 1024).2.2).enc_ctx = some fresh_session :=
  (disabled_audio_iteration { armed_audio with capture_audio := 0 } (some fresh_session)
    ready_device (audio_ok 1024).2.2 rfl).2.1

/-- In full-desktop and monitor mode one video-loop iteration leaves the recorder context as
it is. -/
theorem desktop_iteration_keeps_region (r : RecorderContext) (enc : Option EncoderContext)
    (xs : XServer) (init : Nat → Nat) (lib : VideoLib) (hmode : r.is_window_capture = 0) :
    (record_thread_iteration (some r) enc xs init lib).rec_ctx = some r := by
  unfold record_thread_iteration
  simp only [hmode, ne_eq, not_true_eq_false, if_false]
  split <;> rfl

/-- In window-capture mode one video-loop iteration first stores the window's current
geometry in the recorder context, then captures with it. -/
theorem window_iteration (r : RecorderContext) (enc : Option EncoderContext) (xs : XServer)
    (init : Nat → Nat) (lib : VideoLib) (x y w h : Int) (hmode : r.is_window_capture ≠ 0)
    (hattr : xs.window_attributes r.target = some (x, y, w, h)) (buf : List Nat)
    (hcap : (recorder_capture_frame
      (some { r with x := x, y := y, width := w, height := h }) xs init).frame = some buf) :
    record_thread_iteration (some r) enc xs init lib =
      ⟨some { r with x := x, y := y, width := w, height := h },
        recorder_capture_frame (some { r with x := x, y := y, width := w, height := h }) xs
          init,
        some (encoder_encode_video_frame enc (some buf) lib),
        (encoder_encode_video_frame enc (some buf) lib).ctx⟩ := by
  have hmode2 : ¬ r.is_window_capture = 0 := hmode
  have hrec : recorder_update_window_geometry (some r) xs =
      (0, some { r with x := x, y := y, width := w, height := h }) := by
    simp [recorder_update_window_geometry, hmode2, hattr]
  unfold record_thread_iteration
  simp only [hmode, ne_eq, not_false_eq_true, if_true, hrec, hcap]

/-- C26 (the code at the failing input): a tracked window selected at 640x480, for which the
encoder was constructed, has been resized to 320x240.  The iteration refreshes the region,
`recorder_capture_frame` returns a buffer of 320*240*3 = 230400 bytes, and that buffer is
handed to `encoder_encode_video_frame`, which reads 640*480*3 = 921600 bytes from it. -/
theorem window_resize_overread (init : Nat → Nat) :
    (record_thread_iteration (some window_ctx) (some session_640x480) shrunk_xserver init
      sample_video_lib).rec_ctx = some { window_ctx with width := 320, height := 240 } ∧
    ((record_thread_iteration (some window_ctx) (some session_640x480) shrunk_xserver init
      sample_video_lib).capture.frame.map List.length) = some 230400 ∧
    ((record_thread_iteration (some window_ctx) (some session_640x480) shrunk_xserver init
      sample_video_lib).submit.isSome) = true ∧
    video_read_size session_640x480 = some 921600 := by
  have hcap := capture_frame_some { window_ctx with x := 10, y := 20, width := 320, height := 240 }
    shrunk_xserver init (fun i j => 65536 * (i + 1) + 256 * (j + 1) + 7) (by decide) rfl rfl
  have hbytes : (wrapInt32 (wrapInt32
      (({ window_ctx with x := 10, y := 20, width := 320, height := 240 } :
          RecorderContext).width *
        ({ window_ctx with x := 10, y := 20, width := 320, height := 240 } :
          RecorderContext).height) * 3) %
      18446744073709551616).toNat = 230400 := by decide
  have hit := window_iteration window_ctx (some session_640x480) shrunk_xserver init
    sample_video_lib 10 20 320 240 (by decide) rfl _ (congrArg CaptureResult.frame hcap)
  rw [hit]
  refine ⟨rfl, ?_, rfl, by decide⟩
  rw [hcap]
  simp only [Option.map_some', convert_rows_length, List.length_map, List.length_range, hbytes]

theorem tdiv_cancel (n d : Int) (hn : 0 ≤ n) (hd : 0 < d) : Int.tdiv (n * d) d = n := by
  rw [Int.tdiv_eq_ediv (Int.mul_nonneg hn (le_of_lt hd)) (le_of_lt hd)]
  exact Int.mul_ediv_cancel n (ne_of_gt hd)

/-- C28 (amended): for a channel count `c >= 1` with `1024*c*2 <= INT_MAX`, `audio_capture`
asks the device for exactly 1024 frames for the loop's buffer of `1024*c*2` bytes; and for
every positive frame count `f` with `f*c*2 <= INT_MAX`, the byte length `f*c*2` the loop
passes on is exactly `f` input samples on the encoder side. -/
theorem audio_sizes_agree (a : AudioContext) (f : Int) (hc : 1 ≤ a.channels)
    (hbuf : 1024 * a.channels * 2 ≤ INT_MAX) (hf : 0 < f)
    (hsize : f * a.channels * 2 ≤ INT_MAX) :
    audio_buffer_size a = 1024 * a.channels * 2 ∧
    Int.tdiv (audio_buffer_size a) (wrapInt32 (a.channels * 2)) = 1024 ∧
    wrapInt32 (f * bytes_per_frame a) = f * a.channels * 2 ∧
    in_samples (wrapInt32 (f * bytes_per_frame a)) a.channels = f ∧
    (∀ (enc : Option EncoderContext) (dev : CaptureLib) (lib : AudioLib),
      a.is_recording ≠ 0 → a.capture_audio ≠ 0 → dev.readi = f →
      (audio_thread_iteration a enc dev lib).capture.calls = [PcmCall.readi 1024] ∧
      (audio_thread_iteration a enc dev lib).size = some (f * a.channels * 2)) := by
  unfold INT_MAX at hbuf hsize
  have hb : bytes_per_frame a = a.channels * 2 := by
    unfold bytes_per_frame
    exact wrapInt32_of_range _ (by unfold INT_MIN; omega) (by unfold INT_MAX; omega)
  have hbs : audio_buffer_size a = 1024 * a.channels * 2 := by
    unfold audio_buffer_size
    rw [hb]
    have e : 1024 * (a.channels * 2) = 1024 * a.channels * 2 := by ring
    rw [e]
    exact wrapInt32_of_range _ (by unfold INT_MIN; omega) (by unfold INT_MAX; omega)
  have hreq : Int.tdiv (audio_buffer_size a) (wrapInt32 (a.channels * 2)) = 1024 := by
    have hb' : wrapInt32 (a.channels * 2) = a.channels * 2 := hb
    rw [hbs, hb']
    have e : 1024 * a.channels * 2 = 1024 * (a.channels * 2) := by ring
    rw [e]
    exact tdiv_cancel 1024 (a.channels * 2) (by norm_num) (by omega)
  have hfc : 0 ≤ f * a.channels := Int.mul_nonneg (le_of_lt hf) (by omega)
  have hsz : wrapInt32 (f * bytes_per_frame a) = f * a.channels * 2 := by
    rw [hb]
    have e : f * (a.channels * 2) = f * a.channels * 2 := by ring
    rw [e]
    exact wrapInt32_of_range _ (by unfold INT_MIN; omega) (by unfold INT_MAX; omega)
  have hch : a.channels ≤ INT_MAX := by
    unfold INT_MAX
    omega
  have hin : in_samples (wrapInt32 (f * bytes_per_frame a)) a.channels = f := by
    rw [hsz, in_samples_eq _ _ (by omega) (by unfold INT_MAX; omega) hc hch]
    have e : f * a.channels * 2 = f * (2 * a.channels) := by ring
    rw [e]
    exact Int.mul_ediv_cancel f (by omega)
  refine ⟨hbs, hreq, hsz, hin, ?_⟩
  intro enc dev lib harm hen hread
  have hnr : ¬ f < 0 := by omega
  have hcapt : audio_capture (some a) (audio_buffer_size a) dev =
      ⟨f, some a, [PcmCall.readi 1024]⟩ := by
    simp only [audio_capture, harm, hen, if_false, hreq, hread, hnr]
  unfold audio_thread_iteration
  simp only [hcapt, gt_iff_lt, hf, if_true, hsz, and_self]

/-- C28 (witness): the stereo sample device delivering 1024 frames. -/
theorem audio_sizes_agree_witness :
    audio_buffer_size armed_audio = 1024 * armed_audio.channels * 2 ∧
    Int.tdiv (audio_buffer_size armed_audio) (wrapInt32 (armed_audio.channels * 2)) = 1024 ∧
    wrapInt32 (1024 * bytes_per_frame armed_audio) = 1024 * armed_audio.channels * 2 ∧
    in_samples (wrapInt32 (1024 * bytes_per_frame armed_audio)) armed_audio.channels = 1024 :=
  ⟨(audio_sizes_agree armed_audio 1024 (by decide) (by decide) (by decide) (by decide)).1,
    (audio_sizes_agree armed_audio 1024 (by decide) (by decide) (by decide) (by decide)).2.1,
    (audio_sizes_agree armed_audio 1024 (by decide) (by decide) (by decide) (by decide)).2.2.1,
    (audio_sizes_agree armed_audio 1024 (by decide) (by decide) (by decide)
      (by decide)).2.2.2.1⟩

/-- C28 (counterexample): with 1048576 channels the loop's `1024*c*2` does not fit an `int`:
the buffer size is stored as -2147483648 and `audio_capture` asks the device for -1024
frames; and the byte length the loop computes for 1024 captured frames is not 1024 input
samples on the encoder side. -/
theorem audio_sizes_overflow :
    wide_audio.channels = 1048576 ∧
    audio_buffer_size wide_audio = -2147483648 ∧
    (audio_capture (some wide_audio) (audio_buffer_size wide_audio) ready_device).calls =
      [PcmCall.readi (-1024)] ∧
    in_samples (wrapInt32 (1024 * bytes_per_frame wide_audio)) wide_audio.channels ≠ 1024 := by
  decide

/-- C30 (the code at the failing input): in the Recording state reached with
`HOME=/home/u`, `encoder_init` opened
`/home/u/Videos/Screenrecords/screenrecording_20240102_030405.mp4`, but
`update_info_callback` passes the bare session file name to `stat`; with only the opened
file present it reports 0 bytes instead of the 5000 of that file. -/
theorem info_stats_bare_filename :
    recording_app.is_recording = 1 ∧
    (encoder_init ok_toggle.quality 1366 768 ok_toggle.fps 44100 2 ok_toggle.audio_codec
      DEFAULT_AUDIO_BIT_RATE ok_toggle.init).fullpath =
      some "/home/u/Videos/Screenrecords/screenrecording_20240102_030405.mp4".toList ∧
    (update_info_callback recording_app sample_stat).stat_path =
      some "screenrecording_20240102_030405.mp4".toList ∧
    (update_info_callback recording_app sample_stat).reported_size = some 0 ∧
    sample_stat "/home/u/Videos/Screenrecords/screenrecording_20240102_030405.mp4".toList =
      some 5000 := by
  decide

/-- C25 (amended): the code puts no mutual exclusion around the convert, encode and write
sequences: from the launch of the two loops an interleaving reaches a state in which the
video loop and the audio loop are both inside their submission; only submissions of one and
the same loop never overlap, a loop being sequential. -/
theorem submissions_overlap :
    WorkersReach ⟨LoopPc.submitting, LoopPc.submitting, true⟩ ∧
    (∀ (pc : LoopPc) (r got : Bool), pc = LoopPc.submitting →
      loop_step pc r got ≠ LoopPc.submitting) := by
  constructor
  · have h0 := WorkersReach.launch
    have h1 := WorkersReach.step _ _ h0 (WorkersStep.video _ true)
    have h2 := WorkersReach.step _ _ h1 (WorkersStep.video _ true)
    have h3 := WorkersReach.step _ _ h2 (WorkersStep.audio _ true)
    have h4 := WorkersReach.step _ _ h3 (WorkersStep.audio _ true)
    exact h4
  · intro pc r got hpc
    subst hpc
    simp [loop_step]

/-- C25 (counterexample): four steps after the launch - the video loop captures a frame and
enters its submission, then the audio loop captures a chunk and enters its own - both
loops are inside the sequence at the same time. -/
theorem both_loops_submitting :
    ∃ w1 w2 w3 : Workers,
      WorkersStep ⟨LoopPc.top, LoopPc.top, true⟩ w1 ∧ WorkersStep w1 w2 ∧
      WorkersStep w2 w3 ∧ WorkersStep w3 ⟨LoopPc.submitting, LoopPc.submitting, true⟩ :=
  ⟨⟨LoopPc.captured, LoopPc.top, true⟩, ⟨LoopPc.submitting, LoopPc.top, true⟩,
    ⟨LoopPc.submitting, LoopPc.captured, true⟩,
    WorkersStep.video ⟨LoopPc.top, LoopPc.top, true⟩ true,
    WorkersStep.video ⟨LoopPc.captured, LoopPc.top, true⟩ true,
    WorkersStep.audio ⟨LoopPc.submitting, LoopPc.top, true⟩ true,
    WorkersStep.audio ⟨LoopPc.submitting, LoopPc.captured, true⟩ true⟩

theorem parse_options_after_debug (n : Nat) (tail : List Int) (g : Int) (out : List Printed) :
    parse_options (List.replicate n OPT_DEBUG ++ tail) g out =
      parse_options tail (if n = 0 then g else 1)
        (out ++ List.replicate n Printed.debug_enabled) := by
  induction n generalizing g out with
  | zero => simp
  | succ k ih =>
    have h1 : OPT_DEBUG ≠ -1 := by decide
    have h2 : OPT_DEBUG ≠ OPT_HELP := by decide
    have h3 : OPT_DEBUG ≠ OPT_VERSION := by decide
    rw [List.replicate_succ, List.cons_append, parse_options, if_neg h1, if_neg h2, if_neg h3,
      if_pos rfl, ih]
    simp only [Nat.succ_eq_add_one, Nat.add_one_ne_zero, if_false, ite_self,
      List.replicate_succ, List.append_assoc, List.singleton_append]

/-- C23: `parse_options`, on the codes `getopt_long` yields left to right: after `n` debug
options (each sets the flag and prints the debug line, parsing continues), the first help
option prints usage and exits 0, the first version option prints the version line and exits
0, the first code that is none of the three prints usage and exits 1, and at the end of the
options the function returns, the debug flag being set exactly when a debug option was
given (`n` is not 0). -/
theorem parse_options_spec (n : Nat) (rest : List Int) (other : Int)
    (hother : other ≠ -1 ∧ other ≠ OPT_HELP ∧ other ≠ OPT_VERSION ∧ other ≠ OPT_DEBUG) :
    parse_options (List.replicate n OPT_DEBUG ++ OPT_HELP :: rest) 0 [] =
      ⟨some 0, debug_flag_after n, List.replicate n Printed.debug_enabled ++ [Printed.usage]⟩ ∧
    parse_options (List.replicate n OPT_DEBUG ++ OPT_VERSION :: rest) 0 [] =
      ⟨some 0, debug_flag_after n,
        List.replicate n Printed.debug_enabled ++ [Printed.version]⟩ ∧
    parse_options (List.replicate n OPT_DEBUG ++ other :: rest) 0 [] =
      ⟨some 1, debug_flag_after n, List.replicate n Printed.debug_enabled ++ [Printed.usage]⟩ ∧
    parse_options (List.replicate n OPT_DEBUG) 0 [] =
      ⟨none, debug_flag_after n, List.replicate n Printed.debug_enabled⟩ ∧
    parse_options (List.replicate n OPT_DEBUG ++ -1 :: rest) 0 [] =
      ⟨none, debug_flag_after n, List.replicate n Printed.debug_enabled⟩ ∧
    (debug_flag_after n = 1 ↔ n ≠ 0) ∧ (debug_flag_after n = 0 ↔ n = 0) := by
  have hv1 : OPT_VERSION ≠ -1 := by decide
  have hv2 : OPT_VERSION ≠ OPT_HELP := by decide
  have hh1 : OPT_HELP ≠ -1 := by decide
  refine ⟨?_, ?_, ?_, ?_, ?_, ?_, ?_⟩
  · rw [parse_options_after_debug, parse_options, if_neg hh1, if_pos rfl]
    simp [debug_flag_after]
  · rw [parse_options_after_debug, parse_options, if_neg hv1, if_neg hv2, if_pos rfl]
    simp [debug_flag_after]
  · rw [parse_options_after_debug, parse_options, if_neg hother.1, if_neg hother.2.1,
      if_neg hother.2.2.1, if_neg hother.2.2.2]
    simp [debug_flag_after]
  · have h := parse_options_after_debug n [] 0 []
    rw [List.append_nil] at h
    rw [h, parse_options]
    simp [debug_flag_after]
  · rw [parse_options_after_debug, parse_options, if_pos rfl]
    simp [debug_flag_after]
  · unfold debug_flag_after
    split_ifs with h <;> simp [h]
  · unfold debug_flag_after
    split_ifs with h <;> simp [h]

/-- C23 (witness): two debug options followed by the unrecognised-option code `?`. -/
theorem parse_options_spec_witness :
    (OPT_UNKNOWN ≠ -1 ∧ OPT_UNKNOWN ≠ OPT_HELP ∧ OPT_UNKNOWN ≠ OPT_VERSION ∧
      OPT_UNKNOWN ≠ OPT_DEBUG) ∧
    parse_options (List.replicate 2 OPT_DEBUG ++ OPT_UNKNOWN :: [OPT_HELP]) 0 [] =
      ⟨some 1, debug_flag_after 2,
        List.replicate 2 Printed.debug_enabled ++ [Printed.usage]⟩ :=
  ⟨by decide, (parse_options_spec 2 [OPT_HELP] OPT_UNKNOWN (by decide)).2.2.1⟩

end CERAS
